import Mathlib

/-!
spcslam: bundle adjustment, RANSAC odometry and chessboard calibration.

A shallow embedding of `src/src/cartography.cpp` and
`src/include/calibration/generic_calibration.h`.

Conventions of the embedding.

* `double` values are elements of a linearly ordered field `R`; the concrete
  evaluations use `ℚ`, the statements that need `sqrt` and `acos` use `ℝ`.
* `int` is `Int` together with the wrap-around conversion `toInt32`;
  `size_t` and `unsigned int` are `Nat` modulo `2 ^ 64` and `2 ^ 32`.
* Code that lives outside the source files is a parameter: geometry.h, the
  camera of vision.h, `<cmath>` and the ceres solve of the odometry are the
  fields of `External`, the ceres solve of the bundle adjuster is a `Solver`,
  the OpenCV calls of the calibration are a `BoardDetector`, the file system
  is a function from file names to contents, and `rand()` is the sequence of
  the values it returns.
* A pointer handed to the solver is a `ParamBlock`: the name of the three
  doubles it points to.
* A run that can fail to return has the type `Run`; retry loops take fuel.
* A `double` that is not a number is modelled where the code can produce one:
  the angles of `checkSpan` are `Option` values, `none` for 0/0 and for an arc
  cosine outside [-1, 1], and a comparison with `none` is false.
-/

namespace SpcSlam

set_option exponentiation.threshold 1100

/-! ## Machine integers -/

/-- Conversion of an integer value to a 32-bit `int` (two's complement wrap-around). -/
def toInt32 (n : Int) : Int := (n + 2 ^ 31) % 2 ^ 32 - 2 ^ 31

/-- Conversion of an integer value to `unsigned int`. -/
def toUInt32 (n : Int) : Nat := (n % 2 ^ 32).toNat

/-- Conversion of an integer value to `size_t` (64 bit). -/
def toSizeT (n : Int) : Nat := (n % 2 ^ 64).toNat

/-! ## Data model -/

/-- The type `Eigen::Vector3d`. -/
structure Vector3d (R : Type) where
  x : R
  y : R
  z : R
deriving DecidableEq

/-- The type `Eigen::Vector2d`. -/
structure Vector2d (R : Type) where
  x : R
  y : R
deriving DecidableEq

/-- Modelled from the spec: the class `Transformation<double>` of geometry.h,
six scalars, a translation and an axis-angle rotation, exposed to the solver
as the two blocks `transData()` and `rotData()`. -/
structure Transformation (R : Type) where
  mtrans : Vector3d R
  mrot : Vector3d R
deriving DecidableEq

/-- Modelled from the spec: the camera tag of an observation (cartography.h). -/
inductive CameraID where
  | LEFT
  | RIGHT
deriving DecidableEq

/-- Modelled from the spec: `Observation` of cartography.h, with the fields
the source reads: `pt`, `poseIdx` (an `int`) and `cameraId`. -/
structure Observation (R : Type) where
  pt : Vector2d R
  poseIdx : Int
  cameraId : CameraID
deriving DecidableEq

/-- Modelled from the spec: `LandMark` of cartography.h: position `X`,
descriptor `d` (only handed to the external matcher) and the observations. -/
structure LandMark (R : Type) where
  X : Vector3d R
  d : List Nat
  observations : List (Observation R)

/-- Modelled from the spec: the stereo rig of vision.h; the two cameras are
named by `CameraID`, their extrinsics are `TbaseCam1` and `TbaseCam2`. -/
structure StereoSystem (R : Type) where
  TbaseCam1 : Transformation R
  TbaseCam2 : Transformation R

/-- Modelled from the spec: the members of `StereoCartography` (cartography.h)
that the source file reads. -/
structure StereoCartography (R : Type) where
  trajectory : List (Transformation R)
  WM : List (LandMark R)
  STM : List (LandMark R)
  stereo : StereoSystem R

instance {R : Type} [Zero R] : Inhabited (Vector3d R) := ⟨⟨0, 0, 0⟩⟩

instance {R : Type} [Zero R] : Inhabited (Vector2d R) := ⟨⟨0, 0⟩⟩

instance {R : Type} [Zero R] : Inhabited (Transformation R) := ⟨⟨default, default⟩⟩

/-- The element `v[i]` of a vector indexed by an `int`; reading outside the
vector is undefined in the source and yields the default value here. -/
def atInt {α : Type} [Inhabited α] (v : List α) : Int → α
  | Int.ofNat n => v.getD n default
  | Int.negSucc _ => default

/-! ## The solver interface (ceres) -/

/-- A parameter block registered with the solver: the address of three
doubles. `landmarkX i` is `WM[i].X.data()`, `transData p` and `rotData p` are
`trajectory[p].transData()` and `trajectory[p].rotData()`. -/
inductive ParamBlock where
  | landmarkX (wmIdx : Nat)
  | transData (poseIdx : Int)
  | rotData (poseIdx : Int)
deriving DecidableEq

/-- The two cost functions of the bundle adjuster with the data their
constructors bind by value. -/
inductive CostFunction (R : Type) where
  | ReprojectionErrorFixed (pt : Vector2d R) (TorigBase TbaseCam : Transformation R)
      (camera : CameraID)
  | ReprojectionErrorStereo (pt : Vector2d R) (TbaseCam : Transformation R)
      (camera : CameraID)
deriving DecidableEq

/-- One call of `problem.AddResidualBlock(costFunc, NULL, blocks...)`. -/
structure ResidualBlock (R : Type) where
  costFunc : CostFunction R
  params : List ParamBlock
deriving DecidableEq

/-- Whether the residual is a `ReprojectionErrorFixed`. -/
def ResidualBlock.isFixed {R : Type} (rb : ResidualBlock R) : Bool :=
  match rb.costFunc with
  | .ReprojectionErrorFixed _ _ _ _ => true
  | .ReprojectionErrorStereo _ _ _ => false

/-- Whether the residual is a `ReprojectionErrorStereo`. -/
def ResidualBlock.isStereo {R : Type} (rb : ResidualBlock R) : Bool :=
  match rb.costFunc with
  | .ReprojectionErrorFixed _ _ _ _ => false
  | .ReprojectionErrorStereo _ _ _ => true

/-- The class `MapInitializer`: it owns a ceres `Problem`, the residual blocks
in the order they were added. -/
structure MapInitializer (R : Type) where
  problem : List (ResidualBlock R)

/-- The function `MapInitializer::addFixedObservation`: a `ReprojectionErrorFixed`
with the pose bound by value; the only parameter block is `X.data()`. -/
def MapInitializer.addFixedObservation {R : Type} (self : MapInitializer R) (X : Nat)
    (pt : Vector2d R) (pose : Transformation R) (cam : CameraID)
    (TbaseCam : Transformation R) : MapInitializer R :=
  { problem := self.problem ++
      [{ costFunc := .ReprojectionErrorFixed pt pose TbaseCam cam,
         params := [.landmarkX X] }] }

/-- The function `MapInitializer::addObservation`: a `ReprojectionErrorStereo`
over `X.data()`, `pose.transData()` and `pose.rotData()`; `pose` is the index
of the trajectory element the reference points to. -/
def MapInitializer.addObservation {R : Type} (self : MapInitializer R) (X : Nat)
    (pt : Vector2d R) (pose : Int) (cam : CameraID)
    (TbaseCam : Transformation R) : MapInitializer R :=
  { problem := self.problem ++
      [{ costFunc := .ReprojectionErrorStereo pt TbaseCam cam,
         params := [.landmarkX X, .transData pose, .rotData pose] }] }

/-- The memory the solver works on: the three doubles behind every block. -/
abbrev Memory (R : Type) := ParamBlock → Vector3d R

/-- The call `Solve(options, &problem, &summary)`: it receives the problem
and the memory and returns the memory after the solve. -/
abbrev Solver (R : Type) := List (ResidualBlock R) → Memory R → Memory R

/-- A solver that writes only to blocks registered with the problem. -/
def Solver.MutatesOnlyRegistered {R : Type} (solve : Solver R) : Prop :=
  ∀ (problem : List (ResidualBlock R)) (m : Memory R) (b : ParamBlock),
    (∀ rb ∈ problem, b ∉ rb.params) → solve problem m b = m b

/-- The doubles behind a block, read from the map. -/
def StereoCartography.read {R : Type} [Zero R] (self : StereoCartography R) : Memory R
  | .landmarkX i => (self.WM.getD i ⟨default, [], []⟩).X
  | .transData p => (atInt self.trajectory p).mtrans
  | .rotData p => (atInt self.trajectory p).mrot

/-- The map after the solver has written the memory `m` back through the
registered pointers. -/
def StereoCartography.write {R : Type} (self : StereoCartography R) (m : Memory R) :
    StereoCartography R :=
  { self with
    trajectory := (List.range self.trajectory.length).map fun (i : Nat) =>
      { mtrans := m (.transData (Int.ofNat i)), mrot := m (.rotData (Int.ofNat i)) }
    WM := self.WM.enum.map fun p => { p.2 with X := m (.landmarkX p.1) } }

/-- The function `MapInitializer::compute` applied to the map that owns the
parameter blocks. -/
def MapInitializer.compute {R : Type} [Zero R] (self : MapInitializer R) (solve : Solver R)
    (map : StereoCartography R) : StereoCartography R :=
  map.write (solve self.problem map.read)

/-! ## Bundle adjustment -/

/-- The value of `lastFixedPos` in `improveTheMap`:
`int step = trajectory.size()-1; lastFixedPos = max(1, step - 4)`. -/
def improveTheMap.lastFixedPos (firstBA : Bool) (trajectorySize : Nat) : Int :=
  if firstBA then 0
  else
    let step : Int := toInt32 (toSizeT ((trajectorySize : Int) - 1))
    max 1 (toInt32 (step - 4))

/-- The body of the inner loop of `improveTheMap` for one observation. -/
def improveTheMap.body {R : Type} [Zero R] (self : StereoCartography R) (lastFixedPos : Int)
    (landmark : Nat) (initializer : MapInitializer R) (observation : Observation R) :
    MapInitializer R :=
  let xiIdx := observation.poseIdx
  if xiIdx ≤ lastFixedPos then
    if observation.cameraId = CameraID.LEFT then
      initializer.addFixedObservation landmark observation.pt
        (atInt self.trajectory xiIdx) CameraID.LEFT self.stereo.TbaseCam1
    else
      initializer.addFixedObservation landmark observation.pt
        (atInt self.trajectory xiIdx) CameraID.RIGHT self.stereo.TbaseCam2
  else if observation.cameraId = CameraID.LEFT then
    initializer.addObservation landmark observation.pt xiIdx CameraID.LEFT
      self.stereo.TbaseCam1
  else
    initializer.addObservation landmark observation.pt xiIdx CameraID.RIGHT
      self.stereo.TbaseCam2

/-- The two nested loops of `improveTheMap` over `WM` and the observations of
each landmark; `landmark` is the index in `WM` of the head of the list. -/
def improveTheMap.loop {R : Type} [Zero R] (self : StereoCartography R) (lastFixedPos : Int) :
    Nat → List (LandMark R) → MapInitializer R → MapInitializer R
  | _, [], initializer => initializer
  | landmark, lm :: rest, initializer =>
    improveTheMap.loop self lastFixedPos (landmark + 1) rest
      (lm.observations.foldl (improveTheMap.body self lastFixedPos landmark) initializer)

/-- The problem `improveTheMap` hands to the solver: `none` when
`WM.size() > 10` fails and no solver is run. -/
def improveTheMap.problem {R : Type} [Zero R] (self : StereoCartography R) (firstBA : Bool) :
    Option (List (ResidualBlock R)) :=
  let lastFixedPos := improveTheMap.lastFixedPos firstBA self.trajectory.length
  if self.WM.length > 10 then
    some (improveTheMap.loop self lastFixedPos 0 self.WM { problem := [] }).problem
  else
    none

/-- The function `StereoCartography::improveTheMap`. -/
def improveTheMap {R : Type} [Zero R] (solve : Solver R) (self : StereoCartography R)
    (firstBA : Bool) : StereoCartography R :=
  let lastFixedPos := improveTheMap.lastFixedPos firstBA self.trajectory.length
  if self.WM.length > 10 then
    let initializer := improveTheMap.loop self lastFixedPos 0 self.WM { problem := [] }
    initializer.compute solve self
  else
    self

/-- The body of the inner loop of `improveTheMap_2` for one observation. -/
def improveTheMap_2.body {R : Type} [Zero R] (self : StereoCartography R)
    (landmark : Nat) (initializer : MapInitializer R) (observation : Observation R) :
    MapInitializer R :=
  let xiIdx := observation.poseIdx
  if xiIdx = 0 then
    if observation.cameraId = CameraID.LEFT then
      initializer.addFixedObservation landmark observation.pt
        (atInt self.trajectory xiIdx) CameraID.LEFT self.stereo.TbaseCam1
    else
      initializer.addFixedObservation landmark observation.pt
        (atInt self.trajectory xiIdx) CameraID.RIGHT self.stereo.TbaseCam2
  else if observation.cameraId = CameraID.LEFT then
    initializer.addObservation landmark observation.pt xiIdx CameraID.LEFT
      self.stereo.TbaseCam1
  else
    initializer.addObservation landmark observation.pt xiIdx CameraID.RIGHT
      self.stereo.TbaseCam2

/-- The two nested loops of `improveTheMap_2`. -/
def improveTheMap_2.loop {R : Type} [Zero R] (self : StereoCartography R) :
    Nat → List (LandMark R) → MapInitializer R → MapInitializer R
  | _, [], initializer => initializer
  | landmark, lm :: rest, initializer =>
    improveTheMap_2.loop self (landmark + 1) rest
      (lm.observations.foldl (improveTheMap_2.body self landmark) initializer)

/-- The problem `improveTheMap_2` hands to the solver. -/
def improveTheMap_2.problem {R : Type} [Zero R] (self : StereoCartography R) :
    List (ResidualBlock R) :=
  (improveTheMap_2.loop self 0 self.WM { problem := [] }).problem

/-- The function `StereoCartography::improveTheMap_2`. -/
def improveTheMap_2 {R : Type} [Zero R] (solve : Solver R) (self : StereoCartography R) :
    StereoCartography R :=
  (improveTheMap_2.loop self 0 self.WM { problem := [] }).compute solve self

/-- The residual block the bundle adjuster builds for one observation of the
landmark `WM[landmark]`: fixed (pose bound by value, landmark block only) or
free (landmark, translation and rotation blocks of `trajectory[poseIdx]`),
with the camera and rig extrinsic selected by the observation's camera tag. -/
def residualFor {R : Type} [Zero R] (self : StereoCartography R) (poseFixed : Bool)
    (landmark : Nat) (ob : Observation R) : ResidualBlock R :=
  let TbaseCam := if ob.cameraId = CameraID.LEFT then self.stereo.TbaseCam1
    else self.stereo.TbaseCam2
  if poseFixed then
    { costFunc := .ReprojectionErrorFixed ob.pt (atInt self.trajectory ob.poseIdx) TbaseCam
        ob.cameraId,
      params := [.landmarkX landmark] }
  else
    { costFunc := .ReprojectionErrorStereo ob.pt TbaseCam ob.cameraId,
      params := [.landmarkX landmark, .transData ob.poseIdx, .rotData ob.poseIdx] }

/-- The residual blocks of a whole working map when `rule` decides which
observations are pose-fixed: one block per observation, landmarks in `WM`
order and observations in their stored order. -/
def residualsFor {R : Type} [Zero R] (self : StereoCartography R) (rule : Int → Bool) :
    Nat → List (LandMark R) → List (ResidualBlock R)
  | _, [] => []
  | landmark, lm :: rest =>
    lm.observations.map (fun ob => residualFor self (rule ob.poseIdx) landmark ob) ++
      residualsFor self rule (landmark + 1) rest

/-! ## Concrete inputs for the bundle adjuster -/

/-- A map with ten poses and eleven landmarks; landmark `i` is seen by the
left and by the right camera at pose `min i 9`. -/
def exampleMap : StereoCartography ℚ :=
  { trajectory := (List.range 10).map fun (i : Nat) => ⟨⟨(i : ℚ), 0, 0⟩, ⟨0, 0, 0⟩⟩
    WM := (List.range 11).map fun (i : Nat) =>
      { X := ⟨(i : ℚ), 0, 2⟩
        d := []
        observations :=
          [⟨⟨0, 0⟩, ((min i 9 : Nat) : Int), CameraID.LEFT⟩,
           ⟨⟨1, 1⟩, ((min i 9 : Nat) : Int), CameraID.RIGHT⟩] }
    STM := []
    stereo := ⟨⟨⟨0, 0, 0⟩, ⟨0, 0, 0⟩⟩, ⟨⟨1, 0, 0⟩, ⟨0, 0, 0⟩⟩⟩ }

/-- A solver that moves every registered block by one unit along x and
touches nothing else. -/
def exampleSolver : Solver ℚ := fun problem m b =>
  if problem.any (fun rb => decide (b ∈ rb.params)) then
    ⟨(m b).x + 1, (m b).y, (m b).z⟩
  else m b

/-! ## Outcomes of a run -/

/-- How a piece of the program ends: it returns a value, calls `exit(1)`,
fails an `assert`, runs into undefined behaviour (a modulo by zero), or is
still inside a retry loop when the fuel of the model is used up. -/
inductive Run (α : Type) where
  | done (a : α)
  | exit1
  | assertFail
  | undefinedBehaviour
  | outOfFuel
deriving DecidableEq

/-- Sequencing of runs: the first outcome that is not a value ends the run. -/
def Run.bind {α β : Type} : Run α → (α → Run β) → Run β
  | .done a, f => f a
  | .exit1, _ => .exit1
  | .assertFail, _ => .assertFail
  | .undefinedBehaviour, _ => .undefinedBehaviour
  | .outOfFuel, _ => .outOfFuel

/-! ## External collaborators -/

/-- The code the source files call but do not contain: geometry.h
(`compose`, `inverseCompose`, `inverseTransform`), the camera of vision.h, `<cmath>` and the
ceres solve of a problem made of `OdometryError` residuals over the two
blocks of one pose (arguments: rig extrinsic, the pairs of landmark and
pixel, `max_num_iterations` when it is set, and the starting pose). -/
structure External (R : Type) where
  compose : Transformation R → Transformation R → Transformation R
  inverseCompose : Transformation R → Transformation R → Transformation R
  inverseTransform : Transformation R → Vector3d R → Vector3d R
  projectPoint : CameraID → Vector3d R → Vector2d R × Bool
  sqrt : R → R
  acos : R → R
  solveOdometry : Transformation R → CameraID → List (Vector3d R × Vector2d R) → Option Nat →
    Transformation R → Transformation R

/-- The call `camera.projectPointCloud(src, dst)`: every point gets a slot. -/
def External.projectPointCloud {R : Type} (ext : External R) (camera : CameraID)
    (src : List (Vector3d R)) : List (Vector2d R) :=
  src.map fun X => (ext.projectPoint camera X).1

/-- The product `a.dot(b)` of Eigen. -/
def Vector3d.dot {R : Type} [Add R] [Mul R] (a b : Vector3d R) : R :=
  a.x * b.x + a.y * b.y + a.z * b.z

/-- The value `a.norm()` of Eigen for a 3-vector. -/
def Vector3d.norm {R : Type} [Add R] [Mul R] (ext : External R) (a : Vector3d R) : R :=
  ext.sqrt (a.dot a)

/-- The difference `a - b` of two pixels. -/
def Vector2d.sub {R : Type} [Sub R] (a b : Vector2d R) : Vector2d R :=
  ⟨a.x - b.x, a.y - b.y⟩

/-- The value `a.norm()` of Eigen for a 2-vector. -/
def Vector2d.norm {R : Type} [Add R] [Mul R] (ext : External R) (a : Vector2d R) : R :=
  ext.sqrt (a.x * a.x + a.y * a.y)

/-! ## Odometry: span test and RANSAC -/

/-- Modelled from the spec: the members of the class `Odometry` (cartography.h)
that the source file reads and writes. -/
structure Odometry (R : Type) where
  TorigBase : Transformation R
  TbaseCam : Transformation R
  camera : CameraID
  observationVec : List (Vector2d R)
  cloud : List (Vector3d R)
  inlierMask : List Bool
  observationVec_2 : List (List (Vector2d R))
  inlierMask_2 : List (List Bool)

/-- The angle `std::acos(a.dot(b) / (a.norm() * b.norm()))` of `checkSpan`;
`none` stands for "not a number": the product of the norms is 0, so that the
quotient is 0/0 or infinite, or the quotient lies outside [-1, 1], where
`acos` has no value. -/
def Odometry.checkSpan.theta {R : Type} [LinearOrderedField R] (ext : External R)
    (a b : Vector3d R) : Option R :=
  if a.norm ext * b.norm ext = 0 then none
  else if a.dot b / (a.norm ext * b.norm ext) < -1 ∨ 1 < a.dot b / (a.norm ext * b.norm ext) then
    none
  else some (ext.acos (a.dot b / (a.norm ext * b.norm ext)))

/-- The comparison `std::abs(x - y) >= angleTh` of `checkSpan`: it is false as
soon as `x` or `y` is not a number. -/
def Odometry.checkSpan.apart {R : Type} [LinearOrderedField R] (x y : Option R) (angleTh : R) :
    Bool :=
  match x, y with
  | some a, some b => decide (abs (a - b) ≥ angleTh)
  | _, _ => false

/-- The function `Odometry::checkSpan`. -/
def Odometry.checkSpan {R : Type} [LinearOrderedField R] (ext : External R) (self : Odometry R)
    (ransacHP : List (Vector3d R)) (angleTh : R) : Run Bool :=
  if ransacHP.length ≠ 3 then Run.assertFail
  else
    let tC := ext.compose self.TorigBase self.TbaseCam
    let HP := ransacHP.map (ext.inverseTransform tC)
    let theta1 := Odometry.checkSpan.theta ext (HP.getD 0 default) (HP.getD 1 default)
    let theta2 := Odometry.checkSpan.theta ext (HP.getD 0 default) (HP.getD 2 default)
    let theta3 := Odometry.checkSpan.theta ext (HP.getD 1 default) (HP.getD 2 default)
    let result := Odometry.checkSpan.apart theta1 theta2 angleTh &&
      (Odometry.checkSpan.apart theta1 theta3 angleTh &&
        Odometry.checkSpan.apart theta2 theta3 angleTh)
    Run.done result

/-- A retry loop `do { idx = rand() % maxIdx; } while (idx is one of avoid);`.
The stream `rand` lists the values `rand()` returns, `pos` counts the calls
made so far; the result is the index and the new call count. -/
def drawIndex (rand : Nat → Nat) (maxIdx : Nat) (avoid : List Nat) : Nat → Nat → Run (Nat × Nat)
  | 0, _ => Run.outOfFuel
  | fuel + 1, pos =>
    if maxIdx = 0 then Run.undefinedBehaviour
    else
      let idx := rand pos % maxIdx
      if idx ∈ avoid then drawIndex rand maxIdx avoid fuel (pos + 1)
      else Run.done (idx, pos + 1)

/-- The three landmark indices of an accepted sample and the number of
`rand()` calls made so far. -/
structure Sample where
  idx1m : Nat
  idx2m : Nat
  idx3m : Nat
  pos : Nat
deriving DecidableEq

/-- The sampling loop shared by `Ransac` (lines 415 to 438, `angleTh = 0.2`) and
`Ransac_2` (lines 506 to 529, `angleTh = 0.15`):
`do { draw three distinct indices; counter++; if (counter == 10000) exit(1); }
while (checkSpan(ransacHP, angleTh) == false);`.
The first argument bounds the number of passes of the outer loop, `fuel`
bounds each inner retry loop. -/
def Odometry.sampleLoop {R : Type} [LinearOrderedField R] (ext : External R) (self : Odometry R)
    (rand : Nat → Nat) (maxIdx : Nat) (angleTh : R) (fuel : Nat) :
    Nat → Nat → Nat → Run Sample
  | 0, _, _ => Run.outOfFuel
  | passes + 1, counter, pos =>
    if maxIdx = 0 then Run.undefinedBehaviour
    else
      let idx1m := rand pos % maxIdx
      (drawIndex rand maxIdx [idx1m] fuel (pos + 1)).bind fun r2 =>
      (drawIndex rand maxIdx [idx1m, r2.1] fuel r2.2).bind fun r3 =>
      let ransacHP := [self.cloud.getD idx1m default, self.cloud.getD r2.1 default,
        self.cloud.getD r3.1 default]
      let counter := counter + 1
      if counter = 10000 then Run.exit1
      else
        (self.checkSpan ext ransacHP angleTh).bind fun ok =>
        if ok = false then
          Odometry.sampleLoop ext self rand maxIdx angleTh fuel passes counter r3.2
        else Run.done ⟨idx1m, r2.1, r3.1, r3.2⟩

/-- The call `v.resize(n)` of a `vector<bool>` or of a vector of vectors. -/
def resize {α : Type} (v : List α) (n : Nat) (fill : α) : List α :=
  v.take n ++ List.replicate (n - v.length) fill

/-- The state carried through the iterations of `Ransac` and `Ransac_2`: the
object, the local `bestInliers` and the number of `rand()` calls so far. -/
structure RansacState (R : Type) where
  self : Odometry R
  bestInliers : Int
  pos : Nat

/-- The hypothesis of one RANSAC iteration: the solved pose, the inlier
masks (flat for `Ransac`, per pool for `Ransac_2`), the inlier count and the
number of `rand()` calls so far. -/
structure Hypothesis (R : Type) where
  pose : Transformation R
  currentInlierMask : List Bool
  currentInlierMask_2 : List (List Bool)
  countInliers : Int
  pos : Nat

/-- The loop "count inliers" of `Ransac`: returns `currentInlierMask` and
`countInliers`. -/
def Odometry.Ransac.countInliers {R : Type} [LinearOrderedField R] (ext : External R)
    (observationVec projVec : List (Vector2d R)) (numPoints : Nat) : List Bool × Int :=
  (List.range numPoints).foldl
    (fun (acc : List Bool × Int) (i : Nat) =>
      let err := (observationVec.getD i default).sub (projVec.getD i default)
      if err.norm ext < 2 then (acc.1.set i true, acc.2 + 1) else acc)
    (List.replicate numPoints false, 0)

/-- One iteration of `Ransac` up to and including the inlier count. -/
def Odometry.Ransac.hypothesis {R : Type} [LinearOrderedField R] (ext : External R)
    (rand : Nat → Nat) (fuel : Nat) (initialPose : Transformation R) (numPoints : Nat)
    (st : RansacState R) : Run (Hypothesis R) :=
  let self := st.self
  let pose := initialPose
  let maxIdx := self.observationVec.length
  (self.sampleLoop ext rand maxIdx (0.2 : R) fuel 10000 0 st.pos).bind fun s =>
  let residuals := [s.idx1m, s.idx2m, s.idx3m].map fun i =>
    (self.cloud.getD i default, self.observationVec.getD i default)
  let pose := ext.solveOdometry self.TbaseCam self.camera residuals (some 10) pose
  let TorigCam := ext.compose pose self.TbaseCam
  let XcamVec := self.cloud.map (ext.inverseTransform TorigCam)
  let projVec := ext.projectPointCloud self.camera XcamVec
  let counted := Odometry.Ransac.countInliers ext self.observationVec projVec numPoints
  Run.done ⟨pose, counted.1, [], counted.2, s.pos⟩

/-- The block "keep the best hypothesis" of `Ransac`. -/
def Odometry.Ransac.keepBest {R : Type} (st : RansacState R) (h : Hypothesis R) :
    RansacState R :=
  if h.countInliers > st.bestInliers then
    { self := { st.self with inlierMask := h.currentInlierMask, TorigBase := h.pose }
      bestInliers := h.countInliers
      pos := h.pos }
  else
    { st with pos := h.pos }

/-- One iteration of the `for` loop of `Ransac`. -/
def Odometry.Ransac.iteration {R : Type} [LinearOrderedField R] (ext : External R)
    (rand : Nat → Nat) (fuel : Nat) (initialPose : Transformation R) (numPoints : Nat)
    (st : RansacState R) : Run (RansacState R) :=
  (Odometry.Ransac.hypothesis ext rand fuel initialPose numPoints st).bind fun h =>
  Run.done (Odometry.Ransac.keepBest st h)

/-- The `for` loop of `Ransac` run for `numIter` iterations. -/
def Odometry.Ransac.loop {R : Type} [LinearOrderedField R] (ext : External R)
    (rand : Nat → Nat) (fuel : Nat) (initialPose : Transformation R) (numPoints : Nat) :
    Nat → RansacState R → Run (RansacState R)
  | 0, st => Run.done st
  | numIter + 1, st =>
    (Odometry.Ransac.iteration ext rand fuel initialPose numPoints st).bind fun st1 =>
    Odometry.Ransac.loop ext rand fuel initialPose numPoints numIter st1

/-- The function `Odometry::Ransac`; `pos` is the number of `rand()` calls made
before the call. -/
def Odometry.Ransac {R : Type} [LinearOrderedField R] (ext : External R) (rand : Nat → Nat)
    (fuel : Nat) (self : Odometry R) (pos : Nat) : Run (RansacState R) :=
  if self.observationVec.length ≠ self.cloud.length then Run.assertFail
  else
    let numPoints := self.observationVec.length
    let self := { self with inlierMask := resize self.inlierMask numPoints false }
    let numIterMax := 300
    let initialPose := self.TorigBase
    Odometry.Ransac.loop ext rand fuel initialPose numPoints numIterMax
      { self := self, bestInliers := 0, pos := pos }

/-- The inner loop of the inlier count of `Ransac_2` over one pool: the
smallest error norm seen so far (starting from 1000000) and the first pool
index that attains it (`best` is unset in the source until then, 0 here). -/
def Odometry.Ransac_2.bestOfPool {R : Type} [LinearOrderedField R] (ext : External R)
    (pool : List (Vector2d R)) (proj : Vector2d R) : R × Nat :=
  (List.range pool.length).foldl
    (fun (acc : R × Nat) (j : Nat) =>
      let errNormTemp := ((pool.getD j default).sub proj).norm ext
      if errNormTemp < acc.1 then (errNormTemp, j) else acc)
    (1000000, 0)

/-- The loops "initialize empty inlier mask" and "count inliers" of `Ransac_2`. -/
def Odometry.Ransac_2.countInliers {R : Type} [LinearOrderedField R] (ext : External R)
    (observationVec_2 : List (List (Vector2d R))) (projVec : List (Vector2d R))
    (numPoints : Nat) : List (List Bool) × Int :=
  (List.range numPoints).foldl
    (fun (acc : List (List Bool) × Int) (i : Nat) =>
      let b := Odometry.Ransac_2.bestOfPool ext (observationVec_2.getD i [])
        (projVec.getD i default)
      if b.1 < 2 then (acc.1.set i ((acc.1.getD i []).set b.2 true), acc.2 + 1) else acc)
    ((List.range numPoints).map
      (fun (i : Nat) => List.replicate (observationVec_2.getD i []).length false), 0)

/-- The draw `rand() % observationVec_2[idx].size()` of `Ransac_2`. -/
def Odometry.Ransac_2.drawFeature {R : Type} (self : Odometry R) (rand : Nat → Nat)
    (idx pos : Nat) : Run (Nat × Nat) :=
  if (self.observationVec_2.getD idx []).length = 0 then Run.undefinedBehaviour
  else Run.done (rand pos % (self.observationVec_2.getD idx []).length, pos + 1)

/-- One iteration of `Ransac_2` up to and including the inlier count. -/
def Odometry.Ransac_2.hypothesis {R : Type} [LinearOrderedField R] (ext : External R)
    (rand : Nat → Nat) (fuel : Nat) (initialPose : Transformation R) (numPoints : Nat)
    (st : RansacState R) : Run (Hypothesis R) :=
  let self := st.self
  let pose := initialPose
  let maxIdx := self.observationVec_2.length
  (self.sampleLoop ext rand maxIdx (0.15 : R) fuel 10000 0 st.pos).bind fun s =>
  (Odometry.Ransac_2.drawFeature self rand s.idx1m s.pos).bind fun p1 =>
  (Odometry.Ransac_2.drawFeature self rand s.idx2m p1.2).bind fun p2 =>
  (Odometry.Ransac_2.drawFeature self rand s.idx3m p2.2).bind fun p3 =>
  let index1 := [s.idx1m, s.idx2m, s.idx3m]
  let index2 := [p1.1, p2.1, p3.1]
  let residuals := (index1.zip index2).map fun ij =>
    (self.cloud.getD ij.1 default, (self.observationVec_2.getD ij.1 []).getD ij.2 default)
  let pose := ext.solveOdometry self.TbaseCam self.camera residuals (some 10) pose
  let TorigCam := ext.compose pose self.TbaseCam
  let XcamVec := self.cloud.map (ext.inverseTransform TorigCam)
  let projVec := ext.projectPointCloud self.camera XcamVec
  let counted := Odometry.Ransac_2.countInliers ext self.observationVec_2 projVec numPoints
  Run.done ⟨pose, [], counted.1, counted.2, p3.2⟩

/-- The block "keep the best hypothesis" of `Ransac_2` (the debug vectors it
fills when `odometryDebug` is set are not part of the state). -/
def Odometry.Ransac_2.keepBest {R : Type} (st : RansacState R) (h : Hypothesis R) :
    RansacState R :=
  if h.countInliers > st.bestInliers then
    { self := { st.self with inlierMask_2 := h.currentInlierMask_2, TorigBase := h.pose }
      bestInliers := h.countInliers
      pos := h.pos }
  else
    { st with pos := h.pos }

/-- One iteration of the `for` loop of `Ransac_2`. -/
def Odometry.Ransac_2.iteration {R : Type} [LinearOrderedField R] (ext : External R)
    (rand : Nat → Nat) (fuel : Nat) (initialPose : Transformation R) (numPoints : Nat)
    (st : RansacState R) : Run (RansacState R) :=
  (Odometry.Ransac_2.hypothesis ext rand fuel initialPose numPoints st).bind fun h =>
  Run.done (Odometry.Ransac_2.keepBest st h)

/-- The `for` loop of `Ransac_2` run for `numIter` iterations. -/
def Odometry.Ransac_2.loop {R : Type} [LinearOrderedField R] (ext : External R)
    (rand : Nat → Nat) (fuel : Nat) (initialPose : Transformation R) (numPoints : Nat) :
    Nat → RansacState R → Run (RansacState R)
  | 0, st => Run.done st
  | numIter + 1, st =>
    (Odometry.Ransac_2.iteration ext rand fuel initialPose numPoints st).bind fun st1 =>
    Odometry.Ransac_2.loop ext rand fuel initialPose numPoints numIter st1

/-- The function `Odometry::Ransac_2`. -/
def Odometry.Ransac_2 {R : Type} [LinearOrderedField R] (ext : External R) (rand : Nat → Nat)
    (fuel : Nat) (self : Odometry R) (pos : Nat) : Run (RansacState R) :=
  if self.observationVec_2.length ≠ self.cloud.length then Run.assertFail
  else
    let numPoints := self.observationVec_2.length
    let self := { self with inlierMask_2 := resize self.inlierMask_2 numPoints [] }
    let numIterMax := 500
    let initialPose := self.TorigBase
    Odometry.Ransac_2.loop ext rand fuel initialPose numPoints numIterMax
      { self := self, bestInliers := 0, pos := pos }

/-! ## Concrete collaborators and inputs for the odometry -/

/-- The sum of two 3-vectors. -/
def Vector3d.add {R : Type} [Add R] (a b : Vector3d R) : Vector3d R :=
  ⟨a.x + b.x, a.y + b.y, a.z + b.z⟩

/-- The difference of two 3-vectors. -/
def Vector3d.sub {R : Type} [Sub R] (a b : Vector3d R) : Vector3d R :=
  ⟨a.x - b.x, a.y - b.y, a.z - b.z⟩

/-- The product of a scalar and a 3-vector. -/
def Vector3d.smul {R : Type} [Mul R] (c : R) (a : Vector3d R) : Vector3d R :=
  ⟨c * a.x, c * a.y, c * a.z⟩

/-- Collaborators for concrete runs: rigid motions without rotation
(composition adds the translations, the inverse composition and the inverse
transform subtract the translation), a pinhole camera of unit focal length, a solver that returns
its starting pose, and the given `sqrt` and `acos`. On transformations whose
rotation vector is zero this is what geometry.h computes. -/
def translationExternal {R : Type} [LinearOrderedField R] (sqrt acos : R → R) : External R :=
  { compose := fun a b => ⟨a.mtrans.add b.mtrans, a.mrot.add b.mrot⟩
    inverseCompose := fun a b => ⟨b.mtrans.sub a.mtrans, b.mrot.sub a.mrot⟩
    inverseTransform := fun T X => X.sub T.mtrans
    projectPoint := fun _ X => (⟨X.x / X.z, X.y / X.z⟩, decide (0 < X.z))
    sqrt := sqrt
    acos := acos
    solveOdometry := fun _ _ _ _ pose => pose }

/-- Six steps of Newton's iteration for the square root, started at 1. -/
def newtonSqrt (x : ℚ) : ℚ :=
  if x ≤ 0 then 0
  else (List.range 6).foldl (fun (g : ℚ) (_ : Nat) => (g + x / g) / 2) 1

/-- The series of `acos` around 0 cut after the fifth power, with 11/7 for
half of pi. -/
def seriesAcos (x : ℚ) : ℚ :=
  11 / 7 - x - x ^ 3 / 6 - 3 * x ^ 5 / 40

/-- Computable collaborators over the rationals. -/
def ratExternal : External ℚ := translationExternal newtonSqrt seriesAcos

/-- An odometry problem with four landmarks in front of a camera at the
origin; the first three are observed where they project, the fourth is
observed far away from its projection. -/
def exampleOdometry : Odometry ℚ :=
  { TorigBase := ⟨⟨0, 0, 0⟩, ⟨0, 0, 0⟩⟩
    TbaseCam := ⟨⟨0, 0, 0⟩, ⟨0, 0, 0⟩⟩
    camera := CameraID.LEFT
    observationVec := [⟨-2, 0⟩, ⟨0, 0⟩, ⟨1 / 2, 0⟩, ⟨50, 50⟩]
    cloud := [⟨-2, 0, 1⟩, ⟨0, 0, 1⟩, ⟨1, 0, 2⟩, ⟨0, 1, 1⟩]
    inlierMask := [false, false, false, false]
    observationVec_2 := [[⟨-2, 0⟩], [⟨9, 9⟩, ⟨0, 0⟩], [⟨1 / 2, 0⟩], [⟨50, 50⟩]]
    inlierMask_2 := [[], [], [], []] }

/-- The state `Ransac` starts its loop in on `exampleOdometry`. -/
def exampleStart : RansacState ℚ :=
  { self := exampleOdometry, bestInliers := 0, pos := 0 }

/-! ## The span test over the real numbers -/

/-- The collaborators with the real square root and arc cosine. -/
noncomputable def realExternal : External ℝ := translationExternal Real.sqrt Real.arccos

/-- The rotation about the z axis whose angle has cosine `c` and sine `s`. -/
def rotateZ {R : Type} [Ring R] (c s : R) (p : Vector3d R) : Vector3d R :=
  ⟨c * p.x - s * p.y, s * p.x + c * p.y, p.z⟩

/-- An `Odometry` object whose pose and rig extrinsic are the identity, so
that the camera frame sits at the origin. -/
def originOdometry {R : Type} [Zero R] (cloud : List (Vector3d R)) : Odometry R :=
  { TorigBase := ⟨⟨0, 0, 0⟩, ⟨0, 0, 0⟩⟩
    TbaseCam := ⟨⟨0, 0, 0⟩, ⟨0, 0, 0⟩⟩
    camera := CameraID.LEFT
    observationVec := cloud.map fun _ => ⟨0, 0⟩
    cloud := cloud
    inlierMask := []
    observationVec_2 := cloud.map fun _ => [⟨0, 0⟩]
    inlierMask_2 := [] }

/-- Six landmarks: the first two lie on one ray from the origin, the last
three span the angles pi/4, pi/2 and 3 pi/4. -/
def spanCloud : List (Vector3d ℝ) :=
  [⟨1, 0, 0⟩, ⟨2, 0, 0⟩, ⟨0, 1, 0⟩, ⟨1, 0, 0⟩, ⟨1, 1, 0⟩, ⟨-1, 1, 0⟩]

/-- A `rand()` sequence whose first 9999 samples are the landmarks 0, 1, 2 and
whose 10000th sample is the landmarks 3, 4, 5. -/
def spanRand (n : Nat) : Nat :=
  if n < 29997 then n % 3 else 3 + n % 3

/-! ## Candidate selection of the three odometry strategies -/

/-- Modelled from the spec: `Feature` of matcher.h, a pixel and a descriptor. -/
structure Feature (R : Type) where
  pt : Vector2d R
  d : List Nat

/-- The locals a candidate scan updates. -/
structure Candidates (R : Type) where
  numActive : Nat
  indexVec : List Nat
  lmFeatureVec : List (Feature R)

/-- A loop `while (k > 0 and numActive < maxActive) { k--; if (accepted) { push } }`
over one landmark pool; `accept` is the condition of the `if` and yields the
feature to push when it holds. -/
def scanPool {R : Type} (accept : LandMark R → Option (Feature R)) (pool : List (LandMark R))
    (maxActive : Nat) : Nat → Candidates R → Candidates R
  | 0, c => c
  | k + 1, c =>
    if c.numActive < maxActive then
      match (pool.get? k).bind accept with
      | some f =>
        scanPool accept pool maxActive k
          { numActive := c.numActive + 1,
            indexVec := c.indexVec ++ [k],
            lmFeatureVec := c.lmFeatureVec ++ [f] }
      | none => scanPool accept pool maxActive k c
    else c

/-- The comparison `observations.back().poseIdx == trajectory.size()-1`: the
`int` on the left is converted to `size_t`. Calling `back()` on an empty
vector is undefined in the source; the model answers false. -/
def seenAtLastPose {R : Type} (lm : LandMark R) (trajectorySize : Nat) : Bool :=
  match lm.observations.getLast? with
  | none => false
  | some ob => decide (toSizeT ob.poseIdx = toSizeT ((trajectorySize : Int) - 1))

/-- The point of a landmark in the frame of the left camera at pose `T`:
`T.inverseTransform(X, Xb); stereo.TbaseCam1.inverseTransform(Xb, Xc)`. -/
def leftCameraPoint {R : Type} (ext : External R) (self : StereoCartography R)
    (T : Transformation R) (X : Vector3d R) : Vector3d R :=
  ext.inverseTransform self.stereo.TbaseCam1 (ext.inverseTransform T X)

/-- The condition of the `if` in the two scans of `estimateOdometry`:
`Xc(2) > 0.5 and observations.back().poseIdx == trajectory.size()-1`. -/
def estimateOdometry.accept {R : Type} [LinearOrderedField R] (ext : External R)
    (self : StereoCartography R) (lm : LandMark R) : Option (Feature R) :=
  let Xc := leftCameraPoint ext self (self.trajectory.getLastD default) lm.X
  if Xc.z > 0.5 ∧ seenAtLastPose lm self.trajectory.length = true then
    some { pt := ⟨0, 0⟩, d := lm.d }
  else none

/-- The candidate selection of `estimateOdometry` (lines 694 to 732): the
scan of `WM`, the value of `nWMreprojected`, and the scan of `STM`. -/
def estimateOdometry.candidates {R : Type} [LinearOrderedField R] (ext : External R)
    (self : StereoCartography R) : Nat × Candidates R :=
  let maxActive := 300
  let c := scanPool (estimateOdometry.accept ext self) self.WM maxActive self.WM.length
    { numActive := 0, indexVec := [], lmFeatureVec := [] }
  let nWMreprojected := c.numActive
  (nWMreprojected,
    scanPool (estimateOdometry.accept ext self) self.STM maxActive self.STM.length c)

/-- The motion hypothesis `Th` of `estimateOdometry_2` (lines 776 to 782). -/
def estimateOdometry_2.Th {R : Type} [Zero R] (ext : External R)
    (self : StereoCartography R) : Transformation R :=
  let Tdelta : Transformation R :=
    if self.trajectory.length > 1 then
      let tn := ext.inverseCompose
        (self.trajectory.getD (self.trajectory.length - 2) default)
        (self.trajectory.getLastD default)
      { mtrans := tn.mtrans, mrot := tn.mrot }
    else default
  ext.compose (self.trajectory.getLastD default) Tdelta

/-- The nested conditions of the two scans of `estimateOdometry_2`:
`if (observations.back().poseIdx == trajectory.size()-1)` and, inside,
`if (Xc(2) > 0.5)` for the point in the predicted frame. -/
def estimateOdometry_2.accept {R : Type} [LinearOrderedField R] (ext : External R)
    (self : StereoCartography R) (lm : LandMark R) : Option (Feature R) :=
  if seenAtLastPose lm self.trajectory.length = true then
    let Xc := leftCameraPoint ext self (estimateOdometry_2.Th ext self) lm.X
    if Xc.z > 0.5 then
      some { pt := (ext.projectPoint CameraID.LEFT Xc).1, d := lm.d }
    else none
  else none

/-- The candidate selection of `estimateOdometry_2` (lines 770 to 828). -/
def estimateOdometry_2.candidates {R : Type} [LinearOrderedField R] (ext : External R)
    (self : StereoCartography R) : Nat × Candidates R :=
  let maxActive := 300
  let c := scanPool (estimateOdometry_2.accept ext self) self.WM maxActive self.WM.length
    { numActive := 0, indexVec := [], lmFeatureVec := [] }
  let nWMreprojected := c.lmFeatureVec.length
  (nWMreprojected,
    scanPool (estimateOdometry_2.accept ext self) self.STM maxActive self.STM.length c)

/-- The condition of the `if` in the two scans of `estimateOdometry_3`:
`Xc(2) > 0 and observations.back().poseIdx == trajectory.size()-1`. -/
def estimateOdometry_3.accept {R : Type} [LinearOrderedField R] (ext : External R)
    (self : StereoCartography R) (lm : LandMark R) : Option (Feature R) :=
  let Xc := leftCameraPoint ext self (self.trajectory.getLastD default) lm.X
  if Xc.z > 0 ∧ seenAtLastPose lm self.trajectory.length = true then
    some { pt := ⟨0, 0⟩, d := lm.d }
  else none

/-- The candidate selection of `estimateOdometry_3` (lines 869 to 908): `STM`
is scanned only when `WM.size() < 50`. -/
def estimateOdometry_3.candidates {R : Type} [LinearOrderedField R] (ext : External R)
    (self : StereoCartography R) : Nat × Candidates R :=
  let maxActive := 300
  let c := scanPool (estimateOdometry_3.accept ext self) self.WM maxActive self.WM.length
    { numActive := 0, indexVec := [], lmFeatureVec := [] }
  let nWMreprojected := c.numActive
  if self.WM.length < 50 then
    (nWMreprojected,
      scanPool (estimateOdometry_3.accept ext self) self.STM maxActive self.STM.length c)
  else (nWMreprojected, c)

/-- A map with one pose at the origin and one landmark in `WM`, 0.3 in front
of the left camera and last seen at pose 0, the latest pose. -/
def nearLandmarkMap : StereoCartography ℚ :=
  { trajectory := [⟨⟨0, 0, 0⟩, ⟨0, 0, 0⟩⟩]
    WM := [{ X := ⟨0, 0, 3 / 10⟩, d := [7], observations := [⟨⟨500, 500⟩, 0, CameraID.LEFT⟩] }]
    STM := []
    stereo := ⟨⟨⟨0, 0, 0⟩, ⟨0, 0, 0⟩⟩, ⟨⟨1, 0, 0⟩, ⟨0, 0, 0⟩⟩⟩ }

/-! ## Calibration: the grid -/

/-- The data members of `GenericCameraCalibration`. -/
structure GenericCameraCalibration (R : Type) where
  Nx : Int
  Ny : Int
  sqSize : R
  outlierThresh : R
  grid : List (Vector3d R)

/-- The function `GenericCameraCalibration::constructGrid`: `grid.resize(Nx * Ny)`
followed by `for (unsigned int i = 0; i < Nx * Ny; i++)` with
`grid[i] = Vector3d(sqSize * (i % Nx), sqSize * (i / Nx), 0)`. The product is an
`int`; it is converted to `size_t` for the resize, and it and `Nx` are
converted to `unsigned int` for the comparison, the remainder and the
quotient. -/
def GenericCameraCalibration.constructGrid {R : Type} [Mul R] [NatCast R] [Zero R]
    (self : GenericCameraCalibration R) : GenericCameraCalibration R :=
  let n : Int := toInt32 (self.Nx * self.Ny)
  let grid := resize self.grid (toSizeT n) default
  { self with
    grid := (List.range (toUInt32 n)).foldl
      (fun (g : List (Vector3d R)) (i : Nat) =>
        g.set i ⟨self.sqSize * ((i % toUInt32 self.Nx : Nat) : R),
          self.sqSize * ((i / toUInt32 self.Nx : Nat) : R), 0⟩)
      grid }

/-- A calibration object for a board of 3 by 2 corners with squares of 1/2. -/
def exampleCalibration : GenericCameraCalibration ℚ :=
  { Nx := 3, Ny := 2, sqSize := 1 / 2, outlierThresh := 0, grid := [] }

/-! ## Calibration: reading the info file -/

/-- An `ifstream` that has been opened: the characters not yet read and the
fail bit. Once the fail bit is set every later read leaves its target as it
was. -/
structure IStream where
  buf : List Char
  failed : Bool
deriving DecidableEq

/-- The white space `operator>>` skips: blank, tab, line feed, vertical tab,
form feed, carriage return. -/
def isSpace (c : Char) : Bool :=
  c.toNat = 32 || (9 ≤ c.toNat && c.toNat ≤ 13)

/-- The value of a run of decimal digits. -/
def natOfDigits (ds : List Char) : Nat :=
  ds.foldl (fun (n : Nat) (c : Char) => 10 * n + (c.toNat - 48)) 0

/-- An optional sign in front of a number: whether it is a minus, and the
characters after it. -/
def readSign : List Char → Bool × List Char
  | c :: rest =>
    if c = '-' then (true, rest) else if c = '+' then (false, rest) else (false, c :: rest)
  | [] => (false, [])

/-- The extraction `stream >> n` into an `int` for decimal input: white space
is skipped, then a sign and digits are read. At the end of the file the
target keeps its value and the fail bit is set; without a digit the target
becomes 0 and the fail bit is set; a value outside `int` is clamped and the
fail bit is set. -/
def IStream.readInt (s : IStream) (old : Int) : Int × IStream :=
  if s.failed then (old, s)
  else
    let b := s.buf.dropWhile isSpace
    if b = [] then (old, { buf := [], failed := true })
    else
      let sign := readSign b
      let ds := sign.2.span Char.isDigit
      if ds.1 = [] then (0, { buf := ds.2, failed := true })
      else
        let v : Int := if sign.1 then -(natOfDigits ds.1 : Int) else (natOfDigits ds.1 : Int)
        if v > 2 ^ 31 - 1 then (2 ^ 31 - 1, { buf := ds.2, failed := true })
        else if v < -2 ^ 31 then (-2 ^ 31, { buf := ds.2, failed := true })
        else (v, { buf := ds.2, failed := false })

/-- The characters of a floating-point number as `operator>>` collects them
after the sign (`num_get` of libstdc++ in the "C" locale): digits, at most one
decimal point, more digits and, once a digit has been read, at most one `e`
or `E` with an optional sign and digits; `rest` is the input left unread. -/
structure FloatText where
  intDigits : List Char
  fracDigits : List Char
  hasExp : Bool
  expNeg : Bool
  expDigits : List Char
  rest : List Char
deriving DecidableEq

/-- The scan that collects the characters of a floating-point number. -/
def scanFloat (b : List Char) : FloatText :=
  let ip := b.span Char.isDigit
  let fp : List Char × List Char :=
    match ip.2 with
    | c :: rest => if c = '.' then rest.span Char.isDigit else ([], c :: rest)
    | [] => ([], [])
  match fp.2 with
  | c :: rest =>
    if (c = 'e' ∨ c = 'E') ∧ (ip.1 ≠ [] ∨ fp.1 ≠ []) then
      let sign := readSign rest
      let ed := sign.2.span Char.isDigit
      { intDigits := ip.1, fracDigits := fp.1, hasExp := true, expNeg := sign.1,
        expDigits := ed.1, rest := ed.2 }
    else
      { intDigits := ip.1, fracDigits := fp.1, hasExp := false, expNeg := false,
        expDigits := [], rest := c :: rest }
  | [] =>
    { intDigits := ip.1, fracDigits := fp.1, hasExp := false, expNeg := false,
      expDigits := [], rest := [] }

/-- Whether `m * 10 ^ p` is at least `2^1024 - 2^970`, the least magnitude that
the conversion (`strtod`) rounds to infinity. -/
def roundsToInfinity (m : Nat) (p : Int) : Bool :=
  match p with
  | Int.ofNat k => decide (2 ^ 1024 - 2 ^ 970 ≤ m * 10 ^ k)
  | Int.negSucc k => decide ((2 ^ 1024 - 2 ^ 970) * 10 ^ (k + 1) ≤ m)

/-- The extraction `stream >> x` into a `double`: white space is skipped, a
sign and the characters of a floating-point number are read, exponent
included. At the end of the file the target keeps its value and the fail
bit is set; when the characters read do not form a number (no digit in the
mantissa, or an exponent mark without digits) the target becomes 0 and the
fail bit is set; a value that rounds to infinity is clamped to the largest
double and the fail bit is set. The value itself is not rounded. -/
def IStream.readDouble {R : Type} [Field R] (s : IStream) (old : R) : R × IStream :=
  if s.failed then (old, s)
  else
    let b := s.buf.dropWhile isSpace
    if b = [] then (old, { buf := [], failed := true })
    else
      let sign := readSign b
      let t := scanFloat sign.2
      if (t.intDigits = [] ∧ t.fracDigits = []) ∨ (t.hasExp = true ∧ t.expDigits = []) then
        (0, { buf := t.rest, failed := true })
      else
        let m := natOfDigits (t.intDigits ++ t.fracDigits)
        let e : Int :=
          if t.expNeg then -(natOfDigits t.expDigits : Int) else (natOfDigits t.expDigits : Int)
        let p : Int := e - (t.fracDigits.length : Int)
        if roundsToInfinity m p = true then
          (if sign.1 then -((2 : R) ^ 1024 - 2 ^ 971) else (2 : R) ^ 1024 - 2 ^ 971,
            { buf := t.rest, failed := true })
        else
          let v : R := (m : R) * (10 : R) ^ p
          (if sign.1 then -v else v, { buf := t.rest, failed := false })

/-- The extraction `stream >> b` into a `bool` (no `boolalpha`): an integer is
read; 0 is false, 1 is true, anything else is true with the fail bit set, and
input without a digit is false with the fail bit set. -/
def IStream.readBool (s : IStream) (old : Bool) : Bool × IStream :=
  if s.failed then (old, s)
  else
    let b := s.buf.dropWhile isSpace
    if b = [] then (old, { buf := [], failed := true })
    else
      let sign := readSign b
      let ds := sign.2.span Char.isDigit
      if ds.1 = [] then (false, { buf := ds.2, failed := true })
      else
        let v : Int := if sign.1 then -(natOfDigits ds.1 : Int) else (natOfDigits ds.1 : Int)
        if v = 0 then (false, { buf := ds.2, failed := false })
        else if v = 1 then (true, { buf := ds.2, failed := false })
        else (true, { buf := ds.2, failed := true })

/-- The call `stream.ignore()`: one character is dropped. -/
def IStream.ignore (s : IStream) : IStream :=
  if s.failed then s else { buf := s.buf.tail, failed := false }

/-- The call `getline(stream, str)`: the characters up to the next line feed
become the string and the line feed is dropped; at the end of the file the
fail bit is set. -/
def IStream.getline (s : IStream) (old : String) : String × IStream :=
  if s.failed then (old, s)
  else if s.buf = [] then ("", { buf := [], failed := true })
  else
    let line := s.buf.span (fun c => c.toNat ≠ 10)
    (String.mk line.1, { buf := line.2.tail, failed := false })

/-- The struct `CalibrationData`; `extrinsic` is a shared pointer to six
doubles, `none` while it is null. -/
structure CalibrationData (R : Type) where
  projection : List (Vector2d R)
  extrinsic : Option (List R)
  fileName : String
deriving DecidableEq

/-- The OpenCV calls of `extractGridProjection`: `imread` followed by
`findChessboardCorners` on the file, the pattern size being `Nx` by `Ny`
(`none` when the pattern is not found), and the key the operator presses in
`waitKey` while the corners of that file are shown. -/
structure BoardDetector (R : Type) where
  findChessboardCorners : String → Int → Int → Option (List (Vector2d R))
  waitKey : String → Char

/-- The function `GenericCameraCalibration::extractGridProjection`. -/
def GenericCameraCalibration.extractGridProjection {R : Type} [Zero R]
    (self : GenericCameraCalibration R) (cv : BoardDetector R) (calibData : CalibrationData R)
    (checkExtraction : Bool) : Bool × CalibrationData R :=
  match cv.findChessboardCorners calibData.fileName self.Nx self.Ny with
  | none => (false, calibData)
  | some centers =>
    if checkExtraction = true ∧
        (cv.waitKey calibData.fileName = 'n' ∨ cv.waitKey calibData.fileName = 'N') then
      (false, calibData)
    else
      let n : Int := toInt32 (self.Nx * self.Ny)
      let projection := resize calibData.projection (toSizeT n) default
      (true,
        { calibData with
          projection := (List.range (toUInt32 n)).foldl
            (fun (g : List (Vector2d R)) (i : Nat) => g.set i (centers.getD i default))
            projection })

/-- The loop `while (getline(calibInfoFile, imageName))` of
`initializeIntrinsic`. The first argument bounds the number of passes; every
pass that does not end the loop consumes a character, so the length of the
unread input plus one is enough. -/
def GenericCameraCalibration.initializeIntrinsic.loop {R : Type} [Zero R] [One R]
    (self : GenericCameraCalibration R) (cv : BoardDetector R) (checkExtraction : Bool)
    (imageFolder : String) :
    Nat → IStream → List (CalibrationData R) → List (CalibrationData R)
  | 0, _, calibDataVec => calibDataVec
  | passes + 1, s, calibDataVec =>
    let line := s.getline ""
    if line.2.failed then calibDataVec
    else
      let calibData : CalibrationData R :=
        { projection := [], extrinsic := none, fileName := imageFolder ++ line.1 }
      let extracted := self.extractGridProjection cv calibData checkExtraction
      if extracted.1 = false then
        GenericCameraCalibration.initializeIntrinsic.loop self cv checkExtraction imageFolder
          passes line.2 calibDataVec
      else
        GenericCameraCalibration.initializeIntrinsic.loop self cv checkExtraction imageFolder
          passes line.2
          (calibDataVec ++ [{ extracted.2 with extrinsic := some [0, 0, 1, 0, 0, 0] }])

/-- The function `GenericCameraCalibration::initializeIntrinsic`. `files` is the
file system: the content of a file that can be opened. The result is the
returned flag, the object with the header values stored, and `calibDataVec`. -/
def GenericCameraCalibration.initializeIntrinsic {R : Type} [Field R]
    (self : GenericCameraCalibration R) (cv : BoardDetector R) (files : String → Option String)
    (infoFileName : String) (calibDataVec : List (CalibrationData R)) :
    Bool × GenericCameraCalibration R × List (CalibrationData R) :=
  match files infoFileName with
  | none => (false, self, calibDataVec)
  | some content =>
    let calibInfoFile : IStream := { buf := content.toList, failed := false }
    let rNx := calibInfoFile.readInt self.Nx
    let rNy := rNx.2.readInt self.Ny
    let rSq := rNy.2.readDouble self.sqSize
    let rTh := rSq.2.readDouble self.outlierThresh
    let rCheck := rTh.2.readBool false
    let afterHeader := rCheck.2.ignore
    let self1 : GenericCameraCalibration R :=
      { self with Nx := rNx.1, Ny := rNy.1, sqSize := rSq.1, outlierThresh := rTh.1 }
    let folder := afterHeader.getline ""
    (true, self1,
      GenericCameraCalibration.initializeIntrinsic.loop self1 cv rCheck.1 folder.1
        (folder.2.buf.length + 1) folder.2 [])

/-- A file system with one info file that lists no image. -/
def filesNoImage (name : String) : Option String :=
  if name = "calibInfo.txt" then some "6 4 0.05 0 0\nimages/\n" else none

/-- A file system with one info file that lists two images. -/
def filesTwoImages (name : String) : Option String :=
  if name = "calibInfo.txt" then some "6 4 0.05 0 0\nimages/\nleft_1.pgm\nleft_2.pgm\n" else none

/-- A detector that finds the chessboard in no image. -/
def detectNothing : BoardDetector ℚ :=
  { findChessboardCorners := fun _ _ _ => none, waitKey := fun _ => 'y' }

/-- A calibration object before the info file is read. -/
def freshCalibration : GenericCameraCalibration ℚ :=
  { Nx := 0, Ny := 0, sqSize := 0, outlierThresh := 0, grid := [] }

/-! ## Calibration: what the reader of the info file delivers -/

/-- The fail bit of the info file stream after the five extractions
`>> Nx >> Ny >> sqSize >> outlierThresh >> checkExtraction`: true when one of
them did not find its value. -/
def headerFailBit {R : Type} [Field R] (self : GenericCameraCalibration R) (content : String) :
    Bool :=
  ((((((IStream.mk content.toList false).readInt self.Nx).2.readInt self.Ny).2.readDouble
    self.sqSize).2.readDouble self.outlierThresh).2.readBool false).2.failed

/-- The stream of the info file after the five extractions of the header. -/
def headerStream {R : Type} [Field R] (self : GenericCameraCalibration R) (content : String) :
    IStream :=
  ((((((IStream.mk content.toList false).readInt self.Nx).2.readInt self.Ny).2.readDouble
    self.sqSize).2.readDouble self.outlierThresh).2.readBool false).2

/-- The stream of the info file after the header, the `ignore()` and the
`getline` of the image folder: what the loop over the image names starts on. -/
def afterFolderLine {R : Type} [Field R] (self : GenericCameraCalibration R) (content : String) :
    String × IStream :=
  (((((((IStream.mk content.toList false).readInt self.Nx).2.readInt self.Ny).2.readDouble
    self.sqSize).2.readDouble self.outlierThresh).2.readBool false).2.ignore).getline ""

/-- The lines of a text, as the specification of the info file words it: one
image name per line, a line ending at a line feed or at the end of the text;
a blank line is the empty name. `cur` holds the characters of the line being
read, last one first. -/
def linesOf : List Char → List Char → List String
  | [], cur => if cur = [] then [] else [String.mk cur.reverse]
  | c :: rest, cur =>
    if c.toNat = 10 then String.mk cur.reverse :: linesOf rest []
    else linesOf rest (c :: cur)

/-- The view an image name contributes: `none` when the extraction fails or
the operator rejects it, otherwise the extracted data with the starting
extrinsic (0,0,1, 0,0,0). -/
def viewOf {R : Type} [Zero R] [One R] (self : GenericCameraCalibration R)
    (cv : BoardDetector R) (checkExtraction : Bool) (imageFolder imageName : String) :
    Option (CalibrationData R) :=
  let extracted := self.extractGridProjection cv
    { projection := [], extrinsic := none, fileName := imageFolder ++ imageName }
    checkExtraction
  if extracted.1 = false then none
  else some { extracted.2 with extrinsic := some [0, 0, 1, 0, 0, 0] }

/-- A file system whose info file has a non-numeric second token. -/
def filesBadToken (name : String) : Option String :=
  if name = "calibInfo.txt" then some "6 x 0.05 0 0\nimages/\nleft_1.pgm\n" else none

/-- A file system whose info file has a header of three tokens only. -/
def filesShortHeader (name : String) : Option String :=
  if name = "calibInfo.txt" then some "6 4 0.05\nimages/\nleft_1.pgm\n" else none

/-- A file system whose info file has a blank line between two image names. -/
def filesBlankLine (name : String) : Option String :=
  if name = "calibInfo.txt" then some "3 2 0.05 0 0\nimages/\nleft_1.pgm\n\nleft_2.pgm\n"
  else none

/-- A file system whose info file lists three images. -/
def filesThreeImages (name : String) : Option String :=
  if name = "calibInfo.txt" then
    some "3 2 0.05 0 0\nimages/\nleft_1.pgm\nleft_2.pgm\nleft_3.pgm\n"
  else none

/-- A detector that finds six corners in every file except the bare image
folder. -/
def detectExceptFolder : BoardDetector ℚ :=
  { findChessboardCorners := fun fileName _ _ =>
      if fileName = "images/" then none
      else some [⟨0, 0⟩, ⟨1, 0⟩, ⟨2, 0⟩, ⟨0, 1⟩, ⟨1, 1⟩, ⟨2, 1⟩]
    waitKey := fun _ => 'y' }

/-- A detector that finds six corners in every file except `images/left_2.pgm`. -/
def detectExceptSecond : BoardDetector ℚ :=
  { findChessboardCorners := fun fileName _ _ =>
      if fileName = "images/left_2.pgm" then none
      else some [⟨0, 0⟩, ⟨1, 0⟩, ⟨2, 0⟩, ⟨0, 1⟩, ⟨1, 1⟩, ⟨2, 1⟩]
    waitKey := fun _ => 'y' }

/-- A detector that finds six corners in every file, the image folder
included. -/
def detectAll : BoardDetector ℚ :=
  { findChessboardCorners := fun _ _ _ =>
      some [⟨0, 0⟩, ⟨1, 0⟩, ⟨2, 0⟩, ⟨0, 1⟩, ⟨1, 1⟩, ⟨2, 1⟩]
    waitKey := fun _ => 'y' }

/-- A file system whose info file gives `sqSize` in exponent notation. -/
def filesExponent (name : String) : Option String :=
  if name = "calibInfo.txt" then some "3 2 5e-2 0 0\nimages/\nleft_1.pgm\n" else none

/-- A file system whose info file has four tokens on its first line; the
second line starts with a digit. -/
def filesContinuedHeader (name : String) : Option String :=
  if name = "calibInfo.txt" then some "6 4 0.05 0\n1cam/\nleft_1.pgm\n" else none

/-- The value of `checkExtraction` after the header has been read. -/
def headerCheckExtraction {R : Type} [Field R] (self : GenericCameraCalibration R)
    (content : String) : Bool :=
  ((((((IStream.mk content.toList false).readInt self.Nx).2.readInt self.Ny).2.readDouble
    self.sqSize).2.readDouble self.outlierThresh).2.readBool false).1

/-- The image names of an info file: the lines that follow the line of the
image folder, none when the stream has failed by then. -/
def imageNames {R : Type} [Field R] (self : GenericCameraCalibration R) (content : String) :
    List String :=
  if (afterFolderLine self content).2.failed then []
  else linesOf (afterFolderLine self content).2.buf []

/-! ## A complete run of `Ransac` -/

/-- A `rand()` sequence that returns 0, 1, 2, 0, 1, 2 and so on. -/
def cycleRand (n : Nat) : Nat := n % 3

/-- The value `(observationVec_2[i][j] - projVec[i]).norm()` of `Ransac_2` for the
pool `observationVec_2[i]` and the projection `projVec[i]`. -/
def poolError {R : Type} [LinearOrderedField R] (ext : External R) (pool : List (Vector2d R))
    (proj : Vector2d R) (j : Nat) : R :=
  ((pool.getD j default).sub proj).norm ext

/-! ## Cost functors: residuals and analytic Jacobians -/

/-- The type `Eigen::Matrix3d`. -/
abbrev Matrix3d (R : Type) := Matrix (Fin 3) (Fin 3) R

/-- The type `Eigen::Matrix<double, 2, 3>`; the solver receives its six entries
row by row. -/
abbrev Matrix2x3 (R : Type) := Matrix (Fin 2) (Fin 3) R

/-- Modelled from the spec: `hat` of geometry.h, the cross-product matrix of a
3-vector. -/
def hat {R : Type} [Ring R] (v : Vector3d R) : Matrix3d R :=
  !![0, -v.z, v.y; v.z, 0, -v.x; -v.y, v.x, 0]

/-- The product of a 3 by 3 matrix and a 3-vector. -/
def Matrix3d.mulVec3 {R : Type} [Ring R] (M : Matrix3d R) (v : Vector3d R) : Vector3d R :=
  ⟨M 0 0 * v.x + M 0 1 * v.y + M 0 2 * v.z,
   M 1 0 * v.x + M 1 1 * v.y + M 1 2 * v.z,
   M 2 0 * v.x + M 2 1 * v.y + M 2 2 * v.z⟩

/-- The vector `-v`. -/
def Vector3d.neg {R : Type} [Neg R] (v : Vector3d R) : Vector3d R := ⟨-v.x, -v.y, -v.z⟩

/-- The vector `v / c`. -/
def Vector3d.divScalar {R : Type} [Div R] (v : Vector3d R) (c : R) : Vector3d R :=
  ⟨v.x / c, v.y / c, v.z / c⟩

/-- What the `Evaluate` functions call outside the source file:
`rotationMatrix` of geometry.h, `std::sin`, the square root behind `norm()`,
and the camera (`projectPoint`, `projectionJacobian`). -/
structure EvalExternal (R : Type) where
  rotationMatrix : Vector3d R → Matrix3d R
  sin : R → R
  sqrt : R → R
  projectPoint : Vector3d R → Vector2d R
  projectionJacobian : Vector3d R → Matrix2x3 R

/-- The function `sinc` of the source file. -/
def sinc {R : Type} [Field R] [DecidableEq R] (m : EvalExternal R) (x : R) : R :=
  if x = 0 then 1 else m.sin x / x

/-- The block that computes `LxiInv` from the rotation vector, the same text in
`OdometryError::Evaluate` and in `ReprojectionErrorStereo::Evaluate`. -/
def LxiInv {R : Type} [Field R] [DecidableEq R] (m : EvalExternal R) (rot : Vector3d R) :
    Matrix3d R :=
  let theta := m.sqrt (rot.dot rot)
  if theta ≠ 0 then
    let uhat := hat (rot.divScalar theta)
    1 + (theta / 2 * sinc m (theta / 2)) • uhat + ((1 - sinc m theta) • uhat) * uhat
  else 1

/-- The members of `ReprojectionErrorStereo`: the observed pixel and the
inverse of the rig extrinsic, as `toRotTransInv` stored it. -/
structure ReprojectionErrorStereo (R : Type) where
  u : R
  v : R
  RcamBase : Matrix3d R
  PcamBase : Vector3d R

/-- The function `ReprojectionErrorStereo::Evaluate`; the arguments are the
landmark `args[0]`, the translation `args[1]` and the rotation `args[2]`, and
`jac` tells whether Jacobians are asked for. The result is the residual and
the blocks written to `jac[0]`, `jac[1]`, `jac[2]`. -/
def ReprojectionErrorStereo.Evaluate {R : Type} [Field R] [DecidableEq R]
    (m : EvalExternal R) (self : ReprojectionErrorStereo R) (args0 args1 args2 : Vector3d R)
    (jac : Bool) : Vector2d R × Option (Matrix2x3 R × Matrix2x3 R × Matrix2x3 R) :=
  let rot := args2
  let RbaseOrig := m.rotationMatrix rot.neg
  let Pob := args1
  let X := args0
  let X := (self.RcamBase.mulVec3 (RbaseOrig.mulVec3 (X.sub Pob))).add self.PcamBase
  let point := m.projectPoint X
  let residuals : Vector2d R := ⟨point.x - self.u, point.y - self.v⟩
  if jac then
    let J := m.projectionJacobian X
    let Rco := self.RcamBase * RbaseOrig
    let dpdX := J * Rco
    let jac0 := dpdX
    let LxiInv := LxiInv m rot
    let dpdX := (-1 : R) • dpdX
    let dpdxi2 := J * hat X * Rco * LxiInv
    (residuals, some (jac0, dpdX, dpdxi2))
  else (residuals, none)

/-- The members of `OdometryError`: the landmark, the observed pixel and the
inverse of the rig extrinsic. -/
structure OdometryError (R : Type) where
  X : Vector3d R
  u : R
  v : R
  RcamBase : Matrix3d R
  PcamBase : Vector3d R

/-- The function `OdometryError::Evaluate`; the arguments are the translation
`args[0]` and the rotation `args[1]`. The result is the residual and the
blocks written to `jac[0]` and `jac[1]`. -/
def OdometryError.Evaluate {R : Type} [Field R] [DecidableEq R]
    (m : EvalExternal R) (self : OdometryError R) (args0 args1 : Vector3d R)
    (jac : Bool) : Vector2d R × Option (Matrix2x3 R × Matrix2x3 R) :=
  let rotOrigBase := args1
  let RbaseOrig := m.rotationMatrix rotOrigBase.neg
  let PorigBase := args0
  let Xtr := (self.RcamBase.mulVec3 (RbaseOrig.mulVec3 (self.X.sub PorigBase))).add self.PcamBase
  let point := m.projectPoint Xtr
  let residuals : Vector2d R := ⟨point.x - self.u, point.y - self.v⟩
  if jac then
    let J := m.projectionJacobian Xtr
    let Rco := self.RcamBase * RbaseOrig
    let LxiInv := LxiInv m rotOrigBase
    let dpdxi1 := -J * Rco
    let dpdxi2 := J * hat Xtr * Rco * LxiInv
    (residuals, some (dpdxi1, dpdxi2))
  else (residuals, none)

/-- Collaborators for concrete evaluations: the first-order rotation matrix
(exact at the zero rotation), the series of the sine cut after the third
power, Newton's square root and a pinhole camera of unit focal length. -/
def exampleEval : EvalExternal ℚ :=
  { rotationMatrix := fun w => 1 + hat w
    sin := fun x => x - x ^ 3 / 6
    sqrt := newtonSqrt
    projectPoint := fun X => ⟨X.x / X.z, X.y / X.z⟩
    projectionJacobian := fun X =>
      !![1 / X.z, 0, -X.x / (X.z * X.z); 0, 1 / X.z, -X.y / (X.z * X.z)] }

/-- A stereo residual whose camera frame is the body frame (identity rig
extrinsic), observing the pixel (1, 0). -/
def exampleStereoError : ReprojectionErrorStereo ℚ :=
  { u := 1, v := 0, RcamBase := 1, PcamBase := ⟨0, 0, 0⟩ }

/-- The landmark (1, 0, 2) of the concrete evaluation. -/
def exampleLandmark : Vector3d ℚ := ⟨1, 0, 2⟩

/-- The pose translation (0, 0, 1) of the concrete evaluation. -/
def exampleTranslation : Vector3d ℚ := ⟨0, 0, 1⟩

/-- The zero rotation vector. -/
def zeroRotation : Vector3d ℚ := ⟨0, 0, 0⟩

/-- An odometry residual for the landmark (1, 0, 2), with identity rig
extrinsic, observing the pixel (1, 0). -/
def exampleOdometryError : OdometryError ℚ :=
  { X := ⟨1, 0, 2⟩, u := 1, v := 0, RcamBase := 1, PcamBase := ⟨0, 0, 0⟩ }

/-- The rotation vector (0, 0, 1): one radian about the z axis. -/
def unitRotation : Vector3d ℚ := ⟨0, 0, 1⟩

/-! ## Calibration: residual analysis -/

/-- What `residualAnalysis` calls outside the source file besides the camera:
the constructor of a `Transformation` from six doubles, the transformation of
a point (`transform` applies it to every point of a cloud), and the plot as
the three calls of `circle` leave it. -/
structure AnalysisExternal (R : Type) where
  ofData : List R → Transformation R
  transform : Transformation R → Vector3d R → Vector3d R
  circles : Int → Int → R

/-- The variables of `residualAnalysis`: the sums `Ex`, `Ey`, the maximum
`Emax`, the float image `errorPlot` addressed by row and column, whether an
access `errorPlot.at` had an index outside the 400 by 400 image, the lines
"fileName # i" printed (view index and corner index), and the views whose frame
was shown in the window "reprojection". -/
structure AnalysisState (R : Type) where
  Ex : R
  Ey : R
  Emax : R
  errorPlot : Int → Int → R
  outsidePlot : Bool
  printed : List (Nat × Nat)
  shown : List Nat

/-- The statement `errorPlot.at<float>(row, col) += 1`. -/
def plotIncrement {R : Type} [Add R] [One R] (st : AnalysisState R) (row col : Int) :
    AnalysisState R :=
  { st with
    errorPlot := fun r c => if r = row ∧ c = col then st.errorPlot r c + 1 else st.errorPlot r c
    outsidePlot := st.outsidePlot || decide (row < 0 ∨ 400 ≤ row ∨ col < 0 ∨ 400 ≤ col) }

/-- The vector `projModelVec` of a view: the grid moved by
`TrefCam.inverseCompose(TrefGrid)` and projected by the camera. -/
def residualAnalysis.projModelVec {R : Type} (ext : External R) (geo : AnalysisExternal R)
    (self : GenericCameraCalibration R) (camera : CameraID) (TrefCam : Transformation R)
    (extrinsic : List R) : List (Vector2d R) :=
  let TrefGrid := geo.ofData extrinsic
  let TcamGrid := ext.inverseCompose TrefCam TrefGrid
  let transfModelVec := self.grid.map (geo.transform TcamGrid)
  ext.projectPointCloud camera transfModelVec

/-- The body of the loop over the corners for the observed corner `p` and the
projected corner `pModel`; the second component is `outlierDetected`. -/
def residualAnalysis.corner {R : Type} [LinearOrderedField R] [FloorRing R]
    (self : GenericCameraCalibration R) (ptIdx i : Nat) (p pModel : Vector2d R)
    (acc : AnalysisState R × Bool) : AnalysisState R × Bool :=
  let delta := p.sub pModel
  let st := plotIncrement acc.1 ⌊delta.y * 100 + 200⌋ ⌊delta.x * 100 + 200⌋
  let st := plotIncrement st ⌊delta.y * 100 + 200⌋ ⌈delta.x * 100 + 200⌉
  let st := plotIncrement st ⌈delta.y * 100 + 200⌉ ⌊delta.x * 100 + 200⌋
  let st := plotIncrement st ⌈delta.y * 100 + 200⌉ ⌈delta.x * 100 + 200⌉
  let dx := delta.x * delta.x
  let dy := delta.y * delta.y
  let flagged : Bool :=
    decide (self.outlierThresh ≠ 0 ∧ dx + dy > self.outlierThresh * self.outlierThresh)
  let st := if flagged then { st with printed := st.printed ++ [(ptIdx, i)] } else st
  let outlierDetected := if flagged then true else acc.2
  let st := if dx + dy > st.Emax then { st with Emax := dx + dy } else st
  ({ st with Ex := st.Ex + dx, Ey := st.Ey + dy }, outlierDetected)

/-- The body of the loop over the views: the loop over the corners
`for (unsigned int i = 0; i < Nx * Ny; i++)`, then the frame is shown when
`outlierDetected` is set. A null `extrinsic` and an index past the end of
`projection` or `projModelVec` are undefined behaviour. -/
def residualAnalysis.view {R : Type} [LinearOrderedField R] [FloorRing R] (ext : External R)
    (geo : AnalysisExternal R) (self : GenericCameraCalibration R) (camera : CameraID)
    (TrefCam : Transformation R) (st : AnalysisState R) (ptIdx : Nat)
    (data : CalibrationData R) : Run (AnalysisState R) :=
  match data.extrinsic with
  | none => Run.undefinedBehaviour
  | some extrinsic =>
    let projModelVec := residualAnalysis.projModelVec ext geo self camera TrefCam extrinsic
    ((List.range (toUInt32 (toInt32 (self.Nx * self.Ny)))).foldl
      (fun (acc : Run (AnalysisState R × Bool)) (i : Nat) =>
        acc.bind fun a =>
          match data.projection[i]?, projModelVec[i]? with
          | some p, some pModel => Run.done (residualAnalysis.corner self ptIdx i p pModel a)
          | _, _ => Run.undefinedBehaviour)
      (Run.done (st, false))).bind fun a =>
        Run.done (if a.2 then { a.1 with shown := a.1.shown ++ [ptIdx] } else a.1)

/-- The function `GenericCameraCalibration::residualAnalysis`. The result is the
state after the loop over the views with `Ex`, `Ey` divided by
`calibDataVec.size() * Nx * Ny` (a `size_t` product) and all three replaced by
their square roots. -/
def residualAnalysis {R : Type} [LinearOrderedField R] [FloorRing R] (ext : External R)
    (geo : AnalysisExternal R) (self : GenericCameraCalibration R) (camera : CameraID)
    (calibDataVec : List (CalibrationData R)) (TrefCam : Transformation R) :
    Run (AnalysisState R) :=
  let init : AnalysisState R :=
    { Ex := 0, Ey := 0, Emax := 0, errorPlot := geo.circles, outsidePlot := false,
      printed := [], shown := [] }
  ((List.range calibDataVec.length).foldl
    (fun (acc : Run (AnalysisState R)) (ptIdx : Nat) =>
      acc.bind fun st =>
        match calibDataVec[ptIdx]? with
        | some data => residualAnalysis.view ext geo self camera TrefCam st ptIdx data
        | none => Run.undefinedBehaviour)
    (Run.done init)).bind fun st =>
      let count : Nat :=
        toSizeT (toSizeT (calibDataVec.length * toSizeT self.Nx) * toSizeT self.Ny)
      Run.done { st with
        Ex := ext.sqrt (st.Ex / (count : R))
        Ey := ext.sqrt (st.Ey / (count : R))
        Emax := ext.sqrt st.Emax }

/-- The reprojection error `delta = p - pModel` of corner `i` of a view. -/
def residualAnalysis.delta {R : Type} [Zero R] [Sub R] (ext : External R)
    (geo : AnalysisExternal R) (self : GenericCameraCalibration R) (camera : CameraID)
    (TrefCam : Transformation R) (data : CalibrationData R) (i : Nat) : Vector2d R :=
  (data.projection.getD i default).sub
    ((residualAnalysis.projModelVec ext geo self camera TrefCam
      (data.extrinsic.getD [])).getD i default)

/-- The geometry of a board seen by a camera at the reference frame: the
six numbers are translation then rotation, and only the translation moves a
point. -/
def exampleGeometry : AnalysisExternal ℚ :=
  { ofData := fun d => ⟨⟨d.getD 0 0, d.getD 1 0, d.getD 2 0⟩, ⟨d.getD 3 0, d.getD 4 0, d.getD 5 0⟩⟩
    transform := fun T X => X.add T.mtrans
    circles := fun _ _ => 0 }

/-- A board of 2 by 1 corners one unit apart, with an outlier threshold of 1. -/
def exampleBoard : GenericCameraCalibration ℚ :=
  { Nx := 2, Ny := 1, sqSize := 1, outlierThresh := 1, grid := [⟨0, 0, 0⟩, ⟨1, 0, 0⟩] }

/-- Two views of the board at depth 1: the first observed where it projects,
the second with its second corner 3/2 pixels off. -/
def exampleViews : List (CalibrationData ℚ) :=
  [{ projection := [⟨0, 0⟩, ⟨1, 0⟩], extrinsic := some [0, 0, 1, 0, 0, 0], fileName := "a" },
   { projection := [⟨0, 0⟩, ⟨5 / 2, 0⟩], extrinsic := some [0, 0, 1, 0, 0, 0], fileName := "b" }]

/-! ## Candidate selection: the order of a scan -/

/-- The indices of a pool whose landmark passes the accept test, from the
highest index (the newest landmark) to the lowest. -/
def acceptedNewestFirst {R : Type} (accept : LandMark R → Option (Feature R))
    (pool : List (LandMark R)) : List Nat :=
  (List.range pool.length).reverse.filter fun j => ((pool.get? j).bind accept).isSome

/-! ## Calibration: the error histogram -/

/-- The sum of a float image over the 400 by 400 cells of the plot. -/
def plotTotal {R : Type} [AddCommMonoid R] (plot : Int → Int → R) : R :=
  ∑ r in Finset.range 400, ∑ c in Finset.range 400, plot (r : Int) (c : Int)

/-- Both components of a reprojection error lie between -2 and 1.99. -/
def withinHistogramRange {R : Type} [LinearOrderedField R] (d : Vector2d R) : Prop :=
  (-2 ≤ d.x ∧ d.x ≤ 199 / 100) ∧ (-2 ≤ d.y ∧ d.y ≤ 199 / 100)

/-- A cell index pair lies inside the 400 by 400 plot. -/
def insidePlot (row col : Int) : Prop :=
  (0 ≤ row ∧ row < 400) ∧ (0 ≤ col ∧ col < 400)

/-! ## The three odometry estimators: building and running the `Odometry` object -/

/-- The matcher of matcher.h, outside the source file: each function returns
the vector `matchVec` it fills, an entry -1 meaning "no match". -/
structure Matcher (R : Type) where
  bruteForceOneToOne : List (Feature R) → List (Feature R) → List Int
  matchReprojected : List (Feature R) → List (Feature R) → R → List Int
  bruteForce_2 : List (Feature R) → List (Feature R) → List (List Int)

/-- Modelled from the spec: the constructor `Odometry(TorigBase, TbaseCam, camera)`
of cartography.h stores its three arguments; the vectors of the new object
are empty. -/
def Odometry.new {R : Type} (TorigBase TbaseCam : Transformation R) (camera : CameraID) :
    Odometry R :=
  { TorigBase := TorigBase, TbaseCam := TbaseCam, camera := camera, observationVec := [],
    cloud := [], inlierMask := [], observationVec_2 := [], inlierMask_2 := [] }

/-- A loop `for (int i = lo; i < hi; i++) if (matchVec[i] != -1)
{ observationVec.push_back(featureVec[matchVec[i]].pt);
cloud.push_back(pool[indexVec[i]].X); }` of `estimateOdometry` and
`estimateOdometry_2`. An index past the end of a vector is undefined behaviour. -/
def pushMatched {R : Type} (pool : List (LandMark R)) (featureVec : List (Feature R))
    (matchVec : List Int) (indexVec : List Nat) (lo hi : Nat) (odometry : Odometry R) :
    Run (Odometry R) :=
  (List.range' lo (hi - lo)).foldl
    (fun (acc : Run (Odometry R)) (i : Nat) =>
      acc.bind fun odo =>
        match matchVec[i]? with
        | none => Run.undefinedBehaviour
        | some m =>
          if m ≠ -1 then
            match featureVec[toSizeT m]?, (indexVec[i]?).bind (fun k => pool[k]?) with
            | some f, some lm =>
              Run.done { odo with
                observationVec := odo.observationVec ++ [f.pt]
                cloud := odo.cloud ++ [lm.X] }
            | _, _ => Run.undefinedBehaviour
          else Run.done odo)
    (Run.done odometry)

/-- The inner loop of `estimateOdometry_3` that collects the matched features
of one landmark: `for (j ...) if (matchVec[i][j] != -1)
vec.push_back(featureVec[matchVec[i][j]].pt);`. -/
def collectPool {R : Type} (featureVec : List (Feature R)) (row : List Int) :
    Run (List (Vector2d R)) :=
  row.foldl
    (fun (acc : Run (List (Vector2d R))) (m : Int) =>
      acc.bind fun vec =>
        if m ≠ -1 then
          match featureVec[toSizeT m]? with
          | some f => Run.done (vec ++ [f.pt])
          | none => Run.undefinedBehaviour
        else Run.done vec)
    (Run.done [])

/-- A loop `for (int i = lo; i < hi; i++) { collect vec; if (vec.size() > 0)
{ observationVec_2.push_back(vec); cloud.push_back(pool[indexVec[i]].X); } }`
of `estimateOdometry_3`. -/
def pushPools {R : Type} (pool : List (LandMark R)) (featureVec : List (Feature R))
    (matchVec : List (List Int)) (indexVec : List Nat) (lo hi : Nat) (odometry : Odometry R) :
    Run (Odometry R) :=
  (List.range' lo (hi - lo)).foldl
    (fun (acc : Run (Odometry R)) (i : Nat) =>
      acc.bind fun odo =>
        match matchVec[i]? with
        | none => Run.undefinedBehaviour
        | some row =>
          (collectPool featureVec row).bind fun vec =>
            if vec.length > 0 then
              match (indexVec[i]?).bind (fun k => pool[k]?) with
              | some lm =>
                Run.done { odo with
                  observationVec_2 := odo.observationVec_2 ++ [vec]
                  cloud := odo.cloud ++ [lm.X] }
              | none => Run.undefinedBehaviour
            else Run.done odo)
    (Run.done odometry)

/-- The part of `estimateOdometry` before the call of `Ransac` (lines 694 to
753): candidate selection, matching, and the two loops that fill the
`Odometry` object from `WM` and from `STM`. -/
def estimateOdometry.build {R : Type} [LinearOrderedField R] (ext : External R)
    (matcher : Matcher R) (self : StereoCartography R) (featureVec : List (Feature R)) :
    Run (Odometry R) :=
  let sel := estimateOdometry.candidates ext self
  let nWMreprojected := sel.1
  let matchVec := matcher.bruteForceOneToOne sel.2.lmFeatureVec featureVec
  let odometry := Odometry.new (self.trajectory.getLastD default) self.stereo.TbaseCam1
    CameraID.LEFT
  (pushMatched self.WM featureVec matchVec sel.2.indexVec 0 nWMreprojected odometry).bind
    fun odometry =>
      pushMatched self.STM featureVec matchVec sel.2.indexVec nWMreprojected sel.2.numActive
        odometry

/-- The part of `estimateOdometry_2` before the call of `Ransac` (lines 770 to
850). -/
def estimateOdometry_2.build {R : Type} [LinearOrderedField R] (ext : External R)
    (matcher : Matcher R) (self : StereoCartography R) (featureVec : List (Feature R)) :
    Run (Odometry R) :=
  let sel := estimateOdometry_2.candidates ext self
  let nWMreprojected := sel.1
  let matchVec := matcher.matchReprojected sel.2.lmFeatureVec featureVec 20
  let odometry := Odometry.new (self.trajectory.getLastD default) self.stereo.TbaseCam1
    CameraID.LEFT
  (pushMatched self.WM featureVec matchVec sel.2.indexVec 0 nWMreprojected odometry).bind
    fun odometry =>
      pushMatched self.STM featureVec matchVec sel.2.indexVec nWMreprojected sel.2.numActive
        odometry

/-- The part of `estimateOdometry_3` before the call of `Ransac_2` (lines 869
to 950); the loop over the candidates of `STM` runs only when
`WM.size() < 50`. -/
def estimateOdometry_3.build {R : Type} [LinearOrderedField R] (ext : External R)
    (matcher : Matcher R) (self : StereoCartography R) (featureVec : List (Feature R)) :
    Run (Odometry R) :=
  let sel := estimateOdometry_3.candidates ext self
  let nWMreprojected := sel.1
  let matchVec := matcher.bruteForce_2 sel.2.lmFeatureVec featureVec
  let odometry := Odometry.new (self.trajectory.getLastD default) self.stereo.TbaseCam1
    CameraID.LEFT
  (pushPools self.WM featureVec matchVec sel.2.indexVec 0 nWMreprojected odometry).bind
    fun odometry =>
      if self.WM.length < 50 then
        pushPools self.STM featureVec matchVec sel.2.indexVec nWMreprojected sel.2.numActive
          odometry
      else Run.done odometry

/-- The function `Odometry::computeTransformation`: the two assertions, one
residual per point whose mask entry is set, and the solve that updates
`TorigBase`. After the assertions every index is inside its vector. -/
def Odometry.computeTransformation {R : Type} [Zero R] (ext : External R) (self : Odometry R) :
    Run (Odometry R) :=
  if self.observationVec.length ≠ self.cloud.length then Run.assertFail
  else if self.observationVec.length ≠ self.inlierMask.length then Run.assertFail
  else
    let residuals := (List.range self.cloud.length).filterMap fun (i : Nat) =>
      if self.inlierMask.getD i false then
        some (self.cloud.getD i default, self.observationVec.getD i default)
      else none
    Run.done { self with
      TorigBase := ext.solveOdometry self.TbaseCam self.camera residuals none self.TorigBase }

/-- The residuals of `computeTransformation_2`: one for every set entry
`inlierMask_2[i][j]`, built from `cloud[i]` and `observationVec_2[i][j]`;
`none` when such a `j` is past the end of the pool. -/
def Odometry.computeTransformation_2.residuals {R : Type} [Zero R] (self : Odometry R) :
    Option (List (Vector3d R × Vector2d R)) :=
  (List.range self.cloud.length).foldl
    (fun (acc : Option (List (Vector3d R × Vector2d R))) (i : Nat) =>
      (List.range (self.inlierMask_2.getD i []).length).foldl
        (fun (acc : Option (List (Vector3d R × Vector2d R))) (j : Nat) =>
          acc.bind fun l =>
            if (self.inlierMask_2.getD i []).getD j false then
              ((self.observationVec_2.getD i [])[j]?).map fun o =>
                l ++ [(self.cloud.getD i default, o)]
            else some l)
        acc)
    (some [])

/-- The function `Odometry::computeTransformation_2`. -/
def Odometry.computeTransformation_2 {R : Type} [Zero R] (ext : External R)
    (self : Odometry R) : Run (Odometry R) :=
  if self.observationVec_2.length ≠ self.cloud.length then Run.assertFail
  else if self.observationVec_2.length ≠ self.inlierMask_2.length then Run.assertFail
  else
    match Odometry.computeTransformation_2.residuals self with
    | none => Run.undefinedBehaviour
    | some residuals =>
      Run.done { self with
        TorigBase :=
          ext.solveOdometry self.TbaseCam self.camera residuals none self.TorigBase }

/-- The function `StereoCartography::estimateOdometry`; `pos` is the number of
`rand()` calls made before the call. -/
def estimateOdometry {R : Type} [LinearOrderedField R] (ext : External R) (matcher : Matcher R)
    (rand : Nat → Nat) (fuel : Nat) (self : StereoCartography R) (featureVec : List (Feature R))
    (pos : Nat) : Run (Transformation R) :=
  (estimateOdometry.build ext matcher self featureVec).bind fun odometry =>
  (Odometry.Ransac ext rand fuel odometry pos).bind fun st =>
  (st.self.computeTransformation ext).bind fun odometry =>
  Run.done odometry.TorigBase

/-- The function `StereoCartography::estimateOdometry_2`. -/
def estimateOdometry_2 {R : Type} [LinearOrderedField R] (ext : External R)
    (matcher : Matcher R) (rand : Nat → Nat) (fuel : Nat) (self : StereoCartography R)
    (featureVec : List (Feature R)) (pos : Nat) : Run (Transformation R) :=
  (estimateOdometry_2.build ext matcher self featureVec).bind fun odometry =>
  (Odometry.Ransac ext rand fuel odometry pos).bind fun st =>
  (st.self.computeTransformation ext).bind fun odometry =>
  Run.done odometry.TorigBase

/-- The function `StereoCartography::estimateOdometry_3`. -/
def estimateOdometry_3 {R : Type} [LinearOrderedField R] (ext : External R)
    (matcher : Matcher R) (rand : Nat → Nat) (fuel : Nat) (self : StereoCartography R)
    (featureVec : List (Feature R)) (pos : Nat) : Run (Transformation R) :=
  (estimateOdometry_3.build ext matcher self featureVec).bind fun odometry =>
  (Odometry.Ransac_2 ext rand fuel odometry pos).bind fun st =>
  (st.self.computeTransformation_2 ext).bind fun odometry =>
  Run.done odometry.TorigBase

/-- A stand-in matcher for concrete runs: candidate `i` is matched to feature
`i`. -/
def exampleMatcher : Matcher ℚ :=
  { bruteForceOneToOne := fun lm _ => (List.range lm.length).map fun (i : Nat) => (i : Int)
    matchReprojected := fun lm _ _ => (List.range lm.length).map fun (i : Nat) => (i : Int)
    bruteForce_2 := fun lm _ => (List.range lm.length).map fun (i : Nat) => [(i : Int)] }

/-- One feature, at the pixel (0, 0). -/
def exampleFeatures : List (Feature ℚ) := [{ pt := ⟨0, 0⟩, d := [7] }]

/-- The object that `estimateOdometry_3` builds from `nearLandmarkMap` and
`exampleFeatures`: one landmark with a pool of one feature. -/
def exampleBuilt : Odometry ℚ :=
  { TorigBase := ⟨⟨0, 0, 0⟩, ⟨0, 0, 0⟩⟩
    TbaseCam := ⟨⟨0, 0, 0⟩, ⟨0, 0, 0⟩⟩
    camera := CameraID.LEFT
    observationVec := []
    cloud := [⟨0, 0, 3 / 10⟩]
    inlierMask := []
    observationVec_2 := [[⟨0, 0⟩]]
    inlierMask_2 := [] }

/-! # Theorems -/

/-! ## Machine integers -/

theorem toInt32_of_range (n : Int) (h1 : -2 ^ 31 ≤ n) (h2 : n < 2 ^ 31) : toInt32 n = n := by
  unfold toInt32
  have h : (n + 2 ^ 31) % 2 ^ 32 = n + 2 ^ 31 := Int.emod_eq_of_lt (by omega) (by omega)
  omega

theorem lastFixedPos_windowed (K : Nat) (hK : K ≤ 2 ^ 31) :
    improveTheMap.lastFixedPos false K = max 1 ((K : Int) - 5) := by
  unfold improveTheMap.lastFixedPos
  simp only [Bool.false_eq_true, if_false]
  rcases Nat.eq_zero_or_pos K with h0 | hpos
  · subst h0
    decide
  · have hs : ((toSizeT ((K : Int) - 1) : Nat) : Int) = (K : Int) - 1 := by
      unfold toSizeT
      have h : ((K : Int) - 1) % 2 ^ 64 = (K : Int) - 1 :=
        Int.emod_eq_of_lt (by omega) (by omega)
      rw [h]
      omega
    rw [hs, toInt32_of_range ((K : Int) - 1) (by omega) (by omega),
      toInt32_of_range ((K : Int) - 1 - 4) (by omega) (by omega)]
    congr 1
    omega

/-! ## Bundle adjustment: the loops build one residual per observation -/

theorem improveTheMap_body_eq {R : Type} [Zero R] (self : StereoCartography R) (lfp : Int)
    (i : Nat) (init : MapInitializer R) (ob : Observation R) :
    (improveTheMap.body self lfp i init ob).problem =
      init.problem ++ [residualFor self (decide (ob.poseIdx ≤ lfp)) i ob] := by
  unfold improveTheMap.body residualFor MapInitializer.addFixedObservation
    MapInitializer.addObservation
  cases hc : ob.cameraId <;> by_cases h : ob.poseIdx ≤ lfp <;> simp [h]

theorem improveTheMap_foldl_eq {R : Type} [Zero R] (self : StereoCartography R) (lfp : Int)
    (i : Nat) (obs : List (Observation R)) (init : MapInitializer R) :
    (obs.foldl (improveTheMap.body self lfp i) init).problem =
      init.problem ++ obs.map (fun ob => residualFor self (decide (ob.poseIdx ≤ lfp)) i ob) := by
  induction obs generalizing init with
  | nil => simp
  | cons ob rest ih =>
    rw [List.foldl_cons, ih, improveTheMap_body_eq]
    simp

theorem improveTheMap_loop_eq {R : Type} [Zero R] (self : StereoCartography R) (lfp : Int)
    (wm : List (LandMark R)) (i : Nat) (init : MapInitializer R) :
    (improveTheMap.loop self lfp i wm init).problem =
      init.problem ++ residualsFor self (fun p => decide (p ≤ lfp)) i wm := by
  induction wm generalizing i init with
  | nil => simp [improveTheMap.loop, residualsFor]
  | cons lm rest ih =>
    rw [improveTheMap.loop, ih, improveTheMap_foldl_eq, residualsFor]
    simp

theorem improveTheMap_2_body_eq {R : Type} [Zero R] (self : StereoCartography R)
    (i : Nat) (init : MapInitializer R) (ob : Observation R) :
    (improveTheMap_2.body self i init ob).problem =
      init.problem ++ [residualFor self (decide (ob.poseIdx = 0)) i ob] := by
  unfold improveTheMap_2.body residualFor MapInitializer.addFixedObservation
    MapInitializer.addObservation
  cases hc : ob.cameraId <;> by_cases h : ob.poseIdx = 0 <;> simp [h]

theorem improveTheMap_2_foldl_eq {R : Type} [Zero R] (self : StereoCartography R)
    (i : Nat) (obs : List (Observation R)) (init : MapInitializer R) :
    (obs.foldl (improveTheMap_2.body self i) init).problem =
      init.problem ++ obs.map (fun ob => residualFor self (decide (ob.poseIdx = 0)) i ob) := by
  induction obs generalizing init with
  | nil => simp
  | cons ob rest ih =>
    rw [List.foldl_cons, ih, improveTheMap_2_body_eq]
    simp

theorem improveTheMap_2_loop_eq {R : Type} [Zero R] (self : StereoCartography R)
    (wm : List (LandMark R)) (i : Nat) (init : MapInitializer R) :
    (improveTheMap_2.loop self i wm init).problem =
      init.problem ++ residualsFor self (fun p => decide (p = 0)) i wm := by
  induction wm generalizing i init with
  | nil => simp [improveTheMap_2.loop, residualsFor]
  | cons lm rest ih =>
    rw [improveTheMap_2.loop, ih, improveTheMap_2_foldl_eq, residualsFor]
    simp

theorem mem_residualsFor {R : Type} [Zero R] (self : StereoCartography R) (rule : Int → Bool)
    (wm : List (LandMark R)) (i : Nat) (rb : ResidualBlock R) :
    rb ∈ residualsFor self rule i wm ↔
      ∃ j lm ob, wm[j]? = some lm ∧ ob ∈ lm.observations ∧
        rb = residualFor self (rule ob.poseIdx) (i + j) ob := by
  induction wm generalizing i with
  | nil => simp [residualsFor]
  | cons lm rest ih =>
    rw [residualsFor, List.mem_append, ih]
    constructor
    · rintro (h | ⟨j, lm2, ob, hj, hob, rfl⟩)
      · obtain ⟨ob, hob, rfl⟩ := List.mem_map.mp h
        exact ⟨0, lm, ob, by simp, hob, by simp⟩
      · exact ⟨j + 1, lm2, ob, by simpa using hj, hob, by congr 1; omega⟩
    · rintro ⟨j, lm2, ob, hj, hob, rfl⟩
      cases j with
      | zero =>
        left
        simp only [List.getElem?_cons_zero, Option.some.injEq] at hj
        subst hj
        exact List.mem_map.mpr ⟨ob, hob, by simp⟩
      | succ j =>
        right
        exact ⟨j, lm2, ob, by simpa using hj, hob, by congr 1; omega⟩

theorem residualFor_params_free {R : Type} [Zero R] (self : StereoCartography R) (b : Bool)
    (i : Nat) (ob : Observation R) (p : Int) :
    (ParamBlock.transData p ∈ (residualFor self b i ob).params ↔ (b = false ∧ p = ob.poseIdx)) ∧
    (ParamBlock.rotData p ∈ (residualFor self b i ob).params ↔ (b = false ∧ p = ob.poseIdx)) := by
  cases b <;> simp [residualFor]

theorem exampleSolver_mutatesOnlyRegistered : exampleSolver.MutatesOnlyRegistered := by
  intro problem m b h
  unfold exampleSolver
  rw [if_neg]
  simp only [List.any_eq_true, decide_eq_true_eq, not_exists, not_and]
  exact h

theorem write_trajectory_getElem? {R : Type} (self : StereoCartography R) (m : Memory R)
    (p : Nat) :
    (self.write m).trajectory[p]? =
      (self.trajectory[p]?).map
        (fun _ => { mtrans := m (.transData p), mrot := m (.rotData p) }) := by
  unfold StereoCartography.write
  simp only [List.getElem?_map]
  by_cases hp : p < self.trajectory.length
  · rw [List.getElem?_range hp, List.getElem?_eq_getElem hp]
    rfl
  · rw [List.getElem?_eq_none (by simpa using hp), List.getElem?_eq_none (by simpa using hp)]
    rfl

theorem write_trajectory_unchanged {R : Type} [Zero R] (self : StereoCartography R)
    (m : Memory R) (p : Nat)
    (ht : m (.transData p) = self.read (.transData p))
    (hr : m (.rotData p) = self.read (.rotData p)) :
    (self.write m).trajectory[p]? = self.trajectory[p]? := by
  rw [write_trajectory_getElem?]
  by_cases hp : p < self.trajectory.length
  · rw [List.getElem?_eq_getElem hp]
    simp only [Option.map_some']
    rw [ht, hr]
    have : atInt self.trajectory (p : Int) = self.trajectory[p] := by
      show self.trajectory.getD p default = _
      rw [List.getD_eq_getElem _ _ hp]
    simp only [StereoCartography.read, this]
  · rw [List.getElem?_eq_none (by simpa using hp)]
    rfl

theorem exampleSolver_moves_pose_six :
    (exampleMap.trajectory[6]?).map (fun T => T.mtrans.x) = some 6 ∧
      ((improveTheMap exampleSolver exampleMap false).trajectory[6]?).map
        (fun T => T.mtrans.x) = some 7 := by
  refine ⟨by simp [exampleMap], ?_⟩
  simp [improveTheMap, MapInitializer.compute, StereoCartography.write, exampleSolver,
    StereoCartography.read, improveTheMap.loop, improveTheMap.lastFixedPos, exampleMap,
    improveTheMap.body, atInt, MapInitializer.addFixedObservation,
    MapInitializer.addObservation, List.range, List.range.loop, toInt32, toSizeT]
  norm_num

/-! ## C1 to C3: which observations are pose-fixed -/

/-- C1. Windowed bundle adjustment (`improveTheMap` with `firstBA = false` and
more than ten landmarks in `WM`) hands the solver exactly one residual per
observation, in order; the residual of an observation is a pose-fixed
`ReprojectionErrorFixed` iff its `poseIdx` is at most `max(1, K - 5)`, where `K`
is the trajectory length, and a free `ReprojectionErrorStereo` iff its
`poseIdx` is greater; the threshold equals `max(1, k - 4)` for `k = K - 1`.
The trajectory length is assumed to fit the `int` the source stores it in. -/
theorem windowedBA_fixed_iff_le_threshold {R : Type} [Zero R] (self : StereoCartography R)
    (hK : self.trajectory.length ≤ 2 ^ 31) (hWM : 10 < self.WM.length) :
    improveTheMap.problem self false =
        some (residualsFor self
          (fun p => decide (p ≤ max 1 ((self.trajectory.length : Int) - 5))) 0 self.WM) ∧
      (∀ (i : Nat) (ob : Observation R),
        ((residualFor self
            (decide (ob.poseIdx ≤ max 1 ((self.trajectory.length : Int) - 5))) i ob).isFixed
              = true ↔
          ob.poseIdx ≤ max 1 ((self.trajectory.length : Int) - 5)) ∧
        ((residualFor self
            (decide (ob.poseIdx ≤ max 1 ((self.trajectory.length : Int) - 5))) i ob).isStereo
              = true ↔
          max 1 ((self.trajectory.length : Int) - 5) < ob.poseIdx)) ∧
      max 1 ((self.trajectory.length : Int) - 5) =
        max 1 (((self.trajectory.length : Int) - 1) - 4) := by
  refine ⟨?_, ?_, ?_⟩
  · unfold improveTheMap.problem
    simp only [gt_iff_lt, hWM, if_true]
    rw [improveTheMap_loop_eq, lastFixedPos_windowed _ hK]
    simp
  · intro i ob
    by_cases h : ob.poseIdx ≤ max 1 ((self.trajectory.length : Int) - 5)
    · simp only [residualFor, ResidualBlock.isFixed, ResidualBlock.isStereo, h, decide_True,
        if_true, true_iff, Bool.false_eq_true, false_iff, not_lt, and_self]
    · simp only [residualFor, ResidualBlock.isFixed, ResidualBlock.isStereo, h, decide_False,
        Bool.false_eq_true, if_false, false_iff, not_false_eq_true, true_iff, true_and]
      exact lt_of_not_le h
  · congr 1
    omega

/-- Witness of C1 on `exampleMap` (ten poses, eleven landmarks). -/
theorem windowedBA_fixed_iff_le_threshold_witness :
    exampleMap.trajectory.length ≤ 2 ^ 31 ∧ 10 < exampleMap.WM.length ∧
      improveTheMap.problem exampleMap false =
        some (residualsFor exampleMap
          (fun p => decide (p ≤ max 1 ((exampleMap.trajectory.length : Int) - 5)))
          0 exampleMap.WM) :=
  ⟨by decide, by decide,
    (windowedBA_fixed_iff_le_threshold exampleMap (by decide) (by decide)).1⟩

/-- C2. In windowed bundle adjustment no residual block registers the
translation or rotation block of a pose with index at most
`max(1, K - 5)`, a pose-fixed residual registers the landmark block only, and
therefore a solver that mutates only registered blocks leaves every such pose
of the trajectory unchanged; with ten poses the fixed prefix is 5 and the
poses 0 to 5 are unchanged. -/
theorem windowedBA_fixed_poses_unchanged {R : Type} [Zero R] (solve : Solver R)
    (self : StereoCartography R) (hsolve : solve.MutatesOnlyRegistered)
    (hK : self.trajectory.length ≤ 2 ^ 31) :
    (∀ prob, improveTheMap.problem self false = some prob → ∀ rb ∈ prob,
        (rb.isFixed = true → ∃ i, rb.params = [ParamBlock.landmarkX i]) ∧
        ∀ p : Int, p ≤ max 1 ((self.trajectory.length : Int) - 5) →
          ParamBlock.transData p ∉ rb.params ∧ ParamBlock.rotData p ∉ rb.params) ∧
      (∀ p : Nat, (p : Int) ≤ max 1 ((self.trajectory.length : Int) - 5) →
        (improveTheMap solve self false).trajectory[p]? = self.trajectory[p]?) ∧
      (self.trajectory.length = 10 →
        improveTheMap.lastFixedPos false self.trajectory.length = 5 ∧
        ∀ p : Nat, p ≤ 5 →
          (improveTheMap solve self false).trajectory[p]? = self.trajectory[p]?) := by
  have hreg : ∀ rb ∈ (improveTheMap.loop self
        (improveTheMap.lastFixedPos false self.trajectory.length) 0 self.WM
        { problem := [] }).problem,
      (rb.isFixed = true → ∃ i, rb.params = [ParamBlock.landmarkX i]) ∧
      ∀ p : Int, p ≤ max 1 ((self.trajectory.length : Int) - 5) →
        ParamBlock.transData p ∉ rb.params ∧ ParamBlock.rotData p ∉ rb.params := by
    intro rb hrb
    rw [improveTheMap_loop_eq, lastFixedPos_windowed _ hK] at hrb
    simp only [List.nil_append] at hrb
    obtain ⟨j, lm, ob, -, -, rfl⟩ := (mem_residualsFor _ _ _ _ _).mp hrb
    refine ⟨?_, ?_⟩
    · intro hfix
      by_cases h : ob.poseIdx ≤ max 1 ((self.trajectory.length : Int) - 5)
      · exact ⟨0 + j, by simp [residualFor, h]⟩
      · simp [residualFor, ResidualBlock.isFixed, h] at hfix
    · intro p hp
      have h := residualFor_params_free self
        (decide (ob.poseIdx ≤ max 1 ((self.trajectory.length : Int) - 5))) (0 + j) ob p
      rw [h.1, h.2]
      have hne : ¬ (decide (ob.poseIdx ≤ max 1 ((self.trajectory.length : Int) - 5)) = false ∧
          p = ob.poseIdx) := by
        rintro ⟨h1, rfl⟩
        simp only [decide_eq_false_iff_not] at h1
        exact h1 hp
      exact ⟨hne, hne⟩
  have hpose : ∀ p : Nat, (p : Int) ≤ max 1 ((self.trajectory.length : Int) - 5) →
      (improveTheMap solve self false).trajectory[p]? = self.trajectory[p]? := by
    intro p hp
    unfold improveTheMap
    by_cases hWM : self.WM.length > 10
    · simp only [hWM, if_true, MapInitializer.compute]
      apply write_trajectory_unchanged
      · exact hsolve _ _ _ (fun rb hrb => ((hreg rb hrb).2 p hp).1)
      · exact hsolve _ _ _ (fun rb hrb => ((hreg rb hrb).2 p hp).2)
    · simp only [hWM, if_false]
  refine ⟨?_, hpose, ?_⟩
  · intro prob hprob rb hrb
    unfold improveTheMap.problem at hprob
    by_cases hWM : self.WM.length > 10
    · simp only [hWM, if_true, Option.some.injEq] at hprob
      subst hprob
      exact hreg rb hrb
    · simp only [hWM, if_false] at hprob
      exact absurd hprob (by simp)
  · intro h10
    refine ⟨?_, ?_⟩
    · rw [h10]
      decide
    · intro p hp
      apply hpose
      rw [h10]
      have : max (1 : Int) (((10 : Nat) : Int) - 5) = 5 := by decide
      rw [this]
      exact_mod_cast hp

/-- Witness of C2: `exampleSolver` moves every registered block, pose 6 of the
ten-pose `exampleMap` among them, and the poses 0 to 5 stay as they were. -/
theorem windowedBA_fixed_poses_unchanged_witness :
    exampleSolver.MutatesOnlyRegistered ∧ exampleMap.trajectory.length ≤ 2 ^ 31 ∧
      ((exampleMap.trajectory[6]?).map (fun T => T.mtrans.x) = some 6 ∧
        ((improveTheMap exampleSolver exampleMap false).trajectory[6]?).map
          (fun T => T.mtrans.x) = some 7) ∧
      (exampleMap.trajectory.length = 10 →
        improveTheMap.lastFixedPos false exampleMap.trajectory.length = 5 ∧
        ∀ p : Nat, p ≤ 5 →
          (improveTheMap exampleSolver exampleMap false).trajectory[p]? =
            exampleMap.trajectory[p]?) :=
  ⟨exampleSolver_mutatesOnlyRegistered, by decide, exampleSolver_moves_pose_six,
    (windowedBA_fixed_poses_unchanged exampleSolver exampleMap
      exampleSolver_mutatesOnlyRegistered (by decide)).2.2⟩

/-- C3. Full bundle adjustment (`improveTheMap_2`) hands the solver exactly one
residual per observation of every `WM` landmark; it is a pose-fixed
`ReprojectionErrorFixed` iff the observation has `poseIdx = 0`, and otherwise a
`ReprojectionErrorStereo` over the landmark and the translation and rotation
blocks of `trajectory[poseIdx]`. Hence the blocks of pose 0 are never
registered, while every other pose that an observation refers to is. -/
theorem fullBA_fixed_iff_pose_zero {R : Type} [Zero R] (self : StereoCartography R) :
    improveTheMap_2.problem self =
        residualsFor self (fun p => decide (p = 0)) 0 self.WM ∧
      (∀ (i : Nat) (ob : Observation R),
        ((residualFor self (decide (ob.poseIdx = 0)) i ob).isFixed = true ↔
          ob.poseIdx = 0) ∧
        (ob.poseIdx ≠ 0 →
          (residualFor self (decide (ob.poseIdx = 0)) i ob).isStereo = true ∧
          (residualFor self (decide (ob.poseIdx = 0)) i ob).params =
            [ParamBlock.landmarkX i, ParamBlock.transData ob.poseIdx,
              ParamBlock.rotData ob.poseIdx])) ∧
      (∀ rb ∈ improveTheMap_2.problem self,
        ParamBlock.transData 0 ∉ rb.params ∧ ParamBlock.rotData 0 ∉ rb.params) ∧
      (∀ lm ∈ self.WM, ∀ ob ∈ lm.observations, ob.poseIdx ≠ 0 →
        ∃ rb ∈ improveTheMap_2.problem self,
          ParamBlock.transData ob.poseIdx ∈ rb.params ∧
          ParamBlock.rotData ob.poseIdx ∈ rb.params) := by
  have hprob : improveTheMap_2.problem self =
      residualsFor self (fun p => decide (p = 0)) 0 self.WM := by
    unfold improveTheMap_2.problem
    rw [improveTheMap_2_loop_eq]
    simp
  refine ⟨hprob, ?_, ?_, ?_⟩
  · intro i ob
    by_cases h : ob.poseIdx = 0
    · simp [residualFor, ResidualBlock.isFixed, h]
    · simp [residualFor, ResidualBlock.isFixed, ResidualBlock.isStereo, h]
  · intro rb hrb
    rw [hprob] at hrb
    obtain ⟨j, lm, ob, -, -, rfl⟩ := (mem_residualsFor _ _ _ _ _).mp hrb
    have h := residualFor_params_free self (decide (ob.poseIdx = 0)) (0 + j) ob 0
    rw [h.1, h.2]
    have hne : ¬ (decide (ob.poseIdx = 0) = false ∧ 0 = ob.poseIdx) := by
      rintro ⟨h1, h2⟩
      simp only [decide_eq_false_iff_not] at h1
      exact h1 h2.symm
    exact ⟨hne, hne⟩
  · intro lm hlm ob hob hne
    obtain ⟨j, hj, hget⟩ := List.getElem_of_mem hlm
    refine ⟨residualFor self (decide (ob.poseIdx = 0)) (0 + j) ob, ?_, ?_⟩
    · rw [hprob]
      exact (mem_residualsFor _ _ _ _ _).mpr
        ⟨j, lm, ob, by rw [List.getElem?_eq_getElem hj, hget], hob, rfl⟩
    · have h := residualFor_params_free self (decide (ob.poseIdx = 0)) (0 + j) ob ob.poseIdx
      rw [h.1, h.2]
      simp [hne]

/-! ## Runs -/

theorem Run.bind_eq_done {α β : Type} (r : Run α) (f : α → Run β) (b : β) :
    r.bind f = Run.done b ↔ ∃ a, r = Run.done a ∧ f a = Run.done b := by
  cases r <;> simp [Run.bind]

theorem Run.bind_done {α β : Type} (a : α) (f : α → Run β) :
    (Run.done a).bind f = f a := rfl

/-! ## The sampling loop, one pass at a time -/

theorem sampleLoop_pass_accept {R : Type} [LinearOrderedField R] (ext : External R)
    (self : Odometry R) (rand : Nat → Nat) (maxIdx : Nat) (angleTh : R) (fuel passes counter
    pos i2 p2 i3 p3 : Nat) (hm : maxIdx ≠ 0)
    (h2 : drawIndex rand maxIdx [rand pos % maxIdx] fuel (pos + 1) = Run.done (i2, p2))
    (h3 : drawIndex rand maxIdx [rand pos % maxIdx, i2] fuel p2 = Run.done (i3, p3))
    (hc : counter + 1 ≠ 10000)
    (hs : self.checkSpan ext [self.cloud.getD (rand pos % maxIdx) default,
      self.cloud.getD i2 default, self.cloud.getD i3 default] angleTh = Run.done true) :
    self.sampleLoop ext rand maxIdx angleTh fuel (passes + 1) counter pos =
      Run.done ⟨rand pos % maxIdx, i2, i3, p3⟩ := by
  rw [Odometry.sampleLoop]
  simp only [hm, if_false, h2, h3, Run.bind, hc, hs, Bool.true_eq_false]

theorem sampleLoop_pass_reject {R : Type} [LinearOrderedField R] (ext : External R)
    (self : Odometry R) (rand : Nat → Nat) (maxIdx : Nat) (angleTh : R) (fuel passes counter
    pos i2 p2 i3 p3 : Nat) (hm : maxIdx ≠ 0)
    (h2 : drawIndex rand maxIdx [rand pos % maxIdx] fuel (pos + 1) = Run.done (i2, p2))
    (h3 : drawIndex rand maxIdx [rand pos % maxIdx, i2] fuel p2 = Run.done (i3, p3))
    (hc : counter + 1 ≠ 10000)
    (hs : self.checkSpan ext [self.cloud.getD (rand pos % maxIdx) default,
      self.cloud.getD i2 default, self.cloud.getD i3 default] angleTh = Run.done false) :
    self.sampleLoop ext rand maxIdx angleTh fuel (passes + 1) counter pos =
      self.sampleLoop ext rand maxIdx angleTh fuel passes (counter + 1) p3 := by
  rw [Odometry.sampleLoop]
  simp only [hm, if_false, h2, h3, Run.bind, hc, hs, if_true]

theorem sampleLoop_pass_exit {R : Type} [LinearOrderedField R] (ext : External R)
    (self : Odometry R) (rand : Nat → Nat) (maxIdx : Nat) (angleTh : R) (fuel passes counter
    pos i2 p2 i3 p3 : Nat) (hm : maxIdx ≠ 0)
    (h2 : drawIndex rand maxIdx [rand pos % maxIdx] fuel (pos + 1) = Run.done (i2, p2))
    (h3 : drawIndex rand maxIdx [rand pos % maxIdx, i2] fuel p2 = Run.done (i3, p3))
    (hc : counter + 1 = 10000) :
    self.sampleLoop ext rand maxIdx angleTh fuel (passes + 1) counter pos = Run.exit1 := by
  rw [Odometry.sampleLoop]
  simp only [hm, if_false, h2, h3, Run.bind, hc, if_true]

theorem drawIndex_first {rand : Nat → Nat} {maxIdx : Nat} {avoid : List Nat} (fuel pos : Nat)
    (hm : maxIdx ≠ 0) (h : rand pos % maxIdx ∉ avoid) :
    drawIndex rand maxIdx avoid (fuel + 1) pos = Run.done (rand pos % maxIdx, pos + 1) := by
  rw [drawIndex]
  simp only [hm, if_false, h]

theorem exampleOdometry_span_012 :
    exampleOdometry.checkSpan ratExternal [exampleOdometry.cloud.getD 0 default,
      exampleOdometry.cloud.getD 1 default, exampleOdometry.cloud.getD 2 default] 0.2 =
      Run.done true := by
  norm_num [Odometry.checkSpan, Odometry.checkSpan.theta, Odometry.checkSpan.apart, ratExternal,
    translationExternal, exampleOdometry, Vector3d.dot, Vector3d.norm, Vector3d.sub,
    Vector3d.add, newtonSqrt, seriesAcos, List.range, List.range.loop, abs_le, le_abs]

theorem exampleOdometry_first_sample :
    exampleOdometry.sampleLoop ratExternal (fun n => n) 4 (0.2 : ℚ) 10 10000 0 0 =
      Run.done ⟨0, 1, 2, 3⟩ :=
  sampleLoop_pass_accept ratExternal exampleOdometry (fun n => n) 4 0.2 10 9999 0 0 1 2 2 3
    (by decide) (by decide) (by decide) (by decide) exampleOdometry_span_012

theorem exampleOdometry_first_count :
    Odometry.Ransac.countInliers ratExternal exampleOdometry.observationVec
      (ratExternal.projectPointCloud CameraID.LEFT
        (exampleOdometry.cloud.map (ratExternal.inverseTransform
          (ratExternal.compose exampleOdometry.TorigBase exampleOdometry.TbaseCam)))) 4 =
      ([true, true, true, false], 3) := by
  norm_num [Odometry.Ransac.countInliers, External.projectPointCloud, ratExternal,
    translationExternal, exampleOdometry, Vector3d.sub, Vector3d.add, Vector2d.sub,
    Vector2d.norm, newtonSqrt, List.range, List.range.loop]
  rfl


/-! ## C4: the best hypothesis of RANSAC -/

theorem Ransac_keepBest_le {R : Type} (st : RansacState R) (h : Hypothesis R) :
    st.bestInliers ≤ (Odometry.Ransac.keepBest st h).bestInliers := by
  unfold Odometry.Ransac.keepBest
  split
  · exact le_of_lt (by assumption)
  · exact le_refl _

theorem Ransac_2_keepBest_le {R : Type} (st : RansacState R) (h : Hypothesis R) :
    st.bestInliers ≤ (Odometry.Ransac_2.keepBest st h).bestInliers := by
  unfold Odometry.Ransac_2.keepBest
  split
  · exact le_of_lt (by assumption)
  · exact le_refl _

theorem Ransac_loop_le {R : Type} [LinearOrderedField R] (ext : External R) (rand : Nat → Nat)
    (fuel : Nat) (initialPose : Transformation R) (numPoints : Nat) (n : Nat)
    (st st1 : RansacState R)
    (h : Odometry.Ransac.loop ext rand fuel initialPose numPoints n st = Run.done st1) :
    st.bestInliers ≤ st1.bestInliers := by
  induction n generalizing st with
  | zero =>
    simp only [Odometry.Ransac.loop, Run.done.injEq] at h
    rw [h]
  | succ n ih =>
    rw [Odometry.Ransac.loop, Run.bind_eq_done] at h
    obtain ⟨st2, h2, h3⟩ := h
    rw [Odometry.Ransac.iteration, Run.bind_eq_done] at h2
    obtain ⟨hyp, -, h5⟩ := h2
    simp only [Run.done.injEq] at h5
    subst h5
    exact le_trans (Ransac_keepBest_le st hyp) (ih _ h3)

theorem Ransac_2_loop_le {R : Type} [LinearOrderedField R] (ext : External R)
    (rand : Nat → Nat) (fuel : Nat) (initialPose : Transformation R) (numPoints : Nat) (n : Nat)
    (st st1 : RansacState R)
    (h : Odometry.Ransac_2.loop ext rand fuel initialPose numPoints n st = Run.done st1) :
    st.bestInliers ≤ st1.bestInliers := by
  induction n generalizing st with
  | zero =>
    simp only [Odometry.Ransac_2.loop, Run.done.injEq] at h
    rw [h]
  | succ n ih =>
    rw [Odometry.Ransac_2.loop, Run.bind_eq_done] at h
    obtain ⟨st2, h2, h3⟩ := h
    rw [Odometry.Ransac_2.iteration, Run.bind_eq_done] at h2
    obtain ⟨hyp, -, h5⟩ := h2
    simp only [Run.done.injEq] at h5
    subst h5
    exact le_trans (Ransac_2_keepBest_le st hyp) (ih _ h3)

theorem Ransac_loop_add {R : Type} [LinearOrderedField R] (ext : External R) (rand : Nat → Nat)
    (fuel : Nat) (initialPose : Transformation R) (numPoints : Nat) (n m : Nat)
    (st : RansacState R) :
    Odometry.Ransac.loop ext rand fuel initialPose numPoints (n + m) st =
      (Odometry.Ransac.loop ext rand fuel initialPose numPoints n st).bind
        (Odometry.Ransac.loop ext rand fuel initialPose numPoints m) := by
  induction n generalizing st with
  | zero => simp [Odometry.Ransac.loop, Run.bind]
  | succ n ih =>
    rw [Nat.succ_add_eq_add_succ, Nat.add_succ, Odometry.Ransac.loop, Odometry.Ransac.loop]
    cases hit : Odometry.Ransac.iteration ext rand fuel initialPose numPoints st with
    | done st1 => simp only [Run.bind]; exact ih st1
    | exit1 => rfl
    | assertFail => rfl
    | undefinedBehaviour => rfl
    | outOfFuel => rfl

theorem Ransac_2_loop_add {R : Type} [LinearOrderedField R] (ext : External R)
    (rand : Nat → Nat) (fuel : Nat) (initialPose : Transformation R) (numPoints : Nat)
    (n m : Nat) (st : RansacState R) :
    Odometry.Ransac_2.loop ext rand fuel initialPose numPoints (n + m) st =
      (Odometry.Ransac_2.loop ext rand fuel initialPose numPoints n st).bind
        (Odometry.Ransac_2.loop ext rand fuel initialPose numPoints m) := by
  induction n generalizing st with
  | zero => simp [Odometry.Ransac_2.loop, Run.bind]
  | succ n ih =>
    rw [Nat.succ_add_eq_add_succ, Nat.add_succ, Odometry.Ransac_2.loop, Odometry.Ransac_2.loop]
    cases hit : Odometry.Ransac_2.iteration ext rand fuel initialPose numPoints st with
    | done st1 => simp only [Run.bind]; exact ih st1
    | exit1 => rfl
    | assertFail => rfl
    | undefinedBehaviour => rfl
    | outOfFuel => rfl

/-- C4. In `Ransac` and in `Ransac_2` an iteration that completes replaces the
stored best count, the best pose `TorigBase` and the inlier mask together, by
the count, pose and mask of its own hypothesis, exactly when that count is
strictly greater than the stored best count, and leaves all three as they
were otherwise; hence the best count after any number of iterations is at
least the best count after fewer iterations. -/
theorem ransac_best_count_nondecreasing {R : Type} [LinearOrderedField R] (ext : External R)
    (rand : Nat → Nat) (fuel : Nat) (initialPose : Transformation R) (numPoints : Nat) :
    (∀ st st1 : RansacState R,
      Odometry.Ransac.iteration ext rand fuel initialPose numPoints st = Run.done st1 →
      ∃ h, Odometry.Ransac.hypothesis ext rand fuel initialPose numPoints st = Run.done h ∧
        (st.bestInliers < h.countInliers →
          st1.bestInliers = h.countInliers ∧ st1.self.TorigBase = h.pose ∧
            st1.self.inlierMask = h.currentInlierMask) ∧
        (¬ st.bestInliers < h.countInliers →
          st1.bestInliers = st.bestInliers ∧ st1.self.TorigBase = st.self.TorigBase ∧
            st1.self.inlierMask = st.self.inlierMask) ∧
        st.bestInliers ≤ st1.bestInliers) ∧
    (∀ (n m : Nat) (st stn stm : RansacState R),
      Odometry.Ransac.loop ext rand fuel initialPose numPoints n st = Run.done stn →
      Odometry.Ransac.loop ext rand fuel initialPose numPoints (n + m) st = Run.done stm →
      stn.bestInliers ≤ stm.bestInliers) ∧
    (∀ st st1 : RansacState R,
      Odometry.Ransac_2.iteration ext rand fuel initialPose numPoints st = Run.done st1 →
      ∃ h, Odometry.Ransac_2.hypothesis ext rand fuel initialPose numPoints st = Run.done h ∧
        (st.bestInliers < h.countInliers →
          st1.bestInliers = h.countInliers ∧ st1.self.TorigBase = h.pose ∧
            st1.self.inlierMask_2 = h.currentInlierMask_2) ∧
        (¬ st.bestInliers < h.countInliers →
          st1.bestInliers = st.bestInliers ∧ st1.self.TorigBase = st.self.TorigBase ∧
            st1.self.inlierMask_2 = st.self.inlierMask_2) ∧
        st.bestInliers ≤ st1.bestInliers) ∧
    (∀ (n m : Nat) (st stn stm : RansacState R),
      Odometry.Ransac_2.loop ext rand fuel initialPose numPoints n st = Run.done stn →
      Odometry.Ransac_2.loop ext rand fuel initialPose numPoints (n + m) st = Run.done stm →
      stn.bestInliers ≤ stm.bestInliers) := by
  refine ⟨?_, ?_, ?_, ?_⟩
  · intro st st1 hit
    rw [Odometry.Ransac.iteration, Run.bind_eq_done] at hit
    obtain ⟨h, hh, hk⟩ := hit
    simp only [Run.done.injEq] at hk
    subst hk
    refine ⟨h, hh, ?_, ?_, Ransac_keepBest_le st h⟩
    · intro hlt
      simp [Odometry.Ransac.keepBest, hlt]
    · intro hlt
      simp [Odometry.Ransac.keepBest, hlt]
  · intro n m st stn stm hn hm
    rw [Ransac_loop_add, hn, Run.bind_done] at hm
    exact Ransac_loop_le ext rand fuel initialPose numPoints m stn stm hm
  · intro st st1 hit
    rw [Odometry.Ransac_2.iteration, Run.bind_eq_done] at hit
    obtain ⟨h, hh, hk⟩ := hit
    simp only [Run.done.injEq] at hk
    subst hk
    refine ⟨h, hh, ?_, ?_, Ransac_2_keepBest_le st h⟩
    · intro hlt
      simp [Odometry.Ransac_2.keepBest, hlt]
    · intro hlt
      simp [Odometry.Ransac_2.keepBest, hlt]
  · intro n m st stn stm hn hm
    rw [Ransac_2_loop_add, hn, Run.bind_done] at hm
    exact Ransac_2_loop_le ext rand fuel initialPose numPoints m stn stm hm

/-- Witness of C4: on `exampleOdometry` the first iteration of `Ransac`
completes, finds three inliers and replaces the best count 0 by 3. -/
theorem ransac_best_count_nondecreasing_witness :
    ∃ st1 : RansacState ℚ,
      Odometry.Ransac.loop ratExternal (fun n => n) 10 exampleOdometry.TorigBase 4 0
        exampleStart = Run.done exampleStart ∧
      Odometry.Ransac.loop ratExternal (fun n => n) 10 exampleOdometry.TorigBase 4 (0 + 1)
        exampleStart = Run.done st1 ∧
      st1.bestInliers = 3 ∧ exampleStart.bestInliers ≤ st1.bestInliers := by
  have hhyp : Odometry.Ransac.hypothesis ratExternal (fun n => n) 10
      exampleOdometry.TorigBase 4 exampleStart =
      Run.done ⟨exampleOdometry.TorigBase, [true, true, true, false], [], 3, 3⟩ := by
    unfold Odometry.Ransac.hypothesis
    have hs : exampleStart.self.sampleLoop ratExternal (fun n => n)
        exampleStart.self.observationVec.length (0.2 : ℚ) 10 10000 0 exampleStart.pos =
        Run.done ⟨0, 1, 2, 3⟩ := exampleOdometry_first_sample
    simp only [hs, Run.bind]
    have hc := exampleOdometry_first_count
    simp only [Run.done.injEq]
    show Hypothesis.mk _ _ _ _ _ = _
    congr 1
    · exact congrArg Prod.fst hc
    · exact congrArg Prod.snd hc
  have h1 : Odometry.Ransac.loop ratExternal (fun n => n) 10 exampleOdometry.TorigBase 4
      (0 + 1) exampleStart =
      Run.done (Odometry.Ransac.keepBest exampleStart
        ⟨exampleOdometry.TorigBase, [true, true, true, false], [], 3, 3⟩) := by
    show (Odometry.Ransac.iteration ratExternal (fun n => n) 10 exampleOdometry.TorigBase 4
      exampleStart).bind _ = _
    rw [Odometry.Ransac.iteration, hhyp]
    rfl
  exact ⟨_, rfl, h1, by decide,
    (ransac_best_count_nondecreasing ratExternal (fun n => n) 10 exampleOdometry.TorigBase
      4).2.1 0 1 exampleStart _ _ rfl h1⟩

/-! ## The span test -/

theorem checkSpan_three {R : Type} [LinearOrderedField R] (ext : External R) (self : Odometry R)
    (p1 p2 p3 : Vector3d R) (angleTh : R) :
    self.checkSpan ext [p1, p2, p3] angleTh =
      Run.done
        (Odometry.checkSpan.apart
          (Odometry.checkSpan.theta ext
            (ext.inverseTransform (ext.compose self.TorigBase self.TbaseCam) p1)
            (ext.inverseTransform (ext.compose self.TorigBase self.TbaseCam) p2))
          (Odometry.checkSpan.theta ext
            (ext.inverseTransform (ext.compose self.TorigBase self.TbaseCam) p1)
            (ext.inverseTransform (ext.compose self.TorigBase self.TbaseCam) p3)) angleTh &&
        (Odometry.checkSpan.apart
          (Odometry.checkSpan.theta ext
            (ext.inverseTransform (ext.compose self.TorigBase self.TbaseCam) p1)
            (ext.inverseTransform (ext.compose self.TorigBase self.TbaseCam) p2))
          (Odometry.checkSpan.theta ext
            (ext.inverseTransform (ext.compose self.TorigBase self.TbaseCam) p2)
            (ext.inverseTransform (ext.compose self.TorigBase self.TbaseCam) p3)) angleTh &&
        Odometry.checkSpan.apart
          (Odometry.checkSpan.theta ext
            (ext.inverseTransform (ext.compose self.TorigBase self.TbaseCam) p1)
            (ext.inverseTransform (ext.compose self.TorigBase self.TbaseCam) p3))
          (Odometry.checkSpan.theta ext
            (ext.inverseTransform (ext.compose self.TorigBase self.TbaseCam) p2)
            (ext.inverseTransform (ext.compose self.TorigBase self.TbaseCam) p3)) angleTh)) := by
  simp [Odometry.checkSpan]

theorem apart_some {R : Type} [LinearOrderedField R] (a b angleTh : R) :
    Odometry.checkSpan.apart (some a) (some b) angleTh = decide (angleTh ≤ abs (a - b)) := rfl

/-- Two equal angles are not apart by a positive threshold, numbers or not. -/
theorem apart_self {R : Type} [LinearOrderedField R] (x : Option R) (angleTh : R)
    (hth : 0 < angleTh) : Odometry.checkSpan.apart x x angleTh = false := by
  cases x with
  | none => rfl
  | some a =>
    rw [apart_some, sub_self, abs_zero]
    exact decide_eq_false (not_le.mpr hth)

theorem theta_smul_left (ext : External ℝ) (hsqrt : ext.sqrt = Real.sqrt) (p q : Vector3d ℝ)
    (c : ℝ) (hc : 0 < c) :
    Odometry.checkSpan.theta ext (Vector3d.smul c p) q = Odometry.checkSpan.theta ext p q := by
  unfold Odometry.checkSpan.theta Vector3d.norm
  rw [hsqrt]
  have hdot : (Vector3d.smul c p).dot q = c * p.dot q := by
    simp only [Vector3d.smul, Vector3d.dot]
    ring
  have hnorm : Real.sqrt ((Vector3d.smul c p).dot (Vector3d.smul c p)) =
      c * Real.sqrt (p.dot p) := by
    have h : (Vector3d.smul c p).dot (Vector3d.smul c p) = c * c * p.dot p := by
      simp only [Vector3d.smul, Vector3d.dot]
      ring
    rw [h, Real.sqrt_mul (mul_self_nonneg c), Real.sqrt_mul_self (le_of_lt hc)]
  have hzero : c * (Real.sqrt (p.dot p) * Real.sqrt (q.dot q)) = 0 ↔
      Real.sqrt (p.dot p) * Real.sqrt (q.dot q) = 0 := by
    rw [mul_eq_zero]
    constructor
    · rintro (h | h)
      · exact absurd h (ne_of_gt hc)
      · exact h
    · exact Or.inr
  rw [hdot, hnorm, mul_assoc]
  simp only [hzero, mul_div_mul_left _ _ (ne_of_gt hc)]

/-- When the first two points lie on one ray from the camera centre, the
angles `theta2` and `theta3` coincide and the span test fails, wherever the
third point is. -/
theorem checkSpan_first_two_on_ray (ext : External ℝ) (hsqrt : ext.sqrt = Real.sqrt)
    (self : Odometry ℝ)
    (hcam : ∀ p, ext.inverseTransform (ext.compose self.TorigBase self.TbaseCam) p = p)
    (p q : Vector3d ℝ) (c : ℝ) (hc : 0 < c) (angleTh : ℝ) (hth : 0 < angleTh) :
    self.checkSpan ext [p, Vector3d.smul c p, q] angleTh = Run.done false := by
  rw [checkSpan_three]
  simp only [hcam, theta_smul_left ext hsqrt p q c hc, apart_self _ _ hth, Bool.and_false]

theorem realExternal_origin (cloud : List (Vector3d ℝ)) (p : Vector3d ℝ) :
    realExternal.inverseTransform
      (realExternal.compose (originOdometry cloud).TorigBase (originOdometry cloud).TbaseCam) p
      = p := by
  simp [realExternal, translationExternal, originOdometry, Vector3d.sub, Vector3d.add]

theorem spanCloud_reject_012 :
    (originOdometry spanCloud).checkSpan realExternal
      [(originOdometry spanCloud).cloud.getD 0 default,
        (originOdometry spanCloud).cloud.getD 1 default,
        (originOdometry spanCloud).cloud.getD 2 default] 0.2 = Run.done false := by
  have h := checkSpan_first_two_on_ray realExternal rfl (originOdometry spanCloud)
    (realExternal_origin spanCloud) ⟨1, 0, 0⟩ ⟨0, 1, 0⟩ 2 (by norm_num) 0.2 (by norm_num)
  have e : Vector3d.smul (2 : ℝ) ⟨1, 0, 0⟩ = ⟨2, 0, 0⟩ := by
    simp [Vector3d.smul]
  rw [e] at h
  exact h

theorem arccos_inv_sqrt_two : Real.arccos (Real.sqrt 2)⁻¹ = Real.pi / 4 := by
  have h : (Real.sqrt 2)⁻¹ = Real.cos (Real.pi / 4) := by
    have h2 : Real.sqrt 2 * Real.sqrt 2 = 2 := Real.mul_self_sqrt (by norm_num)
    have h0 : Real.sqrt 2 ≠ 0 := by
      intro h0
      rw [h0] at h2
      norm_num at h2
    rw [Real.cos_pi_div_four, eq_div_iff (by norm_num), inv_mul_eq_div, div_eq_iff h0]
    exact h2.symm
  rw [h, Real.arccos_cos (by positivity) (by linarith [Real.pi_pos])]

theorem theta_of_quotient (a b : Vector3d ℝ) (r : ℝ)
    (hden : Real.sqrt (a.dot a) * Real.sqrt (b.dot b) ≠ 0)
    (hr : a.dot b / (Real.sqrt (a.dot a) * Real.sqrt (b.dot b)) = r) (h1 : -1 ≤ r) (h2 : r ≤ 1) :
    Odometry.checkSpan.theta realExternal a b = some (Real.arccos r) := by
  unfold Odometry.checkSpan.theta Vector3d.norm
  simp only [realExternal, translationExternal]
  rw [if_neg hden, hr, if_neg (by
    rintro (h | h)
    · exact absurd h1 (not_le.mpr h)
    · exact absurd h2 (not_le.mpr h))]

theorem sqrt_two_facts : Real.sqrt 2 * Real.sqrt 2 = 2 ∧ 1 < Real.sqrt 2 ∧ Real.sqrt 2 ≠ 0 := by
  have h2 : Real.sqrt 2 * Real.sqrt 2 = 2 := Real.mul_self_sqrt (by norm_num)
  have h1 : 1 < Real.sqrt 2 := by
    rw [Real.lt_sqrt (by norm_num)]
    norm_num
  exact ⟨h2, h1, by linarith⟩

theorem spanCloud_accept_345 :
    (originOdometry spanCloud).checkSpan realExternal
      [(originOdometry spanCloud).cloud.getD 3 default,
        (originOdometry spanCloud).cloud.getD 4 default,
        (originOdometry spanCloud).cloud.getD 5 default] 0.2 = Run.done true := by
  obtain ⟨hs2, hs1, hs0⟩ := sqrt_two_facts
  have d1 : (⟨1, 0, 0⟩ : Vector3d ℝ).dot ⟨1, 0, 0⟩ = 1 := by norm_num [Vector3d.dot]
  have d2 : (⟨1, 1, 0⟩ : Vector3d ℝ).dot ⟨1, 1, 0⟩ = 2 := by norm_num [Vector3d.dot]
  have d3 : (⟨-1, 1, 0⟩ : Vector3d ℝ).dot ⟨-1, 1, 0⟩ = 2 := by norm_num [Vector3d.dot]
  have d12 : (⟨1, 0, 0⟩ : Vector3d ℝ).dot ⟨1, 1, 0⟩ = 1 := by norm_num [Vector3d.dot]
  have d13 : (⟨1, 0, 0⟩ : Vector3d ℝ).dot ⟨-1, 1, 0⟩ = -1 := by norm_num [Vector3d.dot]
  have d23 : (⟨1, 1, 0⟩ : Vector3d ℝ).dot ⟨-1, 1, 0⟩ = 0 := by norm_num [Vector3d.dot]
  have hinv : (Real.sqrt 2)⁻¹ ≤ 1 := inv_le_one_of_one_le₀ (le_of_lt hs1)
  have hinv0 : 0 < (Real.sqrt 2)⁻¹ := inv_pos.mpr (by linarith)
  have h1 : Odometry.checkSpan.theta realExternal ⟨1, 0, 0⟩ ⟨1, 1, 0⟩ = some (Real.pi / 4) := by
    rw [theta_of_quotient ⟨1, 0, 0⟩ ⟨1, 1, 0⟩ (Real.sqrt 2)⁻¹
      (by rw [d1, d2, Real.sqrt_one, one_mul]; exact hs0)
      (by rw [d1, d2, d12, Real.sqrt_one, one_mul, one_div]) (by linarith) hinv,
      arccos_inv_sqrt_two]
  have h2 : Odometry.checkSpan.theta realExternal ⟨1, 0, 0⟩ ⟨-1, 1, 0⟩ =
      some (Real.pi - Real.pi / 4) := by
    rw [theta_of_quotient ⟨1, 0, 0⟩ ⟨-1, 1, 0⟩ (-(Real.sqrt 2)⁻¹)
      (by rw [d1, d3, Real.sqrt_one, one_mul]; exact hs0)
      (by rw [d1, d3, d13, Real.sqrt_one, one_mul, neg_div, one_div]) (by linarith)
      (by linarith),
      Real.arccos_neg, arccos_inv_sqrt_two]
  have h3 : Odometry.checkSpan.theta realExternal ⟨1, 1, 0⟩ ⟨-1, 1, 0⟩ = some (Real.pi / 2) := by
    rw [theta_of_quotient ⟨1, 1, 0⟩ ⟨-1, 1, 0⟩ 0
      (by rw [d2, d3, hs2]; norm_num)
      (by rw [d23, zero_div]) (by norm_num) (by norm_num),
      Real.arccos_zero]
  have e3 : (originOdometry spanCloud).cloud.getD 3 default = (⟨1, 0, 0⟩ : Vector3d ℝ) := rfl
  have e4 : (originOdometry spanCloud).cloud.getD 4 default = (⟨1, 1, 0⟩ : Vector3d ℝ) := rfl
  have e5 : (originOdometry spanCloud).cloud.getD 5 default = (⟨-1, 1, 0⟩ : Vector3d ℝ) := rfl
  rw [e3, e4, e5, checkSpan_three]
  simp only [realExternal_origin, h1, h2, h3, apart_some]
  have hpi := Real.pi_gt_three
  have a1 : (0.2 : ℝ) ≤ abs (Real.pi / 4 - (Real.pi - Real.pi / 4)) := by
    rw [abs_sub_comm, abs_of_nonneg (by linarith)]
    linarith
  have a2 : (0.2 : ℝ) ≤ abs (Real.pi / 4 - Real.pi / 2) := by
    rw [abs_sub_comm, abs_of_nonneg (by linarith)]
    linarith
  have a3 : (0.2 : ℝ) ≤ abs (Real.pi - Real.pi / 4 - Real.pi / 2) := by
    rw [abs_of_nonneg (by linarith)]
    linarith
  simp [a1, a2, a3]

/-! ## C6: what the span test computes -/

/-- C7, the claim fails. Camera at the origin, `angleTh = 0.1`; the points
(1,0,0), (2,0,0), (3,0,0) lie on one ray; after rotating the third by 0.3 rad
about the z axis `checkSpan` returns false, not true. -/
theorem checkSpan_rotated_third_counterexample :
    (originOdometry spanCloud).checkSpan realExternal
      [⟨1, 0, 0⟩, ⟨2, 0, 0⟩, rotateZ (Real.cos 0.3) (Real.sin 0.3) ⟨3, 0, 0⟩] 0.1 =
      Run.done false := by
  have h := checkSpan_first_two_on_ray realExternal rfl (originOdometry spanCloud)
    (realExternal_origin spanCloud) ⟨1, 0, 0⟩
    (rotateZ (Real.cos 0.3) (Real.sin 0.3) ⟨3, 0, 0⟩) 2 (by norm_num) 0.1 (by norm_num)
  have e : Vector3d.smul (2 : ℝ) ⟨1, 0, 0⟩ = ⟨2, 0, 0⟩ := by
    simp [Vector3d.smul]
  rw [e] at h
  exact h

/-- C7 as amended. With the camera frame at the origin and a positive
`angleTh` (0.1 in particular), `checkSpan` returns false for three points on a
common ray from the origin, and it still returns false wherever the third
point is moved while the first two stay on the ray, in particular after
rotating it by 0.3 rad: the angles `theta13` and `theta23` are then equal, so
their difference is below `angleTh`. -/
theorem checkSpan_common_ray_false (ext : External ℝ) (hsqrt : ext.sqrt = Real.sqrt)
    (self : Odometry ℝ)
    (hcam : ∀ p, ext.inverseTransform (ext.compose self.TorigBase self.TbaseCam) p = p)
    (p : Vector3d ℝ) (c2 c3 : ℝ) (hc2 : 0 < c2) (angleTh : ℝ) (hth : 0 < angleTh) :
    self.checkSpan ext [p, Vector3d.smul c2 p, Vector3d.smul c3 p] angleTh = Run.done false ∧
      (∀ q : Vector3d ℝ,
        self.checkSpan ext [p, Vector3d.smul c2 p, q] angleTh = Run.done false) ∧
      self.checkSpan ext [p, Vector3d.smul c2 p,
        rotateZ (Real.cos 0.3) (Real.sin 0.3) (Vector3d.smul c3 p)] angleTh = Run.done false :=
  ⟨checkSpan_first_two_on_ray ext hsqrt self hcam p _ c2 hc2 angleTh hth,
    fun q => checkSpan_first_two_on_ray ext hsqrt self hcam p q c2 hc2 angleTh hth,
    checkSpan_first_two_on_ray ext hsqrt self hcam p _ c2 hc2 angleTh hth⟩

/-- Witness of the amended C7: the ray through (1,0,0), second point at
distance 2, third at distance 3, `angleTh = 0.1`. -/
theorem checkSpan_common_ray_false_witness :
    realExternal.sqrt = Real.sqrt ∧
      (∀ p, realExternal.inverseTransform
        (realExternal.compose (originOdometry spanCloud).TorigBase
          (originOdometry spanCloud).TbaseCam) p = p) ∧
      (0 : ℝ) < 2 ∧ (0 : ℝ) < 0.1 ∧
      (originOdometry spanCloud).checkSpan realExternal
        [⟨1, 0, 0⟩, Vector3d.smul 2 ⟨1, 0, 0⟩, Vector3d.smul 3 ⟨1, 0, 0⟩] 0.1 =
        Run.done false :=
  ⟨rfl, realExternal_origin spanCloud, by norm_num, by norm_num,
    (checkSpan_common_ray_false realExternal rfl (originOdometry spanCloud)
      (realExternal_origin spanCloud) ⟨1, 0, 0⟩ 2 3 (by norm_num) 0.1 (by norm_num)).1⟩

/-! ## C8: the abort of the sampling loop -/

theorem spanRand_rejected (c : Nat) (hc : c < 9999) :
    spanRand (3 * c) % 6 = 0 ∧ spanRand (3 * c + 1) % 6 = 1 ∧ spanRand (3 * c + 2) % 6 = 2 := by
  unfold spanRand
  rw [if_pos (by omega), if_pos (by omega), if_pos (by omega)]
  omega

theorem spanRand_last :
    spanRand 29997 % 6 = 3 ∧ spanRand 29998 % 6 = 4 ∧ spanRand 29999 % 6 = 5 := by
  refine ⟨?_, ?_, ?_⟩ <;> simp [spanRand]

theorem checkSpan_congr {R : Type} [LinearOrderedField R] (ext : External R)
    (self other : Odometry R) (hT : self.TorigBase = other.TorigBase)
    (hB : self.TbaseCam = other.TbaseCam) (ransacHP : List (Vector3d R)) (angleTh : R) :
    self.checkSpan ext ransacHP angleTh = other.checkSpan ext ransacHP angleTh := by
  unfold Odometry.checkSpan
  rw [hT, hB]

/-- The sampling loop reads only the pose, the rig extrinsic and the cloud of
the object. -/
theorem sampleLoop_congr {R : Type} [LinearOrderedField R] (ext : External R)
    (self other : Odometry R) (hT : self.TorigBase = other.TorigBase)
    (hB : self.TbaseCam = other.TbaseCam) (hC : self.cloud = other.cloud)
    (rand : Nat → Nat) (maxIdx : Nat) (angleTh : R) (fuel passes counter pos : Nat) :
    self.sampleLoop ext rand maxIdx angleTh fuel passes counter pos =
      other.sampleLoop ext rand maxIdx angleTh fuel passes counter pos := by
  induction passes generalizing counter pos with
  | zero => rfl
  | succ passes ih =>
    rw [Odometry.sampleLoop, Odometry.sampleLoop]
    simp only [hC, checkSpan_congr ext self other hT hB, ih]

/-- When the sampling loop of the first iteration calls `exit(1)`, so does
`Ransac`. -/
theorem Ransac_exit_of_sampleLoop_exit {R : Type} [LinearOrderedField R] (ext : External R)
    (rand : Nat → Nat) (fuel : Nat) (self : Odometry R) (pos : Nat)
    (hlen : self.observationVec.length = self.cloud.length)
    (h : self.sampleLoop ext rand self.observationVec.length (0.2 : R) fuel 10000 0 pos =
      Run.exit1) :
    Odometry.Ransac ext rand fuel self pos = Run.exit1 := by
  unfold Odometry.Ransac
  rw [if_neg (by simpa using hlen)]
  show Odometry.Ransac.loop ext rand fuel _ _ (299 + 1) _ = _
  rw [Odometry.Ransac.loop, Odometry.Ransac.iteration, Odometry.Ransac.hypothesis]
  simp only
  rw [sampleLoop_congr ext
    { self with inlierMask := resize self.inlierMask self.observationVec.length false } self
    rfl rfl rfl, h]
  rfl

theorem spanRand_loop_exit (fuel passes counter : Nat) (hp : 1 ≤ passes)
    (hsum : counter + passes = 10000) :
    (originOdometry spanCloud).sampleLoop realExternal spanRand 6 0.2 (fuel + 1) passes counter
      (3 * counter) = Run.exit1 := by
  induction passes generalizing counter with
  | zero => omega
  | succ passes ih =>
    by_cases hc : counter + 1 = 10000
    · have hcv : counter = 9999 := by omega
      subst hcv
      obtain ⟨r0, r1, r2⟩ := spanRand_last
      have e : 3 * 9999 = 29997 := by norm_num
      rw [e]
      have d2 : drawIndex spanRand 6 [spanRand 29997 % 6] (fuel + 1) (29997 + 1) =
          Run.done (4, 29999) := by
        rw [drawIndex_first fuel _ (by decide) (by rw [r0, r1]; decide), r1]
      have d3 : drawIndex spanRand 6 [spanRand 29997 % 6, 4] (fuel + 1) 29999 =
          Run.done (5, 30000) := by
        rw [drawIndex_first fuel _ (by decide) (by rw [r0, r2]; decide), r2]
      exact sampleLoop_pass_exit realExternal _ spanRand 6 0.2 (fuel + 1) passes 9999
        29997 4 29999 5 30000 (by decide) d2 d3 rfl
    · have hlt : counter < 9999 := by omega
      obtain ⟨r0, r1, r2⟩ := spanRand_rejected counter hlt
      have d2 : drawIndex spanRand 6 [spanRand (3 * counter) % 6] (fuel + 1) (3 * counter + 1) =
          Run.done (1, 3 * counter + 2) := by
        rw [drawIndex_first fuel _ (by decide) (by rw [r0, r1]; decide), r1]
      have d3 : drawIndex spanRand 6 [spanRand (3 * counter) % 6, 1] (fuel + 1)
          (3 * counter + 2) = Run.done (2, 3 * counter + 3) := by
        rw [drawIndex_first fuel _ (by decide) (by rw [r0, r2]; decide), r2]
      have hs : (originOdometry spanCloud).checkSpan realExternal
          [(originOdometry spanCloud).cloud.getD (spanRand (3 * counter) % 6) default,
            (originOdometry spanCloud).cloud.getD 1 default,
            (originOdometry spanCloud).cloud.getD 2 default] 0.2 = Run.done false := by
        rw [r0]
        exact spanCloud_reject_012
      rw [sampleLoop_pass_reject realExternal _ spanRand 6 0.2 (fuel + 1) passes counter
        (3 * counter) 1 (3 * counter + 2) 2 (3 * counter + 3) (by decide) d2 d3 hc hs]
      have e : 3 * counter + 3 = 3 * (counter + 1) := by ring
      rw [e]
      exact ih (counter + 1) (by omega) (by omega)

/-- C8, evaluation at the failing input. The first 9999 samples of `spanRand`
(landmarks 0, 1, 2 of `spanCloud`) fail the span test; the 10000th sample is
the landmarks 3, 4, 5, which pass `checkSpan` with `angleTh = 0.2`; the sampling
loop, and with it `Ransac`, nevertheless ends in `exit(1)`: the counter
reaches 10000 before the 10000th sample is tested. -/
theorem sampleLoop_exits_before_testing_sample_10000 :
    (originOdometry spanCloud).sampleLoop realExternal spanRand 6 0.2 1 10000 0 0 = Run.exit1 ∧
      Odometry.Ransac realExternal spanRand 1 (originOdometry spanCloud) 0 = Run.exit1 ∧
      (spanRand 29997 % 6 = 3 ∧ spanRand 29998 % 6 = 4 ∧ spanRand 29999 % 6 = 5) ∧
      (originOdometry spanCloud).checkSpan realExternal
        [(originOdometry spanCloud).cloud.getD 3 default,
          (originOdometry spanCloud).cloud.getD 4 default,
          (originOdometry spanCloud).cloud.getD 5 default] 0.2 = Run.done true := by
  have hloop : (originOdometry spanCloud).sampleLoop realExternal spanRand 6 0.2 1 10000 0 0 =
      Run.exit1 := spanRand_loop_exit 0 10000 0 (by norm_num) (by norm_num)
  refine ⟨hloop, ?_, spanRand_last, spanCloud_accept_345⟩
  exact Ransac_exit_of_sampleLoop_exit realExternal spanRand 1 (originOdometry spanCloud) 0 rfl
    hloop

/-! ## C5: the calibration grid -/

theorem resize_length {α : Type} (v : List α) (n : Nat) (fill : α) :
    (resize v n fill).length = n := by
  unfold resize
  simp only [List.length_append, List.length_take, List.length_replicate]
  omega

theorem foldl_set_range {α : Type} (f : Nat → α) (n : Nat) (g : List α) (hn : n ≤ g.length) :
    ((List.range n).foldl (fun (g : List α) (i : Nat) => g.set i (f i)) g).length = g.length ∧
      ∀ i, i < n →
        ((List.range n).foldl (fun (g : List α) (i : Nat) => g.set i (f i)) g)[i]? =
          some (f i) := by
  induction n with
  | zero => simp
  | succ n ih =>
    obtain ⟨hlen, hget⟩ := ih (by omega)
    rw [List.range_succ, List.foldl_append]
    simp only [List.foldl_cons, List.foldl_nil, List.length_set]
    refine ⟨hlen, ?_⟩
    intro i hi
    by_cases hin : i = n
    · subst hin
      rw [List.getElem?_set_self (by omega)]
    · rw [List.getElem?_set_ne (by omega)]
      exact hget i (by omega)

/-- C5. For positive `Nx` and `Ny` whose product fits an `int`, and any `sqSize`
in any scalar type, `constructGrid` leaves a grid of exactly `Nx * Ny` points,
and the point of index `i < Nx * Ny` is
`(sqSize * (i mod Nx), sqSize * (i div Nx), 0)`. -/
theorem constructGrid_points {R : Type} [Mul R] [NatCast R] [Zero R]
    (self : GenericCameraCalibration R) (hNx : 0 < self.Nx) (hNy : 0 < self.Ny)
    (hrep : self.Nx * self.Ny < 2 ^ 31) :
    self.constructGrid.grid.length = (self.Nx * self.Ny).toNat ∧
      ∀ i : Nat, i < (self.Nx * self.Ny).toNat →
        self.constructGrid.grid[i]? =
          some ⟨self.sqSize * ((i % self.Nx.toNat : Nat) : R),
            self.sqSize * ((i / self.Nx.toNat : Nat) : R), 0⟩ := by
  have hpos : 0 < self.Nx * self.Ny := Int.mul_pos hNx hNy
  have hNxle : self.Nx ≤ self.Nx * self.Ny := by
    have h1 : self.Nx * 1 ≤ self.Nx * self.Ny :=
      Int.mul_le_mul_of_nonneg_left (by omega) (le_of_lt hNx)
    simpa using h1
  have hn : toInt32 (self.Nx * self.Ny) = self.Nx * self.Ny :=
    toInt32_of_range _ (by omega) hrep
  have hsize : toSizeT (self.Nx * self.Ny) = (self.Nx * self.Ny).toNat := by
    unfold toSizeT
    rw [Int.emod_eq_of_lt (le_of_lt hpos) (by omega)]
  have hbound : toUInt32 (self.Nx * self.Ny) = (self.Nx * self.Ny).toNat := by
    unfold toUInt32
    rw [Int.emod_eq_of_lt (le_of_lt hpos) (by omega)]
  have hux : toUInt32 self.Nx = self.Nx.toNat := by
    unfold toUInt32
    rw [Int.emod_eq_of_lt (le_of_lt hNx) (by omega)]
  unfold GenericCameraCalibration.constructGrid
  simp only [hn, hsize, hbound, hux]
  have h := foldl_set_range
    (fun i : Nat => (⟨self.sqSize * ((i % self.Nx.toNat : Nat) : R),
      self.sqSize * ((i / self.Nx.toNat : Nat) : R), 0⟩ : Vector3d R))
    (self.Nx * self.Ny).toNat (resize self.grid (self.Nx * self.Ny).toNat default)
    (by rw [resize_length])
  rw [resize_length] at h
  exact h

/-- Witness of C5: a board of 3 by 2 corners. -/
theorem constructGrid_points_witness :
    0 < exampleCalibration.Nx ∧ 0 < exampleCalibration.Ny ∧
      exampleCalibration.Nx * exampleCalibration.Ny < 2 ^ 31 ∧
      exampleCalibration.constructGrid.grid.length =
        (exampleCalibration.Nx * exampleCalibration.Ny).toNat :=
  ⟨by decide, by decide, by decide,
    (constructGrid_points exampleCalibration (by decide) (by decide) (by decide)).1⟩

/-! ## C9: the depth test of the candidate selection -/

/-- C9, evaluation at the failing input. `estimateOdometry` accepts a landmark
iff its depth in the left camera frame of the current pose exceeds 0.5 and it
was last seen at the latest pose; `estimateOdometry_2` does the same in the
predicted frame; `estimateOdometry_3` tests the depth against 0 instead of
0.5. On `nearLandmarkMap`, whose only landmark has depth 0.3 and was last
seen at the latest pose, the first two strategies select nothing and the
third selects the landmark. -/
theorem estimateOdometry_3_accepts_depth_below_half :
    (∀ {R : Type} [LinearOrderedField R] (ext : External R) (self : StereoCartography R)
        (lm : LandMark R),
      ((estimateOdometry.accept ext self lm).isSome = true ↔
        seenAtLastPose lm self.trajectory.length = true ∧
          (leftCameraPoint ext self (self.trajectory.getLastD default) lm.X).z > 0.5) ∧
      ((estimateOdometry_2.accept ext self lm).isSome = true ↔
        seenAtLastPose lm self.trajectory.length = true ∧
          (leftCameraPoint ext self (estimateOdometry_2.Th ext self) lm.X).z > 0.5) ∧
      ((estimateOdometry_3.accept ext self lm).isSome = true ↔
        seenAtLastPose lm self.trajectory.length = true ∧
          (leftCameraPoint ext self (self.trajectory.getLastD default) lm.X).z > 0)) ∧
    (∀ lm ∈ nearLandmarkMap.WM,
      seenAtLastPose lm nearLandmarkMap.trajectory.length = true ∧
      (leftCameraPoint ratExternal nearLandmarkMap
        (nearLandmarkMap.trajectory.getLastD default) lm.X).z = 3 / 10) ∧
    (estimateOdometry.candidates ratExternal nearLandmarkMap).2.indexVec = [] ∧
    (estimateOdometry_2.candidates ratExternal nearLandmarkMap).2.indexVec = [] ∧
    (estimateOdometry_3.candidates ratExternal nearLandmarkMap).2.indexVec = [0] := by
  have hseen : seenAtLastPose
      ({ X := ⟨0, 0, 3 / 10⟩, d := [7], observations := [⟨⟨500, 500⟩, 0, CameraID.LEFT⟩] } :
        LandMark ℚ) 1 = true := by decide
  refine ⟨?_, ?_, ?_, ?_, ?_⟩
  · intro R _ ext self lm
    refine ⟨?_, ?_, ?_⟩
    · unfold estimateOdometry.accept
      by_cases h : (leftCameraPoint ext self (self.trajectory.getLastD default) lm.X).z > 0.5 ∧
          seenAtLastPose lm self.trajectory.length = true
      · simp only [h, and_self, if_true, Option.isSome_some]
      · simp only [h, if_false, Option.isSome_none, Bool.false_eq_true, false_iff]
        exact fun hh => h ⟨hh.2, hh.1⟩
    · unfold estimateOdometry_2.accept
      by_cases h1 : seenAtLastPose lm self.trajectory.length = true
      · by_cases h2 : (leftCameraPoint ext self (estimateOdometry_2.Th ext self) lm.X).z > 0.5
        · simp only [h1, h2, if_true, Option.isSome_some, and_self]
        · simp only [h1, h2, if_true, if_false, Option.isSome_none, Bool.false_eq_true,
            and_false]
      · simp only [h1, if_false, Option.isSome_none, Bool.false_eq_true, false_and]
    · unfold estimateOdometry_3.accept
      by_cases h : (leftCameraPoint ext self (self.trajectory.getLastD default) lm.X).z > 0 ∧
          seenAtLastPose lm self.trajectory.length = true
      · simp only [h, and_self, if_true, Option.isSome_some]
      · simp only [h, if_false, Option.isSome_none, Bool.false_eq_true, false_iff]
        exact fun hh => h ⟨hh.2, hh.1⟩
  · intro lm hlm
    simp only [nearLandmarkMap, List.mem_singleton] at hlm
    subst hlm
    refine ⟨hseen, ?_⟩
    norm_num [leftCameraPoint, ratExternal, translationExternal, nearLandmarkMap, Vector3d.sub]
  · norm_num [estimateOdometry.candidates, scanPool, estimateOdometry.accept, leftCameraPoint,
      ratExternal, translationExternal, nearLandmarkMap, Vector3d.sub]
  · have hd : (default : Transformation ℚ) = ⟨⟨0, 0, 0⟩, ⟨0, 0, 0⟩⟩ := rfl
    norm_num [estimateOdometry_2.candidates, scanPool, estimateOdometry_2.accept,
      estimateOdometry_2.Th, leftCameraPoint, ratExternal, translationExternal, nearLandmarkMap,
      Vector3d.sub, Vector3d.add, hd, hseen]
  · norm_num [estimateOdometry_3.candidates, scanPool, estimateOdometry_3.accept,
      leftCameraPoint, ratExternal, translationExternal, nearLandmarkMap, Vector3d.sub, hseen]

/-! ## C10: the result of the calibration initialization -/

/-- C10, the claim fails. The info file opens, its header is well formed, and
the accepted view set is empty, once because no image is listed and once
because the chessboard is found in none of the two listed images; both times
`initializeIntrinsic` returns true with an empty `calibDataVec`. -/
theorem initializeIntrinsic_empty_views_counterexample :
    ((freshCalibration.initializeIntrinsic detectNothing filesNoImage "calibInfo.txt" []).1 = true ∧
      (freshCalibration.initializeIntrinsic detectNothing filesNoImage "calibInfo.txt" []).2.2 =
        []) ∧
    ((freshCalibration.initializeIntrinsic detectNothing filesTwoImages "calibInfo.txt" []).1 =
        true ∧
      (freshCalibration.initializeIntrinsic detectNothing filesTwoImages "calibInfo.txt" []).2.2 =
        []) := by
  decide

/-- C10 as amended. `initializeIntrinsic` reports failure exactly when the info
file cannot be opened, and then leaves the object and `calibDataVec` as they
were; whenever the file opens it reports success, whatever the accepted view
set is, the empty set included. -/
theorem initializeIntrinsic_fails_iff_not_opened {R : Type} [Field R]
    (self : GenericCameraCalibration R) (cv : BoardDetector R) (files : String → Option String)
    (infoFileName : String) (calibDataVec : List (CalibrationData R)) :
    ((self.initializeIntrinsic cv files infoFileName calibDataVec).1 = false ↔
        files infoFileName = none) ∧
      ((self.initializeIntrinsic cv files infoFileName calibDataVec).1 = true ↔
        ∃ content, files infoFileName = some content) ∧
      (files infoFileName = none →
        (self.initializeIntrinsic cv files infoFileName calibDataVec).2.2 = calibDataVec) := by
  unfold GenericCameraCalibration.initializeIntrinsic
  cases h : files infoFileName with
  | none => simp
  | some content => simp

/-- Witness of the amended C10: a file that does not exist. -/
theorem initializeIntrinsic_fails_iff_not_opened_witness :
    filesNoImage "missing.txt" = none ∧
      (freshCalibration.initializeIntrinsic detectNothing filesNoImage "missing.txt" []).1 =
        false :=
  ⟨by decide,
    (initializeIntrinsic_fails_iff_not_opened freshCalibration detectNothing filesNoImage
      "missing.txt" []).1.mpr (by decide)⟩

/-! ## C15: landmarks seen from fixed poses only -/

theorem residualsFor_of_mem {R : Type} [Zero R] (self : StereoCartography R) (rule : Int → Bool)
    (wm : List (LandMark R)) (i : Nat) (lm : LandMark R) (ob : Observation R)
    (hlm : wm[i]? = some lm) (hob : ob ∈ lm.observations) :
    residualFor self (rule ob.poseIdx) (0 + i) ob ∈ residualsFor self rule 0 wm :=
  (mem_residualsFor self rule wm 0 _).mpr ⟨i, lm, ob, hlm, hob, rfl⟩

theorem residualsFor_landmark_params {R : Type} [Zero R] (self : StereoCartography R)
    (rule : Int → Bool) (wm : List (LandMark R)) (i : Nat) (lm : LandMark R)
    (hlm : wm[i]? = some lm) (hfixed : ∀ ob ∈ lm.observations, rule ob.poseIdx = true)
    (rb : ResidualBlock R) (hrb : rb ∈ residualsFor self rule 0 wm)
    (hX : ParamBlock.landmarkX i ∈ rb.params) :
    rb.isFixed = true ∧ rb.params = [ParamBlock.landmarkX i] := by
  obtain ⟨j, lm2, ob, hj, hob, rfl⟩ := (mem_residualsFor self rule wm 0 rb).mp hrb
  have hji : 0 + j = i := by
    cases hr : rule ob.poseIdx <;> simp [residualFor, hr] at hX <;> omega
  have hj2 : j = i := by omega
  subst hj2
  rw [hlm] at hj
  have hlm2 : lm = lm2 := by simpa using hj
  subst hlm2
  have hr := hfixed ob hob
  simp [residualFor, ResidualBlock.isFixed, hr]

/-- C15, the claim fails. In `exampleMap` both observations of landmark 0 are at
pose 0, a fixed pose in the windowed and in the full bundle adjustment, and
both problems contain a residual block that registers the position `X` of
landmark 0. -/
theorem fixedOnly_landmark_registered_counterexample :
    (∀ ob ∈ (exampleMap.WM.getD 0 ⟨default, [], []⟩).observations,
      ob.poseIdx = 0 ∧
        ob.poseIdx ≤ improveTheMap.lastFixedPos false exampleMap.trajectory.length) ∧
    (∃ prob, improveTheMap.problem exampleMap false = some prob ∧
      ∃ rb ∈ prob, rb.isFixed = true ∧ rb.params = [ParamBlock.landmarkX 0]) ∧
    (∃ rb ∈ improveTheMap_2.problem exampleMap,
      rb.isFixed = true ∧ rb.params = [ParamBlock.landmarkX 0]) := by
  have hlm : exampleMap.WM[0]? = some
      ({ X := ⟨0, 0, 2⟩, d := [],
         observations := [⟨⟨0, 0⟩, 0, CameraID.LEFT⟩, ⟨⟨1, 1⟩, 0, CameraID.RIGHT⟩] } :
        LandMark ℚ) := by
    simp [exampleMap, List.range, List.range.loop]
  refine ⟨?_, ?_, ?_⟩
  · intro ob hob
    have h0 : ob.poseIdx = 0 := by
      simp [exampleMap, List.range, List.range.loop] at hob
      rcases hob with rfl | rfl <;> rfl
    rw [h0]
    exact ⟨rfl, by decide⟩
  · refine ⟨_, rfl, residualFor exampleMap true 0 ⟨⟨0, 0⟩, 0, CameraID.LEFT⟩, ?_, rfl, rfl⟩
    rw [improveTheMap_loop_eq]
    simp only [List.nil_append]
    exact residualsFor_of_mem exampleMap _ exampleMap.WM 0 _ ⟨⟨0, 0⟩, 0, CameraID.LEFT⟩ hlm
      (by simp)
  · refine ⟨residualFor exampleMap true 0 ⟨⟨0, 0⟩, 0, CameraID.LEFT⟩, ?_, rfl, rfl⟩
    unfold improveTheMap_2.problem
    rw [improveTheMap_2_loop_eq]
    simp only [List.nil_append]
    exact residualsFor_of_mem exampleMap (fun p => decide (p = 0)) exampleMap.WM 0 _
      ⟨⟨0, 0⟩, 0, CameraID.LEFT⟩ hlm (by simp)

/-- C15 as amended. In windowed bundle adjustment (more than ten landmarks in
`WM`) and in full bundle adjustment a `WM` landmark all of whose observations
are at fixed poses is not skipped: each of its observations contributes a
`ReprojectionErrorFixed` residual block, and every residual block that
registers the landmark's position `X` registers nothing else, so no pose block
is registered on its behalf. -/
theorem fixedOnly_landmark_contributes_fixed_blocks {R : Type} [Zero R]
    (self : StereoCartography R) (i : Nat) (lm : LandMark R)
    (hlm : self.WM[i]? = some lm) :
    (self.trajectory.length ≤ 2 ^ 31 → 10 < self.WM.length →
      (∀ ob ∈ lm.observations, ob.poseIdx ≤ max 1 ((self.trajectory.length : Int) - 5)) →
      ∃ prob, improveTheMap.problem self false = some prob ∧
        (∀ ob ∈ lm.observations, residualFor self true i ob ∈ prob) ∧
        (∀ rb ∈ prob, ParamBlock.landmarkX i ∈ rb.params →
          rb.isFixed = true ∧ rb.params = [ParamBlock.landmarkX i])) ∧
    ((∀ ob ∈ lm.observations, ob.poseIdx = 0) →
      (∀ ob ∈ lm.observations, residualFor self true i ob ∈ improveTheMap_2.problem self) ∧
      (∀ rb ∈ improveTheMap_2.problem self, ParamBlock.landmarkX i ∈ rb.params →
        rb.isFixed = true ∧ rb.params = [ParamBlock.landmarkX i])) := by
  refine ⟨?_, ?_⟩
  · intro hK hWM hfixed
    have hprob : improveTheMap.problem self false =
        some (residualsFor self
          (fun p => decide (p ≤ max 1 ((self.trajectory.length : Int) - 5))) 0 self.WM) := by
      unfold improveTheMap.problem
      simp only [gt_iff_lt, hWM, if_true]
      rw [improveTheMap_loop_eq, lastFixedPos_windowed _ hK]
      simp
    refine ⟨_, hprob, ?_, ?_⟩
    · intro ob hob
      have h := residualsFor_of_mem self
        (fun p => decide (p ≤ max 1 ((self.trajectory.length : Int) - 5))) self.WM i lm ob
        hlm hob
      simp only [hfixed ob hob, decide_True, Nat.zero_add] at h
      exact h
    · intro rb hrb hX
      exact residualsFor_landmark_params self _ self.WM i lm hlm
        (fun ob hob => by simp [hfixed ob hob]) rb hrb hX
  · intro hfixed
    have hprob : improveTheMap_2.problem self =
        residualsFor self (fun p => decide (p = 0)) 0 self.WM := by
      unfold improveTheMap_2.problem
      rw [improveTheMap_2_loop_eq]
      simp
    rw [hprob]
    refine ⟨?_, ?_⟩
    · intro ob hob
      have h := residualsFor_of_mem self (fun p => decide (p = 0)) self.WM i lm ob hlm hob
      simp only [hfixed ob hob, decide_True, Nat.zero_add] at h
      exact h
    · intro rb hrb hX
      exact residualsFor_landmark_params self _ self.WM i lm hlm
        (fun ob hob => by simp [hfixed ob hob]) rb hrb hX

/-- Witness of the amended C15: landmark 0 of `exampleMap` in the full bundle
adjustment. -/
theorem fixedOnly_landmark_contributes_fixed_blocks_witness :
    exampleMap.WM[0]? = some
        ({ X := ⟨0, 0, 2⟩, d := [],
           observations := [⟨⟨0, 0⟩, 0, CameraID.LEFT⟩, ⟨⟨1, 1⟩, 0, CameraID.RIGHT⟩] } :
          LandMark ℚ) ∧
      residualFor exampleMap true 0 ⟨⟨0, 0⟩, 0, CameraID.LEFT⟩ ∈
        improveTheMap_2.problem exampleMap := by
  have hlm : exampleMap.WM[0]? = some
      ({ X := ⟨0, 0, 2⟩, d := [],
         observations := [⟨⟨0, 0⟩, 0, CameraID.LEFT⟩, ⟨⟨1, 1⟩, 0, CameraID.RIGHT⟩] } :
        LandMark ℚ) := by
    simp [exampleMap, List.range, List.range.loop]
  exact ⟨hlm,
    ((fixedOnly_landmark_contributes_fixed_blocks exampleMap 0 _ hlm).2
      (by intro ob hob; simp at hob; rcases hob with rfl | rfl <;> rfl)).1 _ (by simp)⟩

/-! ## C18: the sampled indices -/

theorem drawIndex_done {rand : Nat → Nat} {maxIdx : Nat} {avoid : List Nat} (fuel pos : Nat)
    (r : Nat × Nat) (h : drawIndex rand maxIdx avoid fuel pos = Run.done r) :
    r.1 < maxIdx ∧ r.1 ∉ avoid := by
  induction fuel generalizing pos with
  | zero => simp [drawIndex] at h
  | succ fuel ih =>
    rw [drawIndex] at h
    by_cases hm : maxIdx = 0
    · simp [hm] at h
    · simp only [hm, if_false] at h
      by_cases hin : rand pos % maxIdx ∈ avoid
      · simp only [hin, if_true] at h
        exact ih _ h
      · simp only [hin, if_false, Run.done.injEq] at h
        subst h
        exact ⟨Nat.mod_lt _ (Nat.pos_of_ne_zero hm), hin⟩

theorem sampleLoop_done_indices {R : Type} [LinearOrderedField R] (ext : External R)
    (self : Odometry R) (rand : Nat → Nat) (maxIdx : Nat) (angleTh : R) (fuel : Nat)
    (passes counter pos : Nat) (s : Sample)
    (h : self.sampleLoop ext rand maxIdx angleTh fuel passes counter pos = Run.done s) :
    (s.idx1m < maxIdx ∧ s.idx2m < maxIdx ∧ s.idx3m < maxIdx) ∧
      s.idx1m ≠ s.idx2m ∧ s.idx1m ≠ s.idx3m ∧ s.idx2m ≠ s.idx3m := by
  induction passes generalizing counter pos with
  | zero => simp [Odometry.sampleLoop] at h
  | succ passes ih =>
    rw [Odometry.sampleLoop] at h
    by_cases hm : maxIdx = 0
    · simp [hm] at h
    · simp only [hm, if_false] at h
      rw [Run.bind_eq_done] at h
      obtain ⟨r2, h2, h⟩ := h
      rw [Run.bind_eq_done] at h
      obtain ⟨r3, h3, h⟩ := h
      by_cases hc : counter + 1 = 10000
      · simp [hc] at h
      · simp only [hc, if_false] at h
        rw [Run.bind_eq_done] at h
        obtain ⟨ok, -, h⟩ := h
        cases ok with
        | false =>
          simp only [if_true] at h
          exact ih _ _ h
        | true =>
          simp only [Bool.true_eq_false, if_false, Run.done.injEq] at h
          subst h
          obtain ⟨b2, n2⟩ := drawIndex_done _ _ _ h2
          obtain ⟨b3, n3⟩ := drawIndex_done _ _ _ h3
          simp only [List.mem_cons, List.mem_singleton, List.not_mem_nil, or_false,
            not_or] at n2 n3
          exact ⟨⟨Nat.mod_lt _ (Nat.pos_of_ne_zero hm), b2, b3⟩,
            fun e => n2 e.symm, fun e => n3.1 e.symm, fun e => n3.2 e.symm⟩

/-- C18. Whenever the sampling loop of `Ransac` or `Ransac_2` yields a sample,
for every sequence of values of `rand()` and every number `n` of points, the
three landmark indices lie in `[0, n)` and are pairwise distinct; in `Ransac`
`n` is the size of `observationVec`, in `Ransac_2` the size of
`observationVec_2`. -/
theorem sample_indices_distinct_in_range {R : Type} [LinearOrderedField R] (ext : External R)
    (rand : Nat → Nat) (fuel : Nat) (initialPose : Transformation R) (numPoints : Nat)
    (st : RansacState R) :
    (∀ (n : Nat) (angleTh : R) (passes counter pos : Nat) (s : Sample),
      st.self.sampleLoop ext rand n angleTh fuel passes counter pos = Run.done s →
      (s.idx1m < n ∧ s.idx2m < n ∧ s.idx3m < n) ∧
        s.idx1m ≠ s.idx2m ∧ s.idx1m ≠ s.idx3m ∧ s.idx2m ≠ s.idx3m) ∧
    (∀ h : Hypothesis R,
      Odometry.Ransac.hypothesis ext rand fuel initialPose numPoints st = Run.done h →
      ∃ s : Sample,
        st.self.sampleLoop ext rand st.self.observationVec.length 0.2 fuel 10000 0 st.pos =
          Run.done s ∧
        (s.idx1m < st.self.observationVec.length ∧ s.idx2m < st.self.observationVec.length ∧
          s.idx3m < st.self.observationVec.length) ∧
        s.idx1m ≠ s.idx2m ∧ s.idx1m ≠ s.idx3m ∧ s.idx2m ≠ s.idx3m) ∧
    (∀ h : Hypothesis R,
      Odometry.Ransac_2.hypothesis ext rand fuel initialPose numPoints st = Run.done h →
      ∃ s : Sample,
        st.self.sampleLoop ext rand st.self.observationVec_2.length 0.15 fuel 10000 0 st.pos =
          Run.done s ∧
        (s.idx1m < st.self.observationVec_2.length ∧
          s.idx2m < st.self.observationVec_2.length ∧
          s.idx3m < st.self.observationVec_2.length) ∧
        s.idx1m ≠ s.idx2m ∧ s.idx1m ≠ s.idx3m ∧ s.idx2m ≠ s.idx3m) := by
  refine ⟨?_, ?_, ?_⟩
  · intro n angleTh passes counter pos s h
    exact sampleLoop_done_indices ext _ rand n angleTh fuel passes counter pos s h
  · intro h hh
    unfold Odometry.Ransac.hypothesis at hh
    rw [Run.bind_eq_done] at hh
    obtain ⟨s, hs, -⟩ := hh
    exact ⟨s, hs, sampleLoop_done_indices ext _ rand _ _ fuel _ _ _ s hs⟩
  · intro h hh
    unfold Odometry.Ransac_2.hypothesis at hh
    rw [Run.bind_eq_done] at hh
    obtain ⟨s, hs, -⟩ := hh
    exact ⟨s, hs, sampleLoop_done_indices ext _ rand _ _ fuel _ _ _ s hs⟩

/-- Witness of C18: the first sample of `Ransac` on `exampleOdometry` (four
points) is the landmarks 0, 1, 2. -/
theorem sample_indices_distinct_in_range_witness :
    exampleStart.self.sampleLoop ratExternal (fun n => n) 4 (0.2 : ℚ) 10 10000 0 0 =
        Run.done ⟨0, 1, 2, 3⟩ ∧
      ((0 < 4 ∧ 1 < 4 ∧ 2 < 4) ∧ (0 : Nat) ≠ 1 ∧ (0 : Nat) ≠ 2 ∧ (1 : Nat) ≠ 2) :=
  ⟨exampleOdometry_first_sample,
    (sample_indices_distinct_in_range ratExternal (fun n => n) 10 exampleOdometry.TorigBase 4
      exampleStart).1 4 0.2 10000 0 0 ⟨0, 1, 2, 3⟩ exampleOdometry_first_sample⟩

/-! ## The loop over the image names -/

theorem linesOf_eq (buf cur : List Char) :
    linesOf buf cur =
      if buf = [] ∧ cur = [] then []
      else String.mk (cur.reverse ++ buf.takeWhile (fun c => decide (c.toNat ≠ 10))) ::
        linesOf (buf.dropWhile (fun c => decide (c.toNat ≠ 10))).tail [] := by
  induction buf generalizing cur with
  | nil =>
    by_cases h : cur = []
    · simp [linesOf, h]
    · simp [linesOf, h]
  | cons c rest ih =>
    by_cases hc : c.toNat = 10
    · simp [linesOf, hc]
    · rw [linesOf, if_neg hc, ih]
      simp [hc]

theorem getline_eq (buf : List Char) (hb : buf ≠ []) (old : String) :
    (IStream.mk buf false).getline old =
      (String.mk (buf.takeWhile (fun c => decide (c.toNat ≠ 10))),
        { buf := (buf.dropWhile (fun c => decide (c.toNat ≠ 10))).tail, failed := false }) := by
  simp [IStream.getline, hb, List.span_eq_take_drop]

theorem getline_failed (s : IStream) (hs : s.failed = true) (old : String) :
    s.getline old = (old, s) := by
  simp [IStream.getline, hs]

theorem ignore_failed (s : IStream) (hs : s.failed = true) : s.ignore = s := by
  simp [IStream.ignore, hs]

theorem dropWhile_tail_length_lt (buf : List Char) (p : Char → Bool) (hb : buf ≠ []) :
    ((buf.dropWhile p).tail).length < buf.length := by
  have h1 : (buf.dropWhile p).length ≤ buf.length := by
    have h := congrArg List.length (List.takeWhile_append_dropWhile p buf)
    rw [List.length_append] at h
    omega
  have h2 : 0 < buf.length := List.length_pos.mpr hb
  rw [List.length_tail]
  omega

theorem initializeIntrinsic_loop_failed {R : Type} [Zero R] [One R]
    (self : GenericCameraCalibration R) (cv : BoardDetector R) (checkExtraction : Bool)
    (imageFolder : String) (fuel : Nat) (s : IStream) (hs : s.failed = true)
    (calibDataVec : List (CalibrationData R)) :
    GenericCameraCalibration.initializeIntrinsic.loop self cv checkExtraction imageFolder fuel s
      calibDataVec = calibDataVec := by
  cases fuel with
  | zero => rfl
  | succ fuel =>
    rw [GenericCameraCalibration.initializeIntrinsic.loop]
    simp [getline_failed s hs, hs]

/-- With enough passes the loop over the image names hands every line of the
unread input to the extraction and appends the views that come back. -/
theorem initializeIntrinsic_loop_eq {R : Type} [Zero R] [One R]
    (self : GenericCameraCalibration R) (cv : BoardDetector R) (checkExtraction : Bool)
    (imageFolder : String) (fuel : Nat) (buf : List Char) (hfuel : buf.length < fuel)
    (calibDataVec : List (CalibrationData R)) :
    GenericCameraCalibration.initializeIntrinsic.loop self cv checkExtraction imageFolder fuel
      { buf := buf, failed := false } calibDataVec =
      calibDataVec ++
        (linesOf buf []).filterMap (viewOf self cv checkExtraction imageFolder) := by
  induction fuel generalizing buf calibDataVec with
  | zero => omega
  | succ fuel ih =>
    rw [GenericCameraCalibration.initializeIntrinsic.loop]
    by_cases hb : buf = []
    · subst hb
      simp [IStream.getline, linesOf]
    · have hlen := dropWhile_tail_length_lt buf (fun c => decide (c.toNat ≠ 10)) hb
      rw [getline_eq buf hb, linesOf_eq buf []]
      simp only [hb, false_and, if_false, List.reverse_nil, List.nil_append,
        List.filterMap_cons, Bool.false_eq_true]
      generalize String.mk (buf.takeWhile (fun c => decide (c.toNat ≠ 10))) = imageName
      generalize (buf.dropWhile (fun c => decide (c.toNat ≠ 10))).tail = rest at hlen
      by_cases hex : (self.extractGridProjection cv
          { projection := [], extrinsic := none, fileName := imageFolder ++ imageName }
          checkExtraction).1 = false
      · rw [if_pos hex, ih _ (by omega)]
        simp [viewOf, hex]
      · rw [if_neg hex, ih _ (by omega)]
        simp [viewOf, hex]

theorem extractGridProjection_fileName {R : Type} [Zero R] (self : GenericCameraCalibration R)
    (cv : BoardDetector R) (calibData : CalibrationData R) (checkExtraction : Bool) :
    (self.extractGridProjection cv calibData checkExtraction).2.fileName =
      calibData.fileName := by
  unfold GenericCameraCalibration.extractGridProjection
  split
  · rfl
  · split <;> rfl

theorem initializeIntrinsic_opened {R : Type} [Field R] (self : GenericCameraCalibration R)
    (cv : BoardDetector R) (files : String → Option String) (infoFileName : String)
    (calibDataVec : List (CalibrationData R)) (content : String)
    (hopen : files infoFileName = some content) :
    (self.initializeIntrinsic cv files infoFileName calibDataVec).1 = true ∧
      (self.initializeIntrinsic cv files infoFileName calibDataVec).2.2 =
        (imageNames self content).filterMap
          (viewOf (self.initializeIntrinsic cv files infoFileName calibDataVec).2.1 cv
            (headerCheckExtraction self content) (afterFolderLine self content).1) := by
  unfold GenericCameraCalibration.initializeIntrinsic
  simp only [hopen]
  refine ⟨trivial, ?_⟩
  unfold imageNames
  by_cases hf : (afterFolderLine self content).2.failed = true
  · rw [if_pos hf]
    exact initializeIntrinsic_loop_failed _ cv _ _ _ _ hf []
  · rw [if_neg hf]
    have hf2 : (afterFolderLine self content).2.failed = false := by simpa using hf
    have hs : (afterFolderLine self content).2 =
        { buf := (afterFolderLine self content).2.buf, failed := false } := by
      rw [← hf2]
    have h := initializeIntrinsic_loop_eq
      (self.initializeIntrinsic cv files infoFileName calibDataVec).2.1 cv
      (headerCheckExtraction self content) (afterFolderLine self content).1
      ((afterFolderLine self content).2.buf.length + 1) (afterFolderLine self content).2.buf
      (by omega) []
    rw [← hs] at h
    unfold GenericCameraCalibration.initializeIntrinsic at h
    simp only [hopen, List.nil_append] at h
    exact h

/-! ## C11: a header that cannot be parsed -/

/-- C11, the claim fails. The info files of `filesBadToken` (second header token
is `x`) and `filesShortHeader` (three header tokens) open, the five extractions
of the header end with the fail bit set, and `initializeIntrinsic` returns true. -/
theorem malformed_header_counterexample :
    (headerFailBit freshCalibration "6 x 0.05 0 0\nimages/\nleft_1.pgm\n" = true ∧
      (freshCalibration.initializeIntrinsic detectAll filesBadToken "calibInfo.txt" []).1 =
        true) ∧
    (headerFailBit freshCalibration "6 4 0.05\nimages/\nleft_1.pgm\n" = true ∧
      (freshCalibration.initializeIntrinsic detectAll filesShortHeader "calibInfo.txt" []).1 =
        true) := by
  decide

/-- The five extractions skip line feeds like any white space: a first line of
four tokens is completed by the digit that starts the second line, the fail
bit stays clear, `ignore()` drops the character after that digit, the rest of
that line is the image folder and the image is loaded. -/
theorem continued_header_example :
    headerFailBit freshCalibration "6 4 0.05 0\n1cam/\nleft_1.pgm\n" = false ∧
      (freshCalibration.initializeIntrinsic detectAll filesContinuedHeader "calibInfo.txt"
        []).2.2.map (fun v => v.fileName) = ["am/left_1.pgm"] := by
  decide

/-- C11 as amended. When the info file opens `initializeIntrinsic` returns true
whatever the header holds; and when the five extractions of the header leave
the fail bit of the stream set, the image folder and the image names are not
read, so `calibDataVec` is left empty. The extractions do not stop at the end
of the first line: after the first line `6 4 0.05 0` the fifth value is taken
from the second line `1cam/`, the fail bit stays clear, the image folder is
`am/` and the listed image is loaded. -/
theorem malformed_header_returns_true {R : Type} [Field R] (self : GenericCameraCalibration R)
    (cv : BoardDetector R) (files : String → Option String) (infoFileName : String)
    (calibDataVec : List (CalibrationData R)) (content : String)
    (hopen : files infoFileName = some content) :
    (self.initializeIntrinsic cv files infoFileName calibDataVec).1 = true ∧
      (headerFailBit self content = true →
        (self.initializeIntrinsic cv files infoFileName calibDataVec).2.2 = []) ∧
      (filesContinuedHeader "calibInfo.txt" = some "6 4 0.05 0\n1cam/\nleft_1.pgm\n" ∧
        headerFailBit freshCalibration "6 4 0.05 0\n1cam/\nleft_1.pgm\n" = false ∧
        (freshCalibration.initializeIntrinsic detectAll filesContinuedHeader "calibInfo.txt"
          []).2.2.map (fun v => v.fileName) = ["am/left_1.pgm"]) := by
  have h := initializeIntrinsic_opened self cv files infoFileName calibDataVec content hopen
  refine ⟨h.1, ?_, by decide, continued_header_example⟩
  intro hfail
  rw [h.2]
  have hnames : imageNames self content = [] := by
    unfold imageNames
    rw [if_pos]
    unfold afterFolderLine
    unfold headerFailBit at hfail
    rw [ignore_failed _ hfail, getline_failed _ hfail]
    exact hfail
  rw [hnames]
  rfl

/-- Witness of the amended C11: the header `6 x 0.05 0 0`. -/
theorem malformed_header_returns_true_witness :
    filesBadToken "calibInfo.txt" = some "6 x 0.05 0 0\nimages/\nleft_1.pgm\n" ∧
      headerFailBit freshCalibration "6 x 0.05 0 0\nimages/\nleft_1.pgm\n" = true ∧
      (freshCalibration.initializeIntrinsic detectAll filesBadToken "calibInfo.txt" []).1 =
        true ∧
      (freshCalibration.initializeIntrinsic detectAll filesBadToken "calibInfo.txt" []).2.2 =
        [] :=
  ⟨by decide, by decide,
    (malformed_header_returns_true freshCalibration detectAll filesBadToken "calibInfo.txt" []
      "6 x 0.05 0 0\nimages/\nleft_1.pgm\n" (by decide)).1,
    (malformed_header_returns_true freshCalibration detectAll filesBadToken "calibInfo.txt" []
      "6 x 0.05 0 0\nimages/\nleft_1.pgm\n" (by decide)).2.1 (by decide)⟩

/-! ## C12: blank lines in the image list -/

/-- C12, the claim fails. The info file of `filesBlankLine` lists `left_1.pgm`,
a blank line and `left_2.pgm`. The blank line is handed to the extraction as
the image name `images/`, and `left_2.pgm`, on the line after it, contributes a
view, whether the extraction of `images/` succeeds or not. -/
theorem blank_line_counterexample :
    (freshCalibration.initializeIntrinsic detectAll filesBlankLine "calibInfo.txt" []).2.2.map
        (fun v => v.fileName) = ["images/left_1.pgm", "images/", "images/left_2.pgm"] ∧
      (freshCalibration.initializeIntrinsic detectExceptFolder filesBlankLine "calibInfo.txt"
        []).2.2.map (fun v => v.fileName) = ["images/left_1.pgm", "images/left_2.pgm"] := by
  decide

/-- C12 as amended. The image list is read to the end of the file: every line
of the unread input is handed to the extraction, in order. A blank line does
not stop the loop; it is the empty image name, handed to the extraction as
the bare image folder, and the lines after it are read like the others. -/
theorem blank_line_is_read_as_empty_name {R : Type} [Zero R] [One R]
    (self : GenericCameraCalibration R) (cv : BoardDetector R) (checkExtraction : Bool)
    (imageFolder : String) :
    (∀ (buf : List Char) (calibDataVec : List (CalibrationData R)),
      GenericCameraCalibration.initializeIntrinsic.loop self cv checkExtraction imageFolder
        (buf.length + 1) { buf := buf, failed := false } calibDataVec =
        calibDataVec ++
          (linesOf buf []).filterMap (viewOf self cv checkExtraction imageFolder)) ∧
    (∀ rest : List Char, linesOf (Char.ofNat 10 :: rest) [] = "" :: linesOf rest []) ∧
    (∀ (rest : List Char) (calibDataVec : List (CalibrationData R)),
      GenericCameraCalibration.initializeIntrinsic.loop self cv checkExtraction imageFolder
        (rest.length + 1 + 1) { buf := Char.ofNat 10 :: rest, failed := false } calibDataVec =
        GenericCameraCalibration.initializeIntrinsic.loop self cv checkExtraction imageFolder
          (rest.length + 1) { buf := rest, failed := false }
          (calibDataVec ++ (viewOf self cv checkExtraction imageFolder "").toList)) := by
  refine ⟨?_, ?_, ?_⟩
  · intro buf calibDataVec
    exact initializeIntrinsic_loop_eq self cv checkExtraction imageFolder _ buf (by omega) _
  · intro rest
    rfl
  · intro rest calibDataVec
    rw [initializeIntrinsic_loop_eq self cv checkExtraction imageFolder _ _ (by simp),
      initializeIntrinsic_loop_eq self cv checkExtraction imageFolder _ _ (by omega)]
    have hl : linesOf (Char.ofNat 10 :: rest) [] = "" :: linesOf rest [] := rfl
    rw [hl, List.filterMap_cons]
    cases viewOf self cv checkExtraction imageFolder "" <;> simp

/-! ## C13: the views after a successful initialization -/

theorem span_append_stop (p : Char → Bool) (l r : List Char) (x : Char)
    (hl : ∀ c ∈ l, p c = true) (hx : p x = false) :
    (l ++ x :: r).span p = (l, x :: r) := by
  induction l with
  | nil => simp [List.span_eq_take_drop, hx]
  | cons c l ih =>
    have hc : p c = true := hl c (List.mem_cons_self c l)
    have ih2 := ih (fun d hd => hl d (List.mem_cons_of_mem c hd))
    rw [List.span_eq_take_drop] at ih2 ⊢
    simp only [Prod.mk.injEq] at ih2
    simp [hc, ih2.1, ih2.2]

/-- When the header has been read and the input goes on with one character,
the line of the image folder and the lines of the images, `ignore()` drops the
character, the image folder is that line, and the loop starts on the lines of
the images. -/
theorem afterFolderLine_layout {R : Type} [Field R] (self : GenericCameraCalibration R)
    (content : String) (c : Char) (folder body : List Char)
    (hs : headerStream self content =
      { buf := c :: (folder ++ Char.ofNat 10 :: body), failed := false })
    (hfolder : ∀ x ∈ folder, x.toNat ≠ 10) :
    afterFolderLine self content = (String.mk folder, { buf := body, failed := false }) := by
  have h : afterFolderLine self content = ((headerStream self content).ignore).getline "" := rfl
  rw [h, hs]
  have hsp := span_append_stop (fun x => decide (x.toNat ≠ 10)) folder body (Char.ofNat 10)
    (fun x hx => decide_eq_true (hfolder x hx)) (by decide)
  have hne : folder ++ Char.ofNat 10 :: body ≠ [] := by simp
  unfold IStream.ignore IStream.getline
  simp only [Bool.false_eq_true, if_false, List.tail_cons, hne, hsp]

theorem linesOf_line (n rest cur : List Char) (hn : ∀ x ∈ n, x.toNat ≠ 10) :
    linesOf (n ++ Char.ofNat 10 :: rest) cur =
      String.mk (cur.reverse ++ n) :: linesOf rest [] := by
  induction n generalizing cur with
  | nil =>
    have h10 : (Char.ofNat 10).toNat = 10 := by decide
    simp [linesOf, h10]
  | cons c n ih =>
    have hc : c.toNat ≠ 10 := hn c (List.mem_cons_self c n)
    rw [List.cons_append, linesOf, if_neg hc, ih _ (fun x hx => hn x (List.mem_cons_of_mem c hx))]
    simp

/-- A text made of lines that each end with a line feed has these lines. -/
theorem linesOf_terminated (names : List (List Char))
    (h : ∀ n ∈ names, ∀ x ∈ n, x.toNat ≠ 10) :
    linesOf (names.map (fun n => n ++ [Char.ofNat 10])).flatten [] = names.map String.mk := by
  induction names with
  | nil => simp [linesOf]
  | cons n names ih =>
    rw [List.map_cons, List.flatten_cons, List.append_assoc, List.singleton_append,
      linesOf_line n _ [] (h n (List.mem_cons_self n names)),
      ih (fun m hm => h m (List.mem_cons_of_mem n hm))]
    simp

/-- C13. After `initializeIntrinsic` has opened the info file it returns true and
`calibDataVec` holds, in the order of the info file, one entry for each image
name whose extraction succeeded, with `fileName` the image folder followed by
the image name and with the extrinsic (0,0,1, 0,0,0); an image whose
extraction fails contributes no entry, and what `calibDataVec` held before
the call is gone. For a file laid out as the specification says (after the
five header values one character, the line of the image folder, then one
image name per line) the image names are the lines after the folder line:
when each of the lines `names` ends with a line feed, `calibDataVec` is
`names` filtered by the success of the extraction, in that order. -/
theorem initializeIntrinsic_views {R : Type} [Field R] (self : GenericCameraCalibration R)
    (cv : BoardDetector R) (files : String → Option String) (infoFileName : String)
    (calibDataVec : List (CalibrationData R)) (content : String)
    (hopen : files infoFileName = some content) :
    (self.initializeIntrinsic cv files infoFileName calibDataVec).1 = true ∧
      (self.initializeIntrinsic cv files infoFileName calibDataVec).2.2 =
        (imageNames self content).filterMap
          (viewOf (self.initializeIntrinsic cv files infoFileName calibDataVec).2.1 cv
            (headerCheckExtraction self content) (afterFolderLine self content).1) ∧
      (∀ imageName : String,
        (viewOf (self.initializeIntrinsic cv files infoFileName calibDataVec).2.1 cv
            (headerCheckExtraction self content) (afterFolderLine self content).1 imageName
            = none ↔
          ((self.initializeIntrinsic cv files infoFileName calibDataVec).2.1.extractGridProjection
            cv { projection := [], extrinsic := none,
                 fileName := (afterFolderLine self content).1 ++ imageName }
            (headerCheckExtraction self content)).1 = false) ∧
        ∀ v, viewOf (self.initializeIntrinsic cv files infoFileName calibDataVec).2.1 cv
            (headerCheckExtraction self content) (afterFolderLine self content).1 imageName
            = some v →
          v.fileName = (afterFolderLine self content).1 ++ imageName ∧
            v.extrinsic = some [0, 0, 1, 0, 0, 0]) ∧
      (∀ (c : Char) (folder body : List Char),
        headerStream self content =
          { buf := c :: (folder ++ Char.ofNat 10 :: body), failed := false } →
        (∀ x ∈ folder, x.toNat ≠ 10) →
        (self.initializeIntrinsic cv files infoFileName calibDataVec).2.2 =
          (linesOf body []).filterMap
            (viewOf (self.initializeIntrinsic cv files infoFileName calibDataVec).2.1 cv
              (headerCheckExtraction self content) (String.mk folder))) ∧
      (∀ (c : Char) (folder : List Char) (names : List (List Char)),
        headerStream self content =
          { buf := c :: (folder ++ Char.ofNat 10 ::
              (names.map (fun n => n ++ [Char.ofNat 10])).flatten), failed := false } →
        (∀ x ∈ folder, x.toNat ≠ 10) →
        (∀ n ∈ names, ∀ x ∈ n, x.toNat ≠ 10) →
        (self.initializeIntrinsic cv files infoFileName calibDataVec).2.2 =
          (names.map String.mk).filterMap
            (viewOf (self.initializeIntrinsic cv files infoFileName calibDataVec).2.1 cv
              (headerCheckExtraction self content) (String.mk folder))) := by
  have h := initializeIntrinsic_opened self cv files infoFileName calibDataVec content hopen
  have layout : ∀ (c : Char) (folder body : List Char),
      headerStream self content =
        { buf := c :: (folder ++ Char.ofNat 10 :: body), failed := false } →
      (∀ x ∈ folder, x.toNat ≠ 10) →
      (self.initializeIntrinsic cv files infoFileName calibDataVec).2.2 =
        (linesOf body []).filterMap
          (viewOf (self.initializeIntrinsic cv files infoFileName calibDataVec).2.1 cv
            (headerCheckExtraction self content) (String.mk folder)) := by
    intro c folder body hs hfolder
    have hl := afterFolderLine_layout self content c folder body hs hfolder
    rw [h.2]
    unfold imageNames
    rw [hl]
    simp
  refine ⟨h.1, h.2, ?_, layout, ?_⟩
  · intro imageName
    refine ⟨?_, ?_⟩
    · unfold viewOf
      simp only
      split <;> simp_all
    · intro v hv
      unfold viewOf at hv
      simp only at hv
      split at hv
      · exact absurd hv (by simp)
      · simp only [Option.some.injEq] at hv
        subst hv
        exact ⟨extractGridProjection_fileName _ cv _ _, rfl⟩
  · intro c folder names hs hfolder hnames
    rw [layout c folder _ hs hfolder, linesOf_terminated names hnames]

/-- Witness of C13: three images are listed, the chessboard is not found in the
second, and `calibDataVec`, which held one stale entry, ends with the first and
the third image; and a header whose `sqSize` is written `5e-2` is read like
any other: its one listed image is the content of `calibDataVec`. -/
theorem initializeIntrinsic_views_witness :
    filesThreeImages "calibInfo.txt" =
        some "3 2 0.05 0 0\nimages/\nleft_1.pgm\nleft_2.pgm\nleft_3.pgm\n" ∧
      (freshCalibration.initializeIntrinsic detectExceptSecond filesThreeImages "calibInfo.txt"
        [⟨[], none, "stale"⟩]).1 = true ∧
      (freshCalibration.initializeIntrinsic detectExceptSecond filesThreeImages "calibInfo.txt"
        [⟨[], none, "stale"⟩]).2.2.map (fun v => v.fileName) =
        ["images/left_1.pgm", "images/left_3.pgm"] ∧
      headerFailBit freshCalibration "3 2 5e-2 0 0\nimages/\nleft_1.pgm\n" = false ∧
      (freshCalibration.initializeIntrinsic detectAll filesExponent "calibInfo.txt" []).2.2 =
        (["left_1.pgm".toList].map String.mk).filterMap
          (viewOf (freshCalibration.initializeIntrinsic detectAll filesExponent "calibInfo.txt"
              []).2.1 detectAll
            (headerCheckExtraction freshCalibration "3 2 5e-2 0 0\nimages/\nleft_1.pgm\n")
            (String.mk "images/".toList)) ∧
      (freshCalibration.initializeIntrinsic detectAll filesExponent "calibInfo.txt"
        []).2.2.map (fun v => v.fileName) = ["images/left_1.pgm"] :=
  ⟨by decide,
    (initializeIntrinsic_views freshCalibration detectExceptSecond filesThreeImages
      "calibInfo.txt" [⟨[], none, "stale"⟩]
      "3 2 0.05 0 0\nimages/\nleft_1.pgm\nleft_2.pgm\nleft_3.pgm\n" (by decide)).1,
    by decide, by decide,
    (initializeIntrinsic_views freshCalibration detectAll filesExponent "calibInfo.txt" []
      "3 2 5e-2 0 0\nimages/\nleft_1.pgm\n" (by decide)).2.2.2.2 (Char.ofNat 10)
      "images/".toList ["left_1.pgm".toList] (by decide) (by decide) (by decide),
    by decide⟩

/-! ## Counting loops that mark one slot per pass -/

/-- A loop over `i = 0 .. n-1` that, when the condition `c i` holds, rewrites
slot `i` of a vector from its current value and adds one to a counter: slot
`i < n` ends as the rewritten initial value when `c i` holds and as the initial
value otherwise, later slots are untouched, and the counter is the number of
`i < n` for which `c i` holds. -/
theorem foldl_range_mark {α : Type} (d : α) (c : Nat → Prop) [DecidablePred c]
    (upd : Nat → α → α) (n : Nat) (init : List α) :
    ((List.range n).foldl
        (fun (acc : List α × Int) (i : Nat) =>
          if c i then (acc.1.set i (upd i (acc.1.getD i d)), acc.2 + 1) else acc)
        (init, 0)).1.length = init.length ∧
      (∀ i, i < n → i < init.length →
        ((List.range n).foldl
          (fun (acc : List α × Int) (i : Nat) =>
            if c i then (acc.1.set i (upd i (acc.1.getD i d)), acc.2 + 1) else acc)
          (init, 0)).1.getD i d = if c i then upd i (init.getD i d) else init.getD i d) ∧
      (∀ i, n ≤ i →
        ((List.range n).foldl
          (fun (acc : List α × Int) (i : Nat) =>
            if c i then (acc.1.set i (upd i (acc.1.getD i d)), acc.2 + 1) else acc)
          (init, 0)).1.getD i d = init.getD i d) ∧
      ((List.range n).foldl
        (fun (acc : List α × Int) (i : Nat) =>
          if c i then (acc.1.set i (upd i (acc.1.getD i d)), acc.2 + 1) else acc)
        (init, 0)).2 = (((List.range n).filter (fun i => decide (c i))).length : Int) := by
  induction n with
  | zero => simp
  | succ n ih =>
    obtain ⟨hlen, hlt, hge, hcnt⟩ := ih
    rw [List.range_succ, List.foldl_append, List.filter_append, List.length_append]
    simp only [List.foldl_cons, List.foldl_nil]
    generalize (List.range n).foldl
      (fun (acc : List α × Int) (i : Nat) =>
        if c i then (acc.1.set i (upd i (acc.1.getD i d)), acc.2 + 1) else acc)
      (init, 0) = r at hlen hlt hge hcnt
    by_cases hc : c n
    · simp only [hc, if_true, List.length_set]
      refine ⟨hlen, ?_, ?_, ?_⟩
      · intro i hi hil
        by_cases hin : i = n
        · subst hin
          rw [List.getD_eq_getElem?_getD, List.getElem?_set_self (by omega)]
          simp only [Option.getD_some, if_pos hc]
          rw [hge i (le_refl i)]
        · rw [List.getD_eq_getElem?_getD, List.getElem?_set_ne (by omega),
            ← List.getD_eq_getElem?_getD]
          exact hlt i (by omega) hil
      · intro i hi
        rw [List.getD_eq_getElem?_getD, List.getElem?_set_ne (by omega),
          ← List.getD_eq_getElem?_getD]
        exact hge i (by omega)
      · rw [hcnt]
        simp [List.filter, hc]
    · simp only [hc, if_false]
      refine ⟨hlen, ?_, ?_, ?_⟩
      · intro i hi hil
        by_cases hin : i = n
        · subst hin
          rw [hge i (le_refl i)]
          simp [hc]
        · exact hlt i (by omega) hil
      · intro i hi
        exact hge i (by omega)
      · rw [hcnt]
        simp [List.filter, hc]

theorem count_true_eq_filter_range (l : List Bool) (n : Nat) (hl : l.length = n)
    (c : Nat → Prop) [DecidablePred c] (h : ∀ i, i < n → l.getD i false = decide (c i)) :
    l.count true = ((List.range n).filter (fun i => decide (c i))).length := by
  have hmap : l = (List.range n).map (fun i => decide (c i)) := by
    apply List.ext_getElem
    · simp [hl]
    · intro i h1 h2
      have := h i (by omega)
      rw [List.getD_eq_getElem _ _ h1] at this
      simp [this]
  rw [hmap, List.count, List.countP_eq_length_filter, List.filter_map, List.length_map]
  congr 1
  apply List.filter_congr
  intro i _
  simp

/-! ## C19: the inlier mask of `Ransac` -/

theorem Ransac_countInliers_spec {R : Type} [LinearOrderedField R] (ext : External R)
    (observationVec projVec : List (Vector2d R)) (numPoints : Nat) :
    (Odometry.Ransac.countInliers ext observationVec projVec numPoints).1.length = numPoints ∧
      (∀ i, i < numPoints →
        (Odometry.Ransac.countInliers ext observationVec projVec numPoints).1[i]? =
          some (decide
            (((observationVec.getD i default).sub (projVec.getD i default)).norm ext < 2))) ∧
      (Odometry.Ransac.countInliers ext observationVec projVec numPoints).2 =
        ((Odometry.Ransac.countInliers ext observationVec projVec numPoints).1.count true :
          Int) := by
  have h := foldl_range_mark false
    (fun i => ((observationVec.getD i default).sub (projVec.getD i default)).norm ext < 2)
    (fun _ _ => true) numPoints (List.replicate numPoints false)
  obtain ⟨hlen, hlt, -, hcnt⟩ := h
  have hlen2 : (Odometry.Ransac.countInliers ext observationVec projVec numPoints).1.length =
      numPoints := by
    unfold Odometry.Ransac.countInliers
    exact hlen.trans (List.length_replicate _ _)
  have hget : ∀ i, i < numPoints →
      (Odometry.Ransac.countInliers ext observationVec projVec numPoints).1.getD i false =
        decide (((observationVec.getD i default).sub (projVec.getD i default)).norm ext < 2) := by
    intro i hi
    have := hlt i hi (by simpa using hi)
    unfold Odometry.Ransac.countInliers
    rw [this]
    by_cases hc : ((observationVec.getD i default).sub (projVec.getD i default)).norm ext < 2
    · simp [hc]
    · simp [hc, List.getD_eq_getElem?_getD, hi]
  refine ⟨hlen2, ?_, ?_⟩
  · intro i hi
    have := hget i hi
    rw [List.getD_eq_getElem _ _ (by omega)] at this
    rw [List.getElem?_eq_getElem (by omega), this]
  · rw [count_true_eq_filter_range _ numPoints hlen2 _ hget]
    exact hcnt

theorem Ransac_hypothesis_spec {R : Type} [LinearOrderedField R] (ext : External R)
    (rand : Nat → Nat) (fuel : Nat) (initialPose : Transformation R) (numPoints : Nat)
    (st : RansacState R) (h : Hypothesis R)
    (hh : Odometry.Ransac.hypothesis ext rand fuel initialPose numPoints st = Run.done h) :
    h.currentInlierMask.length = numPoints ∧
      (∀ i, i < numPoints → i < st.self.cloud.length →
        h.currentInlierMask[i]? =
          some (decide (((st.self.observationVec.getD i default).sub
            (ext.projectPoint st.self.camera
              (ext.inverseTransform (ext.compose h.pose st.self.TbaseCam)
                (st.self.cloud.getD i default))).1).norm ext < 2))) ∧
      h.countInliers = (h.currentInlierMask.count true : Int) := by
  unfold Odometry.Ransac.hypothesis at hh
  rw [Run.bind_eq_done] at hh
  obtain ⟨s, -, hs⟩ := hh
  simp only [Run.done.injEq] at hs
  subst hs
  simp only
  obtain ⟨hlen, hget, hcnt⟩ := Ransac_countInliers_spec ext st.self.observationVec
    (ext.projectPointCloud st.self.camera
      (st.self.cloud.map (ext.inverseTransform
        (ext.compose
          (ext.solveOdometry st.self.TbaseCam st.self.camera
            ([s.idx1m, s.idx2m, s.idx3m].map fun i =>
              (st.self.cloud.getD i default, st.self.observationVec.getD i default))
            (some 10) initialPose)
          st.self.TbaseCam))))
    numPoints
  refine ⟨hlen, ?_, hcnt⟩
  intro i hi hic
  rw [hget i hi]
  have hproj : ∀ (f : Vector3d R → Vector3d R),
      (ext.projectPointCloud st.self.camera (st.self.cloud.map f)).getD i default =
        (ext.projectPoint st.self.camera (f (st.self.cloud.getD i default))).1 := by
    intro f
    unfold External.projectPointCloud
    rw [List.getD_eq_getElem?_getD, List.getD_eq_getElem?_getD, List.getElem?_map,
      List.getElem?_map, List.getElem?_eq_getElem hic]
    rfl
  rw [hproj]

theorem Ransac_iteration_eq {R : Type} [LinearOrderedField R] (ext : External R)
    (rand : Nat → Nat) (fuel : Nat) (initialPose : Transformation R) (numPoints : Nat)
    (st st1 : RansacState R)
    (hit : Odometry.Ransac.iteration ext rand fuel initialPose numPoints st = Run.done st1) :
    ∃ h, Odometry.Ransac.hypothesis ext rand fuel initialPose numPoints st = Run.done h ∧
      st1 = Odometry.Ransac.keepBest st h := by
  rw [Odometry.Ransac.iteration, Run.bind_eq_done] at hit
  obtain ⟨h, hh, hk⟩ := hit
  simp only [Run.done.injEq] at hk
  exact ⟨h, hh, hk.symm⟩

/-- The invariant of the loop of `Ransac`: once the best count is positive, the
stored mask has that many true entries. -/
theorem Ransac_loop_mask_count {R : Type} [LinearOrderedField R] (ext : External R)
    (rand : Nat → Nat) (fuel : Nat) (initialPose : Transformation R) (numPoints : Nat) (n : Nat)
    (st st1 : RansacState R)
    (hinv : 0 < st.bestInliers → (st.self.inlierMask.count true : Int) = st.bestInliers)
    (h : Odometry.Ransac.loop ext rand fuel initialPose numPoints n st = Run.done st1) :
    0 < st1.bestInliers → (st1.self.inlierMask.count true : Int) = st1.bestInliers := by
  induction n generalizing st with
  | zero =>
    simp only [Odometry.Ransac.loop, Run.done.injEq] at h
    rw [← h]
    exact hinv
  | succ n ih =>
    rw [Odometry.Ransac.loop, Run.bind_eq_done] at h
    obtain ⟨st2, h2, h3⟩ := h
    obtain ⟨hyp, hh, rfl⟩ := Ransac_iteration_eq ext rand fuel initialPose numPoints st st2 h2
    refine ih _ ?_ h3
    have hc := (Ransac_hypothesis_spec ext rand fuel initialPose numPoints st hyp hh).2.2
    unfold Odometry.Ransac.keepBest
    by_cases hgt : hyp.countInliers > st.bestInliers
    · simp only [hgt, if_true]
      intro _
      exact hc.symm
    · simp only [hgt, if_false]
      exact hinv

/-- C19. In every iteration of `Ransac` that reaches the inlier count, the
current mask has one entry per point, entry `i` is true iff the norm of
`observationVec[i]` minus the projection of `cloud[i]` through the candidate
pose is strictly less than 2, and the inlier count of the iteration is the
number of true entries of that mask; hence after `Ransac` has returned with a
positive best count the stored `inlierMask` has exactly `bestInliers` true
entries. -/
theorem ransac_mask_marks_inliers {R : Type} [LinearOrderedField R] (ext : External R)
    (rand : Nat → Nat) (fuel : Nat) :
    (∀ (initialPose : Transformation R) (numPoints : Nat) (st : RansacState R)
        (h : Hypothesis R),
      Odometry.Ransac.hypothesis ext rand fuel initialPose numPoints st = Run.done h →
      h.currentInlierMask.length = numPoints ∧
        (∀ i, i < numPoints → i < st.self.cloud.length →
          (h.currentInlierMask[i]? = some true ↔
            ((st.self.observationVec.getD i default).sub
              (ext.projectPoint st.self.camera
                (ext.inverseTransform (ext.compose h.pose st.self.TbaseCam)
                  (st.self.cloud.getD i default))).1).norm ext < 2)) ∧
        h.countInliers = (h.currentInlierMask.count true : Int)) ∧
    (∀ (self : Odometry R) (pos : Nat) (st : RansacState R),
      Odometry.Ransac ext rand fuel self pos = Run.done st →
      0 < st.bestInliers →
      (st.self.inlierMask.count true : Int) = st.bestInliers) := by
  refine ⟨?_, ?_⟩
  · intro initialPose numPoints st h hh
    obtain ⟨hlen, hget, hcnt⟩ := Ransac_hypothesis_spec ext rand fuel initialPose numPoints st h hh
    refine ⟨hlen, ?_, hcnt⟩
    intro i hi hic
    rw [hget i hi hic]
    simp
  · intro self pos st hrun
    unfold Odometry.Ransac at hrun
    by_cases hne : self.observationVec.length ≠ self.cloud.length
    · simp [hne] at hrun
    · rw [if_neg hne] at hrun
      exact Ransac_loop_mask_count ext rand fuel _ _ _ _ st (by simp) hrun

/-! ## A complete run of `Ransac` on `exampleOdometry` -/

theorem cycleRand_values (pos : Nat) (hp : pos % 3 = 0) :
    cycleRand pos % 4 = 0 ∧ cycleRand (pos + 1) % 4 = 1 ∧ cycleRand (pos + 1 + 1) % 4 = 2 := by
  unfold cycleRand
  omega

theorem exampleRun_sample (fuel pos : Nat) (hp : pos % 3 = 0) :
    exampleOdometry.sampleLoop ratExternal cycleRand 4 (0.2 : ℚ) (fuel + 1) 10000 0 pos =
      Run.done ⟨0, 1, 2, pos + 1 + 1 + 1⟩ := by
  obtain ⟨r0, r1, r2⟩ := cycleRand_values pos hp
  have d2 : drawIndex cycleRand 4 [cycleRand pos % 4] (fuel + 1) (pos + 1) =
      Run.done (1, pos + 1 + 1) := by
    rw [drawIndex_first fuel _ (by decide) (by rw [r0, r1]; decide), r1]
  have d3 : drawIndex cycleRand 4 [cycleRand pos % 4, 1] (fuel + 1) (pos + 1 + 1) =
      Run.done (2, pos + 1 + 1 + 1) := by
    rw [drawIndex_first fuel _ (by decide) (by rw [r0, r2]; decide), r2]
  have hs : exampleOdometry.checkSpan ratExternal
      [exampleOdometry.cloud.getD (cycleRand pos % 4) default,
        exampleOdometry.cloud.getD 1 default, exampleOdometry.cloud.getD 2 default] 0.2 =
      Run.done true := by
    rw [r0]
    exact exampleOdometry_span_012
  have h := sampleLoop_pass_accept ratExternal exampleOdometry cycleRand 4 0.2 (fuel + 1) 9999 0
    pos 1 (pos + 1 + 1) 2 (pos + 1 + 1 + 1) (by decide) d2 d3 (by decide) hs
  rw [r0] at h
  exact h

/-- The states the loop of `Ransac` passes through on `exampleOdometry` with
`cycleRand`: everything but the inlier mask is as in `exampleOdometry`, and the
number of `rand()` calls is a multiple of 3. -/
theorem exampleRun_hypothesis (fuel : Nat) (st : RansacState ℚ)
    (hT : st.self.TorigBase = exampleOdometry.TorigBase)
    (hB : st.self.TbaseCam = exampleOdometry.TbaseCam)
    (hcam : st.self.camera = exampleOdometry.camera)
    (hO : st.self.observationVec = exampleOdometry.observationVec)
    (hC : st.self.cloud = exampleOdometry.cloud) (hp : st.pos % 3 = 0) :
    Odometry.Ransac.hypothesis ratExternal cycleRand (fuel + 1) exampleOdometry.TorigBase 4 st =
      Run.done ⟨exampleOdometry.TorigBase, [true, true, true, false], [], 3,
        st.pos + 1 + 1 + 1⟩ := by
  unfold Odometry.Ransac.hypothesis
  simp only
  rw [sampleLoop_congr ratExternal st.self exampleOdometry hT hB hC, hO]
  have h4 : exampleOdometry.observationVec.length = 4 := rfl
  rw [h4, exampleRun_sample fuel st.pos hp]
  simp only [Run.bind, hB, hcam, hO, hC]
  have hsolve : ∀ (a : Transformation ℚ) (b : CameraID) (c : List (Vector3d ℚ × Vector2d ℚ))
      (d : Option Nat) (p : Transformation ℚ), ratExternal.solveOdometry a b c d p = p :=
    fun _ _ _ _ _ => rfl
  rw [hsolve]
  have hc := exampleOdometry_first_count
  simp only [Run.done.injEq]
  show Hypothesis.mk _ _ _ _ _ = _
  congr 1
  · exact congrArg Prod.fst hc
  · exact congrArg Prod.snd hc

theorem exampleRun_loop (fuel n : Nat) (st : RansacState ℚ)
    (hT : st.self.TorigBase = exampleOdometry.TorigBase)
    (hB : st.self.TbaseCam = exampleOdometry.TbaseCam)
    (hcam : st.self.camera = exampleOdometry.camera)
    (hO : st.self.observationVec = exampleOdometry.observationVec)
    (hC : st.self.cloud = exampleOdometry.cloud) (hp : st.pos % 3 = 0) :
    ∃ st1, Odometry.Ransac.loop ratExternal cycleRand (fuel + 1) exampleOdometry.TorigBase 4 n st =
        Run.done st1 ∧ (1 ≤ n → 3 ≤ st1.bestInliers) := by
  induction n generalizing st with
  | zero => exact ⟨st, rfl, fun h => absurd h (by omega)⟩
  | succ n ih =>
    rw [Odometry.Ransac.loop, Odometry.Ransac.iteration,
      exampleRun_hypothesis fuel st hT hB hcam hO hC hp]
    simp only [Run.bind]
    have hk : 3 ≤ (Odometry.Ransac.keepBest st
        ⟨exampleOdometry.TorigBase, [true, true, true, false], [], 3,
          st.pos + 1 + 1 + 1⟩).bestInliers := by
      unfold Odometry.Ransac.keepBest
      by_cases hgt : (3 : Int) > st.bestInliers
      · simp [hgt]
      · simp only [hgt, if_false]
        omega
    obtain ⟨st1, h1, -⟩ := ih
      (Odometry.Ransac.keepBest st
        ⟨exampleOdometry.TorigBase, [true, true, true, false], [], 3, st.pos + 1 + 1 + 1⟩)
      (by unfold Odometry.Ransac.keepBest; split <;> simp [hT])
      (by unfold Odometry.Ransac.keepBest; split <;> simp [hB])
      (by unfold Odometry.Ransac.keepBest; split <;> simp [hcam])
      (by unfold Odometry.Ransac.keepBest; split <;> simp [hO])
      (by unfold Odometry.Ransac.keepBest; split <;> simp [hC])
      (by unfold Odometry.Ransac.keepBest; split <;> simp <;> omega)
    refine ⟨st1, h1, fun _ => ?_⟩
    exact le_trans hk (Ransac_loop_le _ _ _ _ _ _ _ _ h1)

/-- On `exampleOdometry` with the `rand()` sequence `cycleRand` all 300
iterations of `Ransac` complete and the best count is at least 3. -/
theorem exampleRun_Ransac :
    ∃ st, Odometry.Ransac ratExternal cycleRand 1 exampleOdometry 0 = Run.done st ∧
      3 ≤ st.bestInliers := by
  unfold Odometry.Ransac
  rw [if_neg (by decide)]
  obtain ⟨st, h, hb⟩ := exampleRun_loop 0 300
    { self := { exampleOdometry with
        inlierMask := resize exampleOdometry.inlierMask exampleOdometry.observationVec.length
          false },
      bestInliers := 0, pos := 0 } rfl rfl rfl rfl rfl rfl
  exact ⟨st, h, hb (by omega)⟩

/-- Witness of C19: `Ransac` returns on `exampleOdometry`, the best count is
positive and equals the number of true entries of the stored mask. -/
theorem ransac_mask_marks_inliers_witness :
    ∃ st, Odometry.Ransac ratExternal cycleRand 1 exampleOdometry 0 = Run.done st ∧
      0 < st.bestInliers ∧ (st.self.inlierMask.count true : Int) = st.bestInliers := by
  obtain ⟨st, h, hb⟩ := exampleRun_Ransac
  exact ⟨st, h, by omega,
    (ransac_mask_marks_inliers ratExternal cycleRand 1).2 exampleOdometry 0 st h (by omega)⟩

/-! ## C20: the inlier mask of `Ransac_2` -/

/-- A loop that keeps the smallest value seen so far and the index where it
was first seen, updating only on a strictly smaller value. -/
theorem foldl_range_min {R : Type} [LinearOrder R] (f : Nat → R) (e0 : R) (n : Nat) :
    ((List.range n).foldl
        (fun (acc : R × Nat) (j : Nat) => if f j < acc.1 then (f j, j) else acc) (e0, 0)).1 ≤ e0 ∧
      (∀ j, j < n →
        ((List.range n).foldl
          (fun (acc : R × Nat) (j : Nat) => if f j < acc.1 then (f j, j) else acc) (e0, 0)).1
            ≤ f j) ∧
      (((List.range n).foldl
          (fun (acc : R × Nat) (j : Nat) => if f j < acc.1 then (f j, j) else acc) (e0, 0)).1
            < e0 →
        ((List.range n).foldl
          (fun (acc : R × Nat) (j : Nat) => if f j < acc.1 then (f j, j) else acc) (e0, 0)).2
            < n ∧
        f ((List.range n).foldl
          (fun (acc : R × Nat) (j : Nat) => if f j < acc.1 then (f j, j) else acc) (e0, 0)).2 =
          ((List.range n).foldl
            (fun (acc : R × Nat) (j : Nat) => if f j < acc.1 then (f j, j) else acc)
            (e0, 0)).1 ∧
        ∀ k, k < ((List.range n).foldl
            (fun (acc : R × Nat) (j : Nat) => if f j < acc.1 then (f j, j) else acc)
            (e0, 0)).2 →
          ((List.range n).foldl
            (fun (acc : R × Nat) (j : Nat) => if f j < acc.1 then (f j, j) else acc)
            (e0, 0)).1 < f k) := by
  induction n with
  | zero => simp
  | succ n ih =>
    obtain ⟨h1, h2, h3⟩ := ih
    rw [List.range_succ, List.foldl_append]
    simp only [List.foldl_cons, List.foldl_nil]
    generalize (List.range n).foldl
      (fun (acc : R × Nat) (j : Nat) => if f j < acc.1 then (f j, j) else acc) (e0, 0) = r
      at h1 h2 h3
    by_cases hlt : f n < r.1
    · simp only [hlt, if_true]
      refine ⟨le_trans (le_of_lt hlt) h1, ?_, ?_⟩
      · intro j hj
        by_cases hjn : j = n
        · rw [hjn]
        · exact le_trans (le_of_lt hlt) (h2 j (by omega))
      · intro _
        refine ⟨by omega, trivial, ?_⟩
        intro k hk
        exact lt_of_lt_of_le hlt (h2 k hk)
    · simp only [hlt, if_false]
      refine ⟨h1, ?_, ?_⟩
      · intro j hj
        by_cases hjn : j = n
        · rw [hjn]
          exact not_lt.mp hlt
        · exact h2 j (by omega)
      · intro he
        obtain ⟨hb, hf, hk⟩ := h3 he
        exact ⟨by omega, hf, hk⟩

/-- What the inner loop of the inlier count of `Ransac_2` leaves for one pool:
the error is below 2 iff some pool entry is closer than 2 to the projection,
and then `best` is the first pool index that attains the smallest error. -/
theorem bestOfPool_spec {R : Type} [LinearOrderedField R] (ext : External R)
    (pool : List (Vector2d R)) (proj : Vector2d R) :
    ((Odometry.Ransac_2.bestOfPool ext pool proj).1 < 2 ↔
        ∃ j, j < pool.length ∧ poolError ext pool proj j < 2) ∧
      ((Odometry.Ransac_2.bestOfPool ext pool proj).1 < 2 →
        (Odometry.Ransac_2.bestOfPool ext pool proj).2 < pool.length) ∧
      (∀ j, ((Odometry.Ransac_2.bestOfPool ext pool proj).1 < 2 ∧
          j = (Odometry.Ransac_2.bestOfPool ext pool proj).2) ↔
        (j < pool.length ∧ poolError ext pool proj j < 2 ∧
          (∀ k, k < pool.length → poolError ext pool proj j ≤ poolError ext pool proj k) ∧
          ∀ k, k < j → poolError ext pool proj j < poolError ext pool proj k)) := by
  obtain ⟨h1, h2, h3⟩ := foldl_range_min (poolError ext pool proj) (1000000 : R) pool.length
  have hdef : Odometry.Ransac_2.bestOfPool ext pool proj =
      (List.range pool.length).foldl
        (fun (acc : R × Nat) (j : Nat) =>
          if poolError ext pool proj j < acc.1 then (poolError ext pool proj j, j) else acc)
        (1000000, 0) := rfl
  rw [← hdef] at h1 h2 h3
  generalize Odometry.Ransac_2.bestOfPool ext pool proj = r at h1 h2 h3
  have hbig : (2 : R) < 1000000 := by norm_num
  have hiff : r.1 < 2 ↔ ∃ j, j < pool.length ∧ poolError ext pool proj j < 2 := by
    constructor
    · intro he
      obtain ⟨hb, hf, -⟩ := h3 (lt_trans he hbig)
      exact ⟨r.2, hb, by rw [hf]; exact he⟩
    · rintro ⟨j, hj, hlt⟩
      exact lt_of_le_of_lt (h2 j hj) hlt
  refine ⟨hiff, ?_, ?_⟩
  · intro he
    exact (h3 (lt_trans he hbig)).1
  · intro j
    constructor
    · rintro ⟨he, rfl⟩
      obtain ⟨hb, hf, hk⟩ := h3 (lt_trans he hbig)
      refine ⟨hb, by rw [hf]; exact he, ?_, ?_⟩
      · intro k hk2
        rw [hf]
        exact h2 k hk2
      · intro k hk2
        rw [hf]
        exact hk k hk2
    · rintro ⟨hj, hlt, hmin, hfirst⟩
      have he : r.1 < 2 := lt_of_le_of_lt (h2 j hj) hlt
      obtain ⟨hb, hf, hk⟩ := h3 (lt_trans he hbig)
      refine ⟨he, ?_⟩
      rcases Nat.lt_trichotomy j r.2 with hjb | hjb | hjb
      · have := hk j hjb
        have h4 := hmin r.2 hb
        rw [hf] at h4
        exact absurd (lt_of_lt_of_le this h4) (lt_irrefl _)
      · exact hjb
      · have := hfirst r.2 hjb
        rw [hf] at this
        exact absurd (lt_of_lt_of_le this (h2 j hj)) (lt_irrefl _)

theorem filter_length_eq_filter_range {α : Type} (d : α) (l : List α) (n : Nat)
    (hl : l.length = n) (p : α → Bool) (c : Nat → Prop) [DecidablePred c]
    (h : ∀ i, i < n → p (l.getD i d) = decide (c i)) :
    (l.filter p).length = ((List.range n).filter (fun i => decide (c i))).length := by
  have hmap : l = (List.range n).map (fun i => l.getD i d) := by
    apply List.ext_getElem
    · simp [hl]
    · intro i h1 h2
      simp [List.getD_eq_getElem?_getD, List.getElem?_eq_getElem h1]
  have hfil : ((List.range n).map (fun i => l.getD i d)).filter p =
      ((List.range n).filter (fun i => decide (c i))).map (fun i => l.getD i d) := by
    rw [List.filter_map]
    congr 1
    apply List.filter_congr
    intro i hi
    exact h i (by simpa using hi)
  rw [congrArg (fun x => (List.filter p x).length) hmap, hfil, List.length_map]

theorem marked_row_spec (len b : Nat) (c : Prop) [Decidable c] (hb : c → b < len) (j : Nat) :
    (if c then (List.replicate len false).set b true else List.replicate len false)[j]? =
        some true ↔ c ∧ j = b := by
  by_cases hc : c
  · simp only [hc, if_true, true_and]
    by_cases hj : j = b
    · subst hj
      rw [List.getElem?_set_self (by simpa using hb hc)]
      simp
    · rw [List.getElem?_set_ne (fun e => hj e.symm)]
      simp only [hj, iff_false]
      intro h
      have hmem := List.getElem?_mem h
      simp at hmem
  · simp only [hc, if_false, false_and, iff_false]
    intro h
    have hmem := List.getElem?_mem h
    simp at hmem

theorem Ransac_2_countInliers_spec {R : Type} [LinearOrderedField R] (ext : External R)
    (observationVec_2 : List (List (Vector2d R))) (projVec : List (Vector2d R))
    (numPoints : Nat) :
    (Odometry.Ransac_2.countInliers ext observationVec_2 projVec numPoints).1.length =
        numPoints ∧
      (∀ i, i < numPoints →
        (Odometry.Ransac_2.countInliers ext observationVec_2 projVec numPoints).1.getD i [] =
          if (Odometry.Ransac_2.bestOfPool ext (observationVec_2.getD i [])
              (projVec.getD i default)).1 < 2 then
            (List.replicate (observationVec_2.getD i []).length false).set
              (Odometry.Ransac_2.bestOfPool ext (observationVec_2.getD i [])
                (projVec.getD i default)).2 true
          else List.replicate (observationVec_2.getD i []).length false) ∧
      (Odometry.Ransac_2.countInliers ext observationVec_2 projVec numPoints).2 =
        (((List.range numPoints).filter (fun i => decide
          ((Odometry.Ransac_2.bestOfPool ext (observationVec_2.getD i [])
            (projVec.getD i default)).1 < 2))).length : Int) := by
  have h := foldl_range_mark ([] : List Bool)
    (fun i => (Odometry.Ransac_2.bestOfPool ext (observationVec_2.getD i [])
      (projVec.getD i default)).1 < 2)
    (fun i row => row.set (Odometry.Ransac_2.bestOfPool ext (observationVec_2.getD i [])
      (projVec.getD i default)).2 true)
    numPoints
    ((List.range numPoints).map
      (fun (i : Nat) => List.replicate (observationVec_2.getD i []).length false))
  obtain ⟨hlen, hlt, -, hcnt⟩ := h
  have hinit : ∀ i, i < numPoints →
      ((List.range numPoints).map
        (fun (i : Nat) => List.replicate (observationVec_2.getD i []).length false)).getD i [] =
        List.replicate (observationVec_2.getD i []).length false := by
    intro i hi
    rw [List.getD_eq_getElem?_getD, List.getElem?_map, List.getElem?_range hi]
    rfl
  refine ⟨?_, ?_, ?_⟩
  · unfold Odometry.Ransac_2.countInliers
    exact hlen.trans (by simp)
  · intro i hi
    have := hlt i hi (by simpa using hi)
    rw [hinit i hi] at this
    unfold Odometry.Ransac_2.countInliers
    exact this
  · unfold Odometry.Ransac_2.countInliers
    exact hcnt

/-- What the inlier count of `Ransac_2` leaves in row `i` of the mask and in the
counter, in terms of the errors of the pool entries. -/
theorem Ransac_2_rows_spec {R : Type} [LinearOrderedField R] (ext : External R)
    (observationVec_2 : List (List (Vector2d R))) (projVec : List (Vector2d R))
    (numPoints : Nat) :
    (Odometry.Ransac_2.countInliers ext observationVec_2 projVec numPoints).1.length =
        numPoints ∧
      (∀ i, i < numPoints →
        ((Odometry.Ransac_2.countInliers ext observationVec_2 projVec numPoints).1.getD i
            []).length = (observationVec_2.getD i []).length ∧
        (true ∈ (Odometry.Ransac_2.countInliers ext observationVec_2 projVec numPoints).1.getD
            i [] ↔
          ∃ j, j < (observationVec_2.getD i []).length ∧
            poolError ext (observationVec_2.getD i []) (projVec.getD i default) j < 2) ∧
        (∀ j,
          ((Odometry.Ransac_2.countInliers ext observationVec_2 projVec numPoints).1.getD i
              [])[j]? = some true ↔
            (j < (observationVec_2.getD i []).length ∧
              poolError ext (observationVec_2.getD i []) (projVec.getD i default) j < 2 ∧
              (∀ k, k < (observationVec_2.getD i []).length →
                poolError ext (observationVec_2.getD i []) (projVec.getD i default) j ≤
                  poolError ext (observationVec_2.getD i []) (projVec.getD i default) k) ∧
              ∀ k, k < j →
                poolError ext (observationVec_2.getD i []) (projVec.getD i default) j <
                  poolError ext (observationVec_2.getD i []) (projVec.getD i default) k))) ∧
      (Odometry.Ransac_2.countInliers ext observationVec_2 projVec numPoints).2 =
        (((Odometry.Ransac_2.countInliers ext observationVec_2 projVec numPoints).1.filter
          (fun row => row.contains true)).length : Int) := by
  obtain ⟨hlen, hrow, hcnt⟩ := Ransac_2_countInliers_spec ext observationVec_2 projVec numPoints
  have hrowj : ∀ i, i < numPoints → ∀ j,
      ((Odometry.Ransac_2.countInliers ext observationVec_2 projVec numPoints).1.getD i [])[j]?
          = some true ↔
        ((Odometry.Ransac_2.bestOfPool ext (observationVec_2.getD i [])
            (projVec.getD i default)).1 < 2 ∧
          j = (Odometry.Ransac_2.bestOfPool ext (observationVec_2.getD i [])
            (projVec.getD i default)).2) := by
    intro i hi j
    rw [hrow i hi]
    exact marked_row_spec _ _ _
      (bestOfPool_spec ext (observationVec_2.getD i []) (projVec.getD i default)).2.1 j
  have hmem : ∀ i, i < numPoints →
      (true ∈ (Odometry.Ransac_2.countInliers ext observationVec_2 projVec numPoints).1.getD i []
        ↔ (Odometry.Ransac_2.bestOfPool ext (observationVec_2.getD i [])
            (projVec.getD i default)).1 < 2) := by
    intro i hi
    constructor
    · intro hin
      obtain ⟨j, hj⟩ := List.getElem?_of_mem hin
      exact ((hrowj i hi j).mp hj).1
    · intro hc
      exact List.getElem?_mem ((hrowj i hi _).mpr ⟨hc, rfl⟩)
  refine ⟨hlen, ?_, ?_⟩
  · intro i hi
    refine ⟨?_, ?_, ?_⟩
    · rw [hrow i hi]
      split <;> simp
    · rw [hmem i hi]
      exact (bestOfPool_spec ext (observationVec_2.getD i []) (projVec.getD i default)).1
    · intro j
      rw [hrowj i hi j]
      exact (bestOfPool_spec ext (observationVec_2.getD i []) (projVec.getD i default)).2.2 j
  · rw [hcnt]
    congr 1
    symm
    apply filter_length_eq_filter_range [] _ numPoints hlen
    intro i hi
    show ((Odometry.Ransac_2.countInliers ext observationVec_2 projVec numPoints).1.getD i
      []).contains true = _
    rw [Bool.eq_iff_iff, List.contains_iff_exists_mem_beq, decide_eq_true_iff, ← hmem i hi]
    constructor
    · rintro ⟨a, ha, hb⟩
      have : a = true := by simpa using hb.symm
      rw [← this]
      exact ha
    · intro hin
      exact ⟨true, hin, by simp⟩

/-- C20. In every iteration of `Ransac_2` that reaches the inlier count, row `i`
of the current mask has the length of the pool of landmark `i`; the row
contains a true entry, and the landmark is counted, iff some entry of the pool
is closer than 2 to the projection of the landmark, that is iff the minimum
error over the pool is below 2; entry `j` of the row is true iff `j` is the
first pool index attaining that minimum, so a row has at most one true entry;
and the inlier count is the number of rows that contain a true entry. -/
theorem ransac_2_mask_rows {R : Type} [LinearOrderedField R] (ext : External R)
    (rand : Nat → Nat) (fuel : Nat) (initialPose : Transformation R) (numPoints : Nat)
    (st : RansacState R) (h : Hypothesis R)
    (hh : Odometry.Ransac_2.hypothesis ext rand fuel initialPose numPoints st = Run.done h) :
    h.currentInlierMask_2.length = numPoints ∧
      (∀ i, i < numPoints → i < st.self.cloud.length →
        (h.currentInlierMask_2.getD i []).length = (st.self.observationVec_2.getD i []).length ∧
        (true ∈ h.currentInlierMask_2.getD i [] ↔
          ∃ j, j < (st.self.observationVec_2.getD i []).length ∧
            poolError ext (st.self.observationVec_2.getD i [])
              (ext.projectPoint st.self.camera
                (ext.inverseTransform (ext.compose h.pose st.self.TbaseCam)
                  (st.self.cloud.getD i default))).1 j < 2) ∧
        (∀ j, (h.currentInlierMask_2.getD i [])[j]? = some true ↔
          (j < (st.self.observationVec_2.getD i []).length ∧
            poolError ext (st.self.observationVec_2.getD i [])
              (ext.projectPoint st.self.camera
                (ext.inverseTransform (ext.compose h.pose st.self.TbaseCam)
                  (st.self.cloud.getD i default))).1 j < 2 ∧
            (∀ k, k < (st.self.observationVec_2.getD i []).length →
              poolError ext (st.self.observationVec_2.getD i [])
                (ext.projectPoint st.self.camera
                  (ext.inverseTransform (ext.compose h.pose st.self.TbaseCam)
                    (st.self.cloud.getD i default))).1 j ≤
              poolError ext (st.self.observationVec_2.getD i [])
                (ext.projectPoint st.self.camera
                  (ext.inverseTransform (ext.compose h.pose st.self.TbaseCam)
                    (st.self.cloud.getD i default))).1 k) ∧
            ∀ k, k < j →
              poolError ext (st.self.observationVec_2.getD i [])
                (ext.projectPoint st.self.camera
                  (ext.inverseTransform (ext.compose h.pose st.self.TbaseCam)
                    (st.self.cloud.getD i default))).1 j <
              poolError ext (st.self.observationVec_2.getD i [])
                (ext.projectPoint st.self.camera
                  (ext.inverseTransform (ext.compose h.pose st.self.TbaseCam)
                    (st.self.cloud.getD i default))).1 k)) ∧
        (∀ j k : Nat, (h.currentInlierMask_2.getD i [])[j]? = some true →
          (h.currentInlierMask_2.getD i [])[k]? = some true → j = k)) ∧
      h.countInliers =
        ((h.currentInlierMask_2.filter (fun row => row.contains true)).length : Int) := by
  unfold Odometry.Ransac_2.hypothesis at hh
  rw [Run.bind_eq_done] at hh
  obtain ⟨s, -, hh⟩ := hh
  rw [Run.bind_eq_done] at hh
  obtain ⟨p1, -, hh⟩ := hh
  rw [Run.bind_eq_done] at hh
  obtain ⟨p2, -, hh⟩ := hh
  rw [Run.bind_eq_done] at hh
  obtain ⟨p3, -, hs⟩ := hh
  simp only [Run.done.injEq] at hs
  subst hs
  simp only
  generalize ext.solveOdometry st.self.TbaseCam st.self.camera
    (([s.idx1m, s.idx2m, s.idx3m].zip [p1.1, p2.1, p3.1]).map fun ij =>
      (st.self.cloud.getD ij.1 default,
        (st.self.observationVec_2.getD ij.1 []).getD ij.2 default))
    (some 10) initialPose = pose
  obtain ⟨hlen, hrows, hcnt⟩ := Ransac_2_rows_spec ext st.self.observationVec_2
    (ext.projectPointCloud st.self.camera
      (st.self.cloud.map (ext.inverseTransform (ext.compose pose st.self.TbaseCam))))
    numPoints
  refine ⟨hlen, ?_, hcnt⟩
  intro i hi hic
  have hproj : (ext.projectPointCloud st.self.camera
      (st.self.cloud.map (ext.inverseTransform (ext.compose pose st.self.TbaseCam)))).getD i
        default =
      (ext.projectPoint st.self.camera
        (ext.inverseTransform (ext.compose pose st.self.TbaseCam)
          (st.self.cloud.getD i default))).1 := by
    unfold External.projectPointCloud
    rw [List.getD_eq_getElem?_getD, List.getD_eq_getElem?_getD, List.getElem?_map,
      List.getElem?_map, List.getElem?_eq_getElem hic]
    rfl
  obtain ⟨h1, h2, h3⟩ := hrows i hi
  rw [hproj] at h2 h3
  refine ⟨h1, h2, h3, ?_⟩
  intro j k hj hk
  obtain ⟨-, -, hjmin, hjfirst⟩ := (h3 j).mp hj
  obtain ⟨hklen, -, hkmin, hkfirst⟩ := (h3 k).mp hk
  obtain ⟨hjlen, -⟩ := (h3 j).mp hj
  rcases Nat.lt_trichotomy j k with hjk | hjk | hjk
  · exact absurd (lt_of_lt_of_le (hkfirst j hjk) (hjmin k hklen)) (lt_irrefl _)
  · exact hjk
  · exact absurd (lt_of_lt_of_le (hjfirst k hjk) (hkmin j hjlen)) (lt_irrefl _)

theorem exampleOdometry_span_012_pool :
    exampleOdometry.checkSpan ratExternal [exampleOdometry.cloud.getD 0 default,
      exampleOdometry.cloud.getD 1 default, exampleOdometry.cloud.getD 2 default] 0.15 =
      Run.done true := by
  norm_num [Odometry.checkSpan, Odometry.checkSpan.theta, Odometry.checkSpan.apart, ratExternal,
    translationExternal, exampleOdometry, Vector3d.dot, Vector3d.norm, Vector3d.sub,
    Vector3d.add, newtonSqrt, seriesAcos, List.range, List.range.loop, abs_le, le_abs]

theorem exampleOdometry_hypothesis_2 :
    ∃ h, Odometry.Ransac_2.hypothesis ratExternal (fun n => n) 10 exampleOdometry.TorigBase 4
      exampleStart = Run.done h := by
  have hs : exampleStart.self.sampleLoop ratExternal (fun n => n)
      exampleStart.self.observationVec_2.length (0.15 : ℚ) 10 10000 0 exampleStart.pos =
      Run.done ⟨0, 1, 2, 3⟩ :=
    sampleLoop_pass_accept ratExternal exampleOdometry (fun n => n) 4 0.15 10 9999 0 0 1 2 2 3
      (by decide) (by decide) (by decide) (by decide) exampleOdometry_span_012_pool
  unfold Odometry.Ransac_2.hypothesis
  simp only [hs, Run.bind]
  exact ⟨_, rfl⟩

/-- Witness of C20: the first iteration of `Ransac_2` on `exampleOdometry`
reaches the inlier count with a mask of four rows. -/
theorem ransac_2_mask_rows_witness :
    ∃ h, Odometry.Ransac_2.hypothesis ratExternal (fun n => n) 10 exampleOdometry.TorigBase 4
        exampleStart = Run.done h ∧
      h.currentInlierMask_2.length = 4 ∧
      h.countInliers =
        ((h.currentInlierMask_2.filter (fun row => row.contains true)).length : Int) := by
  obtain ⟨h, hh⟩ := exampleOdometry_hypothesis_2
  have hspec := ransac_2_mask_rows ratExternal (fun n => n) 10 exampleOdometry.TorigBase 4
    exampleStart h hh
  exact ⟨h, hh, hspec.1, hspec.2.2⟩

/-! ## C16, C17: the analytic Jacobians of the cost functors -/

/-- The zero rotation has the identity as its rotation matrix and as `LxiInv`. -/
theorem zeroRotation_matrices :
    exampleEval.rotationMatrix zeroRotation.neg = 1 ∧ LxiInv exampleEval zeroRotation = 1 := by
  constructor
  · ext i j
    fin_cases i <;> fin_cases j <;>
      simp [exampleEval, hat, Vector3d.neg, zeroRotation, Matrix.vecHead, Matrix.vecTail]
  · simp [LxiInv, exampleEval, Vector3d.dot, newtonSqrt, zeroRotation]

/-- The camera-frame point of the concrete evaluation is (1, 0, 1). -/
theorem cameraPoint_example :
    (exampleStereoError.RcamBase.mulVec3
      ((exampleEval.rotationMatrix zeroRotation.neg).mulVec3
        (exampleLandmark.sub exampleTranslation))).add exampleStereoError.PcamBase
      = ⟨1, 0, 1⟩ := by
  rw [zeroRotation_matrices.1]
  simp [exampleStereoError, Matrix3d.mulVec3, Vector3d.sub, Vector3d.add, exampleLandmark,
    exampleTranslation, Matrix.one_apply]
  norm_num

/-- C16, counterexample: for the landmark (1, 0, 2) seen from the pose with
translation (0, 0, 1) and zero rotation, the camera-frame point is (1, 0, 1);
the entry (0, 1) of the block written to `jac[2]` is -2, while the matrix
`J * hat(X) * Rco * LxiInv` formed with the landmark `X` has -3 there. -/
theorem stereo_rotation_block_counterexample :
    (exampleStereoError.Evaluate exampleEval exampleLandmark exampleTranslation zeroRotation
        true).2.map (fun j => j.2.2 0 1) = some (-2)
      ∧ (exampleEval.projectionJacobian ⟨1, 0, 1⟩ * hat exampleLandmark
          * (exampleStereoError.RcamBase * exampleEval.rotationMatrix zeroRotation.neg)
          * LxiInv exampleEval zeroRotation) 0 1 = -3 := by
  constructor
  · unfold ReprojectionErrorStereo.Evaluate
    simp only [if_true, Option.map_some', cameraPoint_example]
    rw [zeroRotation_matrices.1, zeroRotation_matrices.2]
    simp only [exampleStereoError, mul_one]
    norm_num [exampleEval, hat, Matrix.mul_apply, Fin.sum_univ_three]
  · rw [zeroRotation_matrices.1, zeroRotation_matrices.2]
    simp only [exampleStereoError, mul_one]
    norm_num [exampleEval, hat, Matrix.mul_apply, Fin.sum_univ_three, exampleLandmark]

/-- C16, amended: with `Xc = RcamBase * (R(-w) * (X - t)) + PcamBase` the
camera-frame point, `J` the projection Jacobian at `Xc` and
`Rco = RcamBase * R(-w)`, `ReprojectionErrorStereo::Evaluate` returns the
residual `projectPoint(Xc) - (u, v)` and writes `J * Rco` to `jac[0]`, its
exact negation to `jac[1]` and `J * hat(Xc) * Rco * LxiInv` to `jac[2]`: the
cross-product matrix is that of the camera-frame point, not of the landmark.
Without a Jacobian request only the residual is produced. -/
theorem stereo_jacobian_blocks {R : Type} [Field R] [DecidableEq R] (m : EvalExternal R)
    (self : ReprojectionErrorStereo R) (X t w : Vector3d R) :
    let Xc := (self.RcamBase.mulVec3 ((m.rotationMatrix w.neg).mulVec3 (X.sub t))).add
      self.PcamBase
    let J := m.projectionJacobian Xc
    let Rco := self.RcamBase * m.rotationMatrix w.neg
    self.Evaluate m X t w true
        = (⟨(m.projectPoint Xc).x - self.u, (m.projectPoint Xc).y - self.v⟩,
            some (J * Rco, -(J * Rco), J * hat Xc * Rco * LxiInv m w))
      ∧ self.Evaluate m X t w false
        = (⟨(m.projectPoint Xc).x - self.u, (m.projectPoint Xc).y - self.v⟩, none) := by
  intro Xc J Rco
  constructor
  · simp [ReprojectionErrorStereo.Evaluate, Xc, J, Rco]
  · simp [ReprojectionErrorStereo.Evaluate, Xc]

/-- The matrix `LxiInv` written out: the identity when `theta = |w|` is 0, and
otherwise `I + (theta/2) sinc(theta/2) u + (1 - sinc(theta)) u u` with
`u = hat(w / theta)`. -/
theorem LxiInv_explicit {R : Type} [Field R] [DecidableEq R] (m : EvalExternal R)
    (w : Vector3d R) :
    LxiInv m w =
      if m.sqrt (w.dot w) = 0 then 1
      else 1
        + (m.sqrt (w.dot w) / 2 * sinc m (m.sqrt (w.dot w) / 2))
            • hat (w.divScalar (m.sqrt (w.dot w)))
        + (1 - sinc m (m.sqrt (w.dot w)))
            • (hat (w.divScalar (m.sqrt (w.dot w))) * hat (w.divScalar (m.sqrt (w.dot w)))) := by
  unfold LxiInv
  by_cases h : m.sqrt (w.dot w) = 0
  · simp [h]
  · simp [h, Matrix.smul_mul]

theorem unitRotation_theta : exampleEval.sqrt (unitRotation.dot unitRotation) = 1 := by
  norm_num [exampleEval, newtonSqrt, unitRotation, Vector3d.dot, List.range, List.range.loop]

theorem zero_dot_zero {R : Type} [Field R] : (⟨0, 0, 0⟩ : Vector3d R).dot ⟨0, 0, 0⟩ = 0 := by
  simp [Vector3d.dot]

/-- C17. Both `Evaluate` functions end their rotation block with the same
matrix: `OdometryError::Evaluate` writes `-J*Rco` and `J*hat(Xtr)*Rco*Linv`,
`ReprojectionErrorStereo::Evaluate` writes `J*Rco`, `-J*Rco` and
`J*hat(Xc)*Rco*Linv`, where `Linv` is the identity when `theta = |w|` is 0 and
`I + (theta/2) sinc(theta/2) u + (1 - sinc(theta)) u u` with `u = hat(w/theta)`
otherwise. At `w = 0` the rotation blocks are `J*hat(Xtr)*Rco` and
`J*hat(Xc)*Rco`: `Linv` is the identity exactly. `sinc 0` is 1 and `sinc x` is
`sin x / x` for every other `x`. -/
theorem LxiInv_cases {R : Type} [Field R] [DecidableEq R] (m : EvalExternal R)
    (hsqrt : m.sqrt 0 = 0) :
    (∀ (self : OdometryError R) (t w : Vector3d R),
      let Xtr := (self.RcamBase.mulVec3 ((m.rotationMatrix w.neg).mulVec3 (self.X.sub t))).add
        self.PcamBase
      let J := m.projectionJacobian Xtr
      let Rco := self.RcamBase * m.rotationMatrix w.neg
      let theta := m.sqrt (w.dot w)
      let u := hat (w.divScalar theta)
      (self.Evaluate m t w true).2 = some
        (-J * Rco,
          J * hat Xtr * Rco *
            (if theta = 0 then 1
              else 1 + (theta / 2 * sinc m (theta / 2)) • u
                + (1 - sinc m theta) • (u * u))))
      ∧ (∀ (self : ReprojectionErrorStereo R) (X t w : Vector3d R),
        let Xc := (self.RcamBase.mulVec3 ((m.rotationMatrix w.neg).mulVec3 (X.sub t))).add
          self.PcamBase
        let J := m.projectionJacobian Xc
        let Rco := self.RcamBase * m.rotationMatrix w.neg
        let theta := m.sqrt (w.dot w)
        let u := hat (w.divScalar theta)
        (self.Evaluate m X t w true).2 = some
          (J * Rco, -(J * Rco),
            J * hat Xc * Rco *
              (if theta = 0 then 1
                else 1 + (theta / 2 * sinc m (theta / 2)) • u
                  + (1 - sinc m theta) • (u * u))))
      ∧ (∀ (self : OdometryError R) (t : Vector3d R),
        let Xtr := (self.RcamBase.mulVec3
          ((m.rotationMatrix (Vector3d.neg ⟨0, 0, 0⟩)).mulVec3 (self.X.sub t))).add self.PcamBase
        (self.Evaluate m t ⟨0, 0, 0⟩ true).2 = some
          (-(m.projectionJacobian Xtr) *
              (self.RcamBase * m.rotationMatrix (Vector3d.neg ⟨0, 0, 0⟩)),
            m.projectionJacobian Xtr * hat Xtr *
              (self.RcamBase * m.rotationMatrix (Vector3d.neg ⟨0, 0, 0⟩))))
      ∧ (∀ (self : ReprojectionErrorStereo R) (X t : Vector3d R),
        let Xc := (self.RcamBase.mulVec3
          ((m.rotationMatrix (Vector3d.neg ⟨0, 0, 0⟩)).mulVec3 (X.sub t))).add self.PcamBase
        (self.Evaluate m X t ⟨0, 0, 0⟩ true).2.map (fun j => j.2.2) = some
          (m.projectionJacobian Xc * hat Xc *
            (self.RcamBase * m.rotationMatrix (Vector3d.neg ⟨0, 0, 0⟩))))
      ∧ LxiInv m ⟨0, 0, 0⟩ = 1
      ∧ sinc m 0 = 1
      ∧ (∀ x : R, x ≠ 0 → sinc m x = m.sin x / x) := by
  have h0 : LxiInv m ⟨0, 0, 0⟩ = 1 := by
    rw [LxiInv_explicit, zero_dot_zero, if_pos hsqrt]
  refine ⟨?_, ?_, ?_, ?_, h0, ?_, ?_⟩
  · intro self t w
    simp only [OdometryError.Evaluate, if_true, LxiInv_explicit]
  · intro self X t w
    simp only [ReprojectionErrorStereo.Evaluate, if_true, LxiInv_explicit, neg_smul, one_smul]
  · intro self t
    simp only [OdometryError.Evaluate, if_true, h0, Matrix.mul_one]
  · intro self X t
    simp only [ReprojectionErrorStereo.Evaluate, if_true, h0, Matrix.mul_one, Option.map_some']
  · simp [sinc]
  · intro x hx
    simp [sinc, hx]

/-- C17, witness: the concrete collaborators have `sqrt 0 = 0`; at the zero
rotation the rotation block of `exampleOdometryError` is `J*hat(Xtr)*Rco`, the
matrix `LxiInv` being the identity; at the rotation (0, 0, 1), where `theta` is
1, the rotation block of `exampleStereoError` ends with
`I + (1/2) sinc(1/2) u + (1 - sinc(1)) u u`, `u = hat(w/1)`. -/
theorem LxiInv_cases_witness :
    exampleEval.sqrt 0 = 0 ∧ LxiInv exampleEval ⟨0, 0, 0⟩ = 1 ∧
      (let Xtr := (exampleOdometryError.RcamBase.mulVec3
          ((exampleEval.rotationMatrix (Vector3d.neg ⟨0, 0, 0⟩)).mulVec3
            (exampleOdometryError.X.sub exampleTranslation))).add exampleOdometryError.PcamBase;
        (exampleOdometryError.Evaluate exampleEval exampleTranslation ⟨0, 0, 0⟩ true).2 = some
          (-(exampleEval.projectionJacobian Xtr) *
              (exampleOdometryError.RcamBase *
                exampleEval.rotationMatrix (Vector3d.neg ⟨0, 0, 0⟩)),
            exampleEval.projectionJacobian Xtr * hat Xtr *
              (exampleOdometryError.RcamBase *
                exampleEval.rotationMatrix (Vector3d.neg ⟨0, 0, 0⟩)))) ∧
      exampleEval.sqrt (unitRotation.dot unitRotation) = 1 ∧
      (let Xc := (exampleStereoError.RcamBase.mulVec3
          ((exampleEval.rotationMatrix unitRotation.neg).mulVec3
            (exampleLandmark.sub exampleTranslation))).add exampleStereoError.PcamBase;
        let J := exampleEval.projectionJacobian Xc;
        let Rco := exampleStereoError.RcamBase * exampleEval.rotationMatrix unitRotation.neg;
        let u := hat (unitRotation.divScalar 1);
        (exampleStereoError.Evaluate exampleEval exampleLandmark exampleTranslation unitRotation
            true).2 = some
          (J * Rco, -(J * Rco),
            J * hat Xc * Rco *
              (1 + ((1 : ℚ) / 2 * sinc exampleEval (1 / 2)) • u
                + (1 - sinc exampleEval 1) • (u * u)))) := by
  have hs : exampleEval.sqrt 0 = 0 := by simp [exampleEval, newtonSqrt]
  have h := (LxiInv_cases exampleEval hs).2.1 exampleStereoError exampleLandmark
    exampleTranslation unitRotation
  simp only [unitRotation_theta, one_ne_zero, if_false] at h
  exact ⟨hs, (LxiInv_cases exampleEval hs).2.2.2.2.1,
    (LxiInv_cases exampleEval hs).2.2.1 exampleOdometryError exampleTranslation,
    unitRotation_theta, h⟩

/-! ## C14: the views flagged by the residual analysis -/

theorem residualAnalysis_corner_spec {R : Type} [LinearOrderedField R] [FloorRing R]
    (self : GenericCameraCalibration R) (ptIdx i : Nat) (p pModel : Vector2d R)
    (acc : AnalysisState R × Bool) :
    (residualAnalysis.corner self ptIdx i p pModel acc).1.shown = acc.1.shown
      ∧ ((residualAnalysis.corner self ptIdx i p pModel acc).2 = true ↔
          acc.2 = true ∨ (self.outlierThresh ≠ 0 ∧
            (p.sub pModel).x * (p.sub pModel).x + (p.sub pModel).y * (p.sub pModel).y
              > self.outlierThresh * self.outlierThresh)) := by
  constructor
  · unfold residualAnalysis.corner
    simp only [plotIncrement]
    split_ifs <;> rfl
  · unfold residualAnalysis.corner
    simp only []
    split_ifs with h1
    all_goals simp only [decide_eq_true_eq] at h1
    all_goals tauto

theorem residualAnalysis_corners_spec {R : Type} [LinearOrderedField R] [FloorRing R]
    (self : GenericCameraCalibration R) (ptIdx : Nat) (proj model : List (Vector2d R))
    (a0 : AnalysisState R × Bool) (n : Nat) (hp : n ≤ proj.length) (hm : n ≤ model.length) :
    ∃ a, (List.range n).foldl
          (fun (acc : Run (AnalysisState R × Bool)) (i : Nat) =>
            acc.bind fun a =>
              match proj[i]?, model[i]? with
              | some p, some pModel => Run.done (residualAnalysis.corner self ptIdx i p pModel a)
              | _, _ => Run.undefinedBehaviour)
          (Run.done a0) = Run.done a
      ∧ a.1.shown = a0.1.shown
      ∧ (a.2 = true ↔ a0.2 = true ∨ (self.outlierThresh ≠ 0 ∧ ∃ i : Nat, i < n ∧
          ((proj.getD i default).sub (model.getD i default)).x *
              ((proj.getD i default).sub (model.getD i default)).x +
            ((proj.getD i default).sub (model.getD i default)).y *
              ((proj.getD i default).sub (model.getD i default)).y
            > self.outlierThresh * self.outlierThresh)) := by
  induction n with
  | zero => exact ⟨a0, rfl, rfl, by simp⟩
  | succ n ih =>
    obtain ⟨a, hrun, hshown, hflag⟩ := ih (by omega) (by omega)
    have hpn : n < proj.length := by omega
    have hmn : n < model.length := by omega
    rw [List.range_succ, List.foldl_append, hrun]
    simp only [List.foldl_cons, List.foldl_nil, Run.bind_done,
      List.getElem?_eq_getElem hpn, List.getElem?_eq_getElem hmn]
    have hc := residualAnalysis_corner_spec self ptIdx n proj[n] model[n] a
    refine ⟨_, rfl, hc.1.trans hshown, ?_⟩
    rw [hc.2, hflag]
    have hgp : proj.getD n default = proj[n] := List.getD_eq_getElem _ _ hpn
    have hgm : model.getD n default = model[n] := List.getD_eq_getElem _ _ hmn
    constructor
    · rintro ((h | ⟨ht, i, hi, hbad⟩) | ⟨ht, hbad⟩)
      · exact Or.inl h
      · exact Or.inr ⟨ht, i, by omega, hbad⟩
      · exact Or.inr ⟨ht, n, by omega, by rw [hgp, hgm]; exact hbad⟩
    · rintro (h | ⟨ht, i, hi, hbad⟩)
      · exact Or.inl (Or.inl h)
      · rcases Nat.lt_succ_iff_lt_or_eq.mp hi with hlt | heq
        · exact Or.inl (Or.inr ⟨ht, i, hlt, hbad⟩)
        · subst heq
          rw [hgp, hgm] at hbad
          exact Or.inr ⟨ht, hbad⟩

theorem residualAnalysis_view_spec {R : Type} [LinearOrderedField R] [FloorRing R]
    (ext : External R) (geo : AnalysisExternal R) (self : GenericCameraCalibration R)
    (camera : CameraID) (TrefCam : Transformation R) (st : AnalysisState R) (ptIdx : Nat)
    (data : CalibrationData R) (hext : data.extrinsic ≠ none)
    (hp : toUInt32 (toInt32 (self.Nx * self.Ny)) ≤ data.projection.length)
    (hm : toUInt32 (toInt32 (self.Nx * self.Ny)) ≤ self.grid.length) :
    ∃ st1, residualAnalysis.view ext geo self camera TrefCam st ptIdx data = Run.done st1
      ∧ ((self.outlierThresh ≠ 0 ∧ ∃ i : Nat, i < toUInt32 (toInt32 (self.Nx * self.Ny)) ∧
            (residualAnalysis.delta ext geo self camera TrefCam data i).x *
                (residualAnalysis.delta ext geo self camera TrefCam data i).x +
              (residualAnalysis.delta ext geo self camera TrefCam data i).y *
                (residualAnalysis.delta ext geo self camera TrefCam data i).y
              > self.outlierThresh * self.outlierThresh) → st1.shown = st.shown ++ [ptIdx])
      ∧ (¬ (self.outlierThresh ≠ 0 ∧ ∃ i : Nat, i < toUInt32 (toInt32 (self.Nx * self.Ny)) ∧
            (residualAnalysis.delta ext geo self camera TrefCam data i).x *
                (residualAnalysis.delta ext geo self camera TrefCam data i).x +
              (residualAnalysis.delta ext geo self camera TrefCam data i).y *
                (residualAnalysis.delta ext geo self camera TrefCam data i).y
              > self.outlierThresh * self.outlierThresh) → st1.shown = st.shown) := by
  obtain ⟨e, he⟩ := Option.ne_none_iff_exists'.mp hext
  have hlen : (residualAnalysis.projModelVec ext geo self camera TrefCam e).length
      = self.grid.length := by
    simp [residualAnalysis.projModelVec, External.projectPointCloud]
  obtain ⟨a, hrun, hshown, hflag⟩ := residualAnalysis_corners_spec self ptIdx data.projection
    (residualAnalysis.projModelVec ext geo self camera TrefCam e) (st, false)
    (toUInt32 (toInt32 (self.Nx * self.Ny))) hp (by rw [hlen]; exact hm)
  have hd : ∀ i, residualAnalysis.delta ext geo self camera TrefCam data i
      = (data.projection.getD i default).sub
        ((residualAnalysis.projModelVec ext geo self camera TrefCam e).getD i default) := by
    intro i
    simp [residualAnalysis.delta, he]
  simp only [hd]
  unfold residualAnalysis.view
  rw [he]
  simp only []
  rw [hrun, Run.bind_done]
  simp only [Bool.false_eq_true, false_or] at hflag
  refine ⟨_, rfl, ?_, ?_⟩
  · intro h
    rw [if_pos (hflag.mpr h)]
    simp [hshown]
  · intro h
    have h2 : ¬ a.2 = true := fun ha => h (hflag.mp ha)
    rw [if_neg h2]
    exact hshown

theorem residualAnalysis_views_spec {R : Type} [LinearOrderedField R] [FloorRing R]
    (ext : External R) (geo : AnalysisExternal R) (self : GenericCameraCalibration R)
    (camera : CameraID) (calibDataVec : List (CalibrationData R)) (TrefCam : Transformation R)
    (st0 : AnalysisState R)
    (hviews : ∀ data ∈ calibDataVec, data.extrinsic ≠ none ∧
      toUInt32 (toInt32 (self.Nx * self.Ny)) ≤ data.projection.length)
    (hgrid : toUInt32 (toInt32 (self.Nx * self.Ny)) ≤ self.grid.length)
    (m : Nat) (hm : m ≤ calibDataVec.length) :
    ∃ st, (List.range m).foldl
          (fun (acc : Run (AnalysisState R)) (ptIdx : Nat) =>
            acc.bind fun st =>
              match calibDataVec[ptIdx]? with
              | some data => residualAnalysis.view ext geo self camera TrefCam st ptIdx data
              | none => Run.undefinedBehaviour)
          (Run.done st0) = Run.done st
      ∧ ∀ k : Nat, k ∈ st.shown ↔ k ∈ st0.shown ∨ (k < m ∧ ∃ data, calibDataVec[k]? = some data ∧
          self.outlierThresh ≠ 0 ∧ ∃ i : Nat, i < toUInt32 (toInt32 (self.Nx * self.Ny)) ∧
            (residualAnalysis.delta ext geo self camera TrefCam data i).x *
                (residualAnalysis.delta ext geo self camera TrefCam data i).x +
              (residualAnalysis.delta ext geo self camera TrefCam data i).y *
                (residualAnalysis.delta ext geo self camera TrefCam data i).y
              > self.outlierThresh * self.outlierThresh) := by
  induction m with
  | zero => exact ⟨st0, rfl, by simp⟩
  | succ m ih =>
    obtain ⟨st, hrun, hshown⟩ := ih (by omega)
    have hlt : m < calibDataVec.length := by omega
    have hget : calibDataVec[m]? = some calibDataVec[m] := List.getElem?_eq_getElem hlt
    have hmem : calibDataVec[m] ∈ calibDataVec := List.getElem_mem hlt
    obtain ⟨st1, hview, hyes, hno⟩ := residualAnalysis_view_spec ext geo self camera TrefCam st m
      calibDataVec[m] (hviews _ hmem).1 (hviews _ hmem).2 hgrid
    rw [List.range_succ, List.foldl_append, hrun]
    simp only [List.foldl_cons, List.foldl_nil, Run.bind_done, hget]
    refine ⟨st1, hview, ?_⟩
    intro k
    by_cases hflag : self.outlierThresh ≠ 0 ∧
        ∃ i : Nat, i < toUInt32 (toInt32 (self.Nx * self.Ny)) ∧
          (residualAnalysis.delta ext geo self camera TrefCam calibDataVec[m] i).x *
              (residualAnalysis.delta ext geo self camera TrefCam calibDataVec[m] i).x +
            (residualAnalysis.delta ext geo self camera TrefCam calibDataVec[m] i).y *
              (residualAnalysis.delta ext geo self camera TrefCam calibDataVec[m] i).y
            > self.outlierThresh * self.outlierThresh
    · rw [hyes hflag, List.mem_append, hshown k, List.mem_singleton]
      constructor
      · rintro ((h | ⟨hk, h⟩) | rfl)
        · exact Or.inl h
        · exact Or.inr ⟨by omega, h⟩
        · exact Or.inr ⟨by omega, _, hget, hflag⟩
      · rintro (h | ⟨hk, data, hdata, h⟩)
        · exact Or.inl (Or.inl h)
        · rcases Nat.lt_succ_iff_lt_or_eq.mp hk with hk1 | rfl
          · exact Or.inl (Or.inr ⟨hk1, data, hdata, h⟩)
          · exact Or.inr rfl
    · rw [hno hflag, hshown k]
      constructor
      · rintro (h | ⟨hk, h⟩)
        · exact Or.inl h
        · exact Or.inr ⟨by omega, h⟩
      · rintro (h | ⟨hk, data, hdata, h⟩)
        · exact Or.inl h
        · rcases Nat.lt_succ_iff_lt_or_eq.mp hk with hk1 | rfl
          · exact Or.inr ⟨hk1, data, hdata, h⟩
          · rw [hget] at hdata
            cases hdata
            exact absurd h hflag

theorem sq_gt_iff_sqrt_gt {R : Type} [LinearOrderedField R] (sqrt : R → R)
    (hsqrt : ∀ x : R, 0 ≤ x → 0 ≤ sqrt x ∧ sqrt x * sqrt x = x) (a b thr : R) (hthr : 0 ≤ thr) :
    a * a + b * b > thr * thr ↔ sqrt (a * a + b * b) > thr := by
  have hnn : 0 ≤ a * a + b * b := add_nonneg (mul_self_nonneg a) (mul_self_nonneg b)
  obtain ⟨h0, hs⟩ := hsqrt _ hnn
  constructor
  · intro h
    by_contra hle
    have hle2 : sqrt (a * a + b * b) ≤ thr := not_lt.mp hle
    have := mul_le_mul hle2 hle2 h0 hthr
    rw [hs] at this
    exact absurd h (not_lt.mpr this)
  · intro h
    have := mul_lt_mul'' h h hthr hthr
    rw [hs] at this
    exact this

/-- C14: when every view has its extrinsic and `Nx * Ny` observed corners,
`residualAnalysis` runs to its end, and the views it shows for review are
exactly those for which `outlierThresh` is not 0 and some corner
`i < Nx * Ny` has `dx^2 + dy^2 > outlierThresh^2`, with
`(dx, dy) = observed - projected`; with `outlierThresh = 0` no view is shown;
and for a threshold that is not negative and a true square root the test is
`|delta| > outlierThresh`. -/
theorem residualAnalysis_flags_views {R : Type} [LinearOrderedField R] [FloorRing R]
    (ext : External R) (geo : AnalysisExternal R) (self : GenericCameraCalibration R)
    (camera : CameraID) (calibDataVec : List (CalibrationData R)) (TrefCam : Transformation R)
    (hNx : 0 < self.Nx) (hNy : 0 < self.Ny) (hrep : self.Nx * self.Ny < 2 ^ 31)
    (hgrid : self.grid.length = (self.Nx * self.Ny).toNat)
    (hviews : ∀ data ∈ calibDataVec, data.extrinsic ≠ none ∧
      data.projection.length = (self.Nx * self.Ny).toNat) :
    ∃ r, residualAnalysis ext geo self camera calibDataVec TrefCam = Run.done r
      ∧ (∀ k : Nat, k ∈ r.shown ↔ ∃ data, calibDataVec[k]? = some data ∧
          self.outlierThresh ≠ 0 ∧ ∃ i : Nat, i < (self.Nx * self.Ny).toNat ∧
            (residualAnalysis.delta ext geo self camera TrefCam data i).x *
                (residualAnalysis.delta ext geo self camera TrefCam data i).x +
              (residualAnalysis.delta ext geo self camera TrefCam data i).y *
                (residualAnalysis.delta ext geo self camera TrefCam data i).y
              > self.outlierThresh * self.outlierThresh)
      ∧ (self.outlierThresh = 0 → r.shown = [])
      ∧ ((∀ x : R, 0 ≤ x → 0 ≤ ext.sqrt x ∧ ext.sqrt x * ext.sqrt x = x) →
          0 ≤ self.outlierThresh →
          ∀ k : Nat, k ∈ r.shown ↔ ∃ data, calibDataVec[k]? = some data ∧
            self.outlierThresh ≠ 0 ∧ ∃ i : Nat, i < (self.Nx * self.Ny).toNat ∧
              (residualAnalysis.delta ext geo self camera TrefCam data i).norm ext
                > self.outlierThresh) := by
  have hpos : 0 < self.Nx * self.Ny := Int.mul_pos hNx hNy
  have hn : toUInt32 (toInt32 (self.Nx * self.Ny)) = (self.Nx * self.Ny).toNat := by
    rw [toInt32_of_range _ (by omega) hrep]
    unfold toUInt32
    rw [Int.emod_eq_of_lt (le_of_lt hpos) (by omega)]
  obtain ⟨st, hrun, hshown⟩ := residualAnalysis_views_spec ext geo self camera calibDataVec
    TrefCam
    { Ex := 0, Ey := 0, Emax := 0, errorPlot := geo.circles, outsidePlot := false,
      printed := [], shown := [] }
    (fun data hdata => ⟨(hviews data hdata).1, by rw [hn, (hviews data hdata).2]⟩)
    (by rw [hn, hgrid]) calibDataVec.length (le_refl _)
  rw [hn] at hshown
  have hmain : ∀ k : Nat, k ∈ st.shown ↔ ∃ data, calibDataVec[k]? = some data ∧
      self.outlierThresh ≠ 0 ∧ ∃ i : Nat, i < (self.Nx * self.Ny).toNat ∧
        (residualAnalysis.delta ext geo self camera TrefCam data i).x *
            (residualAnalysis.delta ext geo self camera TrefCam data i).x +
          (residualAnalysis.delta ext geo self camera TrefCam data i).y *
            (residualAnalysis.delta ext geo self camera TrefCam data i).y
          > self.outlierThresh * self.outlierThresh := by
    intro k
    rw [hshown k]
    constructor
    · rintro (h | ⟨_, h⟩)
      · simp at h
      · exact h
    · rintro ⟨data, hdata, h⟩
      exact Or.inr ⟨(List.getElem?_eq_some_iff.mp hdata).1, data, hdata, h⟩
  have hres : ∃ r, residualAnalysis ext geo self camera calibDataVec TrefCam = Run.done r
      ∧ r.shown = st.shown := by
    unfold residualAnalysis
    simp only []
    rw [hrun, Run.bind_done]
    exact ⟨_, rfl, rfl⟩
  obtain ⟨r, hr, hrs⟩ := hres
  rw [← hrs] at hmain
  refine ⟨r, hr, hmain, ?_, ?_⟩
  · intro h0
    apply List.eq_nil_iff_forall_not_mem.mpr
    intro k hk
    obtain ⟨_, _, hne, _⟩ := (hmain k).mp hk
    exact hne h0
  · intro hsqrt hthr k
    rw [hmain k]
    simp only [Vector2d.norm, sq_gt_iff_sqrt_gt ext.sqrt hsqrt _ _ _ hthr]

/-- C14, witness: two views of a board of 2 by 1 corners with threshold 1. -/
theorem residualAnalysis_flags_views_witness :
    (0 < exampleBoard.Nx ∧ 0 < exampleBoard.Ny ∧ exampleBoard.Nx * exampleBoard.Ny < 2 ^ 31
      ∧ exampleBoard.grid.length = (exampleBoard.Nx * exampleBoard.Ny).toNat
      ∧ ∀ data ∈ exampleViews, data.extrinsic ≠ none ∧
          data.projection.length = (exampleBoard.Nx * exampleBoard.Ny).toNat)
      ∧ ∃ r, residualAnalysis ratExternal exampleGeometry exampleBoard CameraID.LEFT exampleViews
            ⟨⟨0, 0, 0⟩, ⟨0, 0, 0⟩⟩ = Run.done r
          ∧ ∀ k : Nat, k ∈ r.shown ↔ ∃ data, exampleViews[k]? = some data ∧
              exampleBoard.outlierThresh ≠ 0 ∧
              ∃ i : Nat, i < (exampleBoard.Nx * exampleBoard.Ny).toNat ∧
                (residualAnalysis.delta ratExternal exampleGeometry exampleBoard CameraID.LEFT
                    ⟨⟨0, 0, 0⟩, ⟨0, 0, 0⟩⟩ data i).x *
                  (residualAnalysis.delta ratExternal exampleGeometry exampleBoard CameraID.LEFT
                    ⟨⟨0, 0, 0⟩, ⟨0, 0, 0⟩⟩ data i).x +
                (residualAnalysis.delta ratExternal exampleGeometry exampleBoard CameraID.LEFT
                    ⟨⟨0, 0, 0⟩, ⟨0, 0, 0⟩⟩ data i).y *
                  (residualAnalysis.delta ratExternal exampleGeometry exampleBoard CameraID.LEFT
                    ⟨⟨0, 0, 0⟩, ⟨0, 0, 0⟩⟩ data i).y
                > exampleBoard.outlierThresh * exampleBoard.outlierThresh :=
  ⟨⟨by decide, by decide, by decide, by decide, by simp [exampleViews, exampleBoard]⟩,
   (residualAnalysis_flags_views ratExternal exampleGeometry exampleBoard CameraID.LEFT
      exampleViews ⟨⟨0, 0, 0⟩, ⟨0, 0, 0⟩⟩ (by decide) (by decide) (by decide) (by decide)
      (by simp [exampleViews, exampleBoard])).imp fun _ h => ⟨h.1, h.2.1⟩⟩

/-! ## C21: the order and the bound of the candidate scan -/

theorem scanPool_spec {R : Type} (accept : LandMark R → Option (Feature R))
    (pool : List (LandMark R)) (maxActive : Nat) (k : Nat) (c : Candidates R) :
    (scanPool accept pool maxActive k c).indexVec = c.indexVec ++
        ((List.range k).reverse.filter fun j => ((pool.get? j).bind accept).isSome).take
          (maxActive - c.numActive)
      ∧ (scanPool accept pool maxActive k c).numActive = c.numActive +
        (((List.range k).reverse.filter fun j => ((pool.get? j).bind accept).isSome).take
          (maxActive - c.numActive)).length
      ∧ (scanPool accept pool maxActive k c).lmFeatureVec.length = c.lmFeatureVec.length +
        (((List.range k).reverse.filter fun j => ((pool.get? j).bind accept).isSome).take
          (maxActive - c.numActive)).length := by
  induction k generalizing c with
  | zero => simp [scanPool]
  | succ k ih =>
    rw [scanPool, List.range_succ, List.reverse_append, List.reverse_singleton,
      List.singleton_append]
    by_cases hlt : c.numActive < maxActive
    · rw [if_pos hlt]
      cases hacc : (pool.get? k).bind accept with
      | none =>
        simp only [List.filter_cons, hacc, Option.isSome_none, Bool.false_eq_true, if_false]
        exact ih c
      | some f =>
        simp only [List.filter_cons, hacc, Option.isSome_some, if_true]
        obtain ⟨h1, h2, h3⟩ := ih
          { numActive := c.numActive + 1, indexVec := c.indexVec ++ [k],
            lmFeatureVec := c.lmFeatureVec ++ [f] }
        simp only [] at h1 h2 h3
        have hsub : maxActive - c.numActive = (maxActive - (c.numActive + 1)) + 1 := by omega
        rw [hsub, List.take_succ_cons]
        refine ⟨?_, ?_, ?_⟩
        · rw [h1, List.append_assoc, List.singleton_append]
        · rw [h2, List.length_cons]
          omega
        · rw [h3, List.length_cons, List.length_append, List.length_singleton]
          omega
    · rw [if_neg hlt]
      have h0 : maxActive - c.numActive = 0 := by omega
      simp [h0]

theorem scanPool_all {R : Type} (accept : LandMark R → Option (Feature R))
    (pool : List (LandMark R)) (maxActive : Nat) (c : Candidates R) :
    (scanPool accept pool maxActive pool.length c).indexVec = c.indexVec ++
        (acceptedNewestFirst accept pool).take (maxActive - c.numActive)
      ∧ (scanPool accept pool maxActive pool.length c).numActive = c.numActive +
        ((acceptedNewestFirst accept pool).take (maxActive - c.numActive)).length
      ∧ (scanPool accept pool maxActive pool.length c).lmFeatureVec.length =
        c.lmFeatureVec.length +
          ((acceptedNewestFirst accept pool).take (maxActive - c.numActive)).length :=
  scanPool_spec accept pool maxActive pool.length c

theorem acceptedNewestFirst_spec {R : Type} (accept : LandMark R → Option (Feature R))
    (pool : List (LandMark R)) :
    List.Pairwise (fun a b : Nat => b < a) (acceptedNewestFirst accept pool)
      ∧ ∀ j : Nat, j ∈ acceptedNewestFirst accept pool ↔
          ∃ lm f, pool[j]? = some lm ∧ accept lm = some f := by
  constructor
  · unfold acceptedNewestFirst
    apply List.Pairwise.filter
    rw [List.pairwise_reverse]
    exact List.pairwise_lt_range _
  · intro j
    unfold acceptedNewestFirst
    rw [List.mem_filter, List.mem_reverse, List.mem_range, List.get?_eq_getElem?]
    constructor
    · rintro ⟨hj, hsome⟩
      rw [List.getElem?_eq_getElem hj] at hsome ⊢
      obtain ⟨f, hf⟩ := Option.isSome_iff_exists.mp hsome
      exact ⟨_, f, rfl, hf⟩
    · rintro ⟨lm, f, hlm, hf⟩
      refine ⟨(List.getElem?_eq_some_iff.mp hlm).1, ?_⟩
      rw [hlm]
      simp [hf]

theorem scanPool_two_pools {R : Type} (accept : LandMark R → Option (Feature R))
    (WM STM : List (LandMark R)) :
    (scanPool accept WM 300 WM.length
        { numActive := 0, indexVec := [], lmFeatureVec := [] }).indexVec
        = (acceptedNewestFirst accept WM).take 300
      ∧ (scanPool accept WM 300 WM.length
          { numActive := 0, indexVec := [], lmFeatureVec := [] }).numActive
        = ((acceptedNewestFirst accept WM).take 300).length
      ∧ (scanPool accept WM 300 WM.length
          { numActive := 0, indexVec := [], lmFeatureVec := [] }).lmFeatureVec.length
        = ((acceptedNewestFirst accept WM).take 300).length
      ∧ (scanPool accept STM 300 STM.length (scanPool accept WM 300 WM.length
          { numActive := 0, indexVec := [], lmFeatureVec := [] })).indexVec
        = (acceptedNewestFirst accept WM).take 300 ++ (acceptedNewestFirst accept STM).take
            (300 - ((acceptedNewestFirst accept WM).take 300).length)
      ∧ (scanPool accept STM 300 STM.length (scanPool accept WM 300 WM.length
          { numActive := 0, indexVec := [], lmFeatureVec := [] })).numActive
        = ((acceptedNewestFirst accept WM).take 300 ++ (acceptedNewestFirst accept STM).take
            (300 - ((acceptedNewestFirst accept WM).take 300).length)).length
      ∧ (scanPool accept STM 300 STM.length (scanPool accept WM 300 WM.length
          { numActive := 0, indexVec := [], lmFeatureVec := [] })).lmFeatureVec.length
        = ((acceptedNewestFirst accept WM).take 300 ++ (acceptedNewestFirst accept STM).take
            (300 - ((acceptedNewestFirst accept WM).take 300).length)).length
      ∧ ((acceptedNewestFirst accept WM).take 300 ++ (acceptedNewestFirst accept STM).take
            (300 - ((acceptedNewestFirst accept WM).take 300).length)).length ≤ 300 := by
  obtain ⟨w1, w2, w3⟩ := scanPool_all accept WM 300
    { numActive := 0, indexVec := [], lmFeatureVec := [] }
  simp only [List.nil_append, Nat.zero_add, Nat.sub_zero, List.length_nil] at w1 w2 w3
  obtain ⟨s1, s2, s3⟩ := scanPool_all accept STM 300 (scanPool accept WM 300 WM.length
    { numActive := 0, indexVec := [], lmFeatureVec := [] })
  rw [w1, w2] at s1
  rw [w2] at s2
  rw [w2, w3] at s3
  refine ⟨w1, w2, w3, s1, ?_, ?_, ?_⟩
  · rw [s2, List.length_append]
  · rw [s3, List.length_append]
  · have h1 := List.length_take_le 300 (acceptedNewestFirst accept WM)
    have h2 := List.length_take_le
      (300 - ((acceptedNewestFirst accept WM).take 300).length) (acceptedNewestFirst accept STM)
    rw [List.length_append]
    omega

/-- C21. In each of the three strategies the candidate indices are the accepted
indices of `WM` from the highest to the lowest, cut after 300, followed by the
accepted indices of `STM` from the highest to the lowest, cut after what is
left of the 300; `nWMreprojected` is the number of `WM` candidates; the number
of candidates is `numActive`, the length of `indexVec` and of `lmFeatureVec`,
and is at most 300. In `estimateOdometry_3` the part of `STM` is present only
when `WM` has fewer than 50 landmarks; with 50 or more the candidates are
those of `WM` alone. An index is accepted when its landmark passes the accept
test of the strategy, and the accepted indices are strictly decreasing. -/
theorem candidates_scan_order {R : Type} [LinearOrderedField R] (ext : External R)
    (self : StereoCartography R) :
    ((estimateOdometry.candidates ext self).1
          = ((acceptedNewestFirst (estimateOdometry.accept ext self) self.WM).take 300).length
        ∧ (estimateOdometry.candidates ext self).2.indexVec
          = (acceptedNewestFirst (estimateOdometry.accept ext self) self.WM).take 300 ++
            (acceptedNewestFirst (estimateOdometry.accept ext self) self.STM).take (300 -
              ((acceptedNewestFirst (estimateOdometry.accept ext self) self.WM).take 300).length)
        ∧ (estimateOdometry.candidates ext self).2.numActive
          = (estimateOdometry.candidates ext self).2.indexVec.length
        ∧ (estimateOdometry.candidates ext self).2.lmFeatureVec.length
          = (estimateOdometry.candidates ext self).2.indexVec.length
        ∧ (estimateOdometry.candidates ext self).2.indexVec.length ≤ 300)
      ∧ ((estimateOdometry_2.candidates ext self).1
          = ((acceptedNewestFirst (estimateOdometry_2.accept ext self) self.WM).take 300).length
        ∧ (estimateOdometry_2.candidates ext self).2.indexVec
          = (acceptedNewestFirst (estimateOdometry_2.accept ext self) self.WM).take 300 ++
            (acceptedNewestFirst (estimateOdometry_2.accept ext self) self.STM).take (300 -
              ((acceptedNewestFirst (estimateOdometry_2.accept ext self) self.WM).take
                300).length)
        ∧ (estimateOdometry_2.candidates ext self).2.numActive
          = (estimateOdometry_2.candidates ext self).2.indexVec.length
        ∧ (estimateOdometry_2.candidates ext self).2.lmFeatureVec.length
          = (estimateOdometry_2.candidates ext self).2.indexVec.length
        ∧ (estimateOdometry_2.candidates ext self).2.indexVec.length ≤ 300)
      ∧ ((estimateOdometry_3.candidates ext self).1
          = ((acceptedNewestFirst (estimateOdometry_3.accept ext self) self.WM).take 300).length
        ∧ (self.WM.length < 50 → (estimateOdometry_3.candidates ext self).2.indexVec
          = (acceptedNewestFirst (estimateOdometry_3.accept ext self) self.WM).take 300 ++
            (acceptedNewestFirst (estimateOdometry_3.accept ext self) self.STM).take (300 -
              ((acceptedNewestFirst (estimateOdometry_3.accept ext self) self.WM).take
                300).length))
        ∧ (50 ≤ self.WM.length → (estimateOdometry_3.candidates ext self).2.indexVec
          = (acceptedNewestFirst (estimateOdometry_3.accept ext self) self.WM).take 300)
        ∧ (estimateOdometry_3.candidates ext self).2.numActive
          = (estimateOdometry_3.candidates ext self).2.indexVec.length
        ∧ (estimateOdometry_3.candidates ext self).2.lmFeatureVec.length
          = (estimateOdometry_3.candidates ext self).2.indexVec.length
        ∧ (estimateOdometry_3.candidates ext self).2.indexVec.length ≤ 300)
      ∧ ∀ (accept : LandMark R → Option (Feature R)) (pool : List (LandMark R)),
          List.Pairwise (fun a b : Nat => b < a) (acceptedNewestFirst accept pool)
            ∧ ∀ j : Nat, j ∈ acceptedNewestFirst accept pool ↔
                ∃ lm f, pool[j]? = some lm ∧ accept lm = some f := by
  refine ⟨?_, ?_, ?_, acceptedNewestFirst_spec⟩
  · obtain ⟨w1, w2, w3, s1, s2, s3, hle⟩ :=
      scanPool_two_pools (estimateOdometry.accept ext self) self.WM self.STM
    unfold estimateOdometry.candidates
    simp only []
    rw [s1, s2, s3]
    exact ⟨w2, rfl, rfl, rfl, hle⟩
  · obtain ⟨w1, w2, w3, s1, s2, s3, hle⟩ :=
      scanPool_two_pools (estimateOdometry_2.accept ext self) self.WM self.STM
    unfold estimateOdometry_2.candidates
    simp only []
    rw [s1, s2, s3]
    exact ⟨w3, rfl, rfl, rfl, hle⟩
  · obtain ⟨w1, w2, w3, s1, s2, s3, hle⟩ :=
      scanPool_two_pools (estimateOdometry_3.accept ext self) self.WM self.STM
    unfold estimateOdometry_3.candidates
    simp only []
    by_cases h50 : self.WM.length < 50
    · rw [if_pos h50]
      simp only []
      rw [s1, s2, s3]
      exact ⟨w2, fun _ => rfl, fun h => absurd h50 (by omega), rfl, rfl, hle⟩
    · rw [if_neg h50]
      simp only []
      rw [w1, w2, w3]
      exact ⟨rfl, fun h => absurd h h50, fun _ => rfl, rfl, rfl, List.length_take_le _ _⟩

/-- C21, at a concrete map: one landmark in `WM`, none in `STM`. -/
theorem candidates_scan_order_witness :
    (estimateOdometry_3.candidates ratExternal nearLandmarkMap).2.numActive
        = (estimateOdometry_3.candidates ratExternal nearLandmarkMap).2.indexVec.length
      ∧ (estimateOdometry_3.candidates ratExternal nearLandmarkMap).2.indexVec.length ≤ 300 :=
  ⟨(candidates_scan_order ratExternal nearLandmarkMap).2.2.1.2.2.2.1,
   (candidates_scan_order ratExternal nearLandmarkMap).2.2.1.2.2.2.2.2⟩

/-! ## C22: sampling from fewer than three points -/

/-- A retry loop whose every possible index is to be avoided runs out of any
fuel. -/
theorem drawIndex_all_avoided (rand : Nat → Nat) (maxIdx : Nat) (avoid : List Nat)
    (hm : maxIdx ≠ 0) (hall : ∀ i : Nat, i < maxIdx → i ∈ avoid) (fuel pos : Nat) :
    drawIndex rand maxIdx avoid fuel pos = Run.outOfFuel := by
  induction fuel generalizing pos with
  | zero => rfl
  | succ fuel ih =>
    rw [drawIndex]
    simp only [hm, if_false, hall _ (Nat.mod_lt _ (Nat.pos_of_ne_zero hm)), if_true]
    exact ih _

theorem drawIndex_done_or_outOfFuel (rand : Nat → Nat) (maxIdx : Nat) (avoid : List Nat)
    (hm : maxIdx ≠ 0) (fuel pos : Nat) :
    (∃ r, drawIndex rand maxIdx avoid fuel pos = Run.done r) ∨
      drawIndex rand maxIdx avoid fuel pos = Run.outOfFuel := by
  induction fuel generalizing pos with
  | zero => exact Or.inr rfl
  | succ fuel ih =>
    rw [drawIndex]
    simp only [hm, if_false]
    by_cases hin : rand pos % maxIdx ∈ avoid
    · simp only [hin, if_true]
      exact ih _
    · simp only [hin, if_false]
      exact Or.inl ⟨_, rfl⟩

theorem sampleLoop_few_points {R : Type} [LinearOrderedField R] (ext : External R)
    (self : Odometry R) (rand : Nat → Nat) (maxIdx : Nat) (hn : maxIdx = 1 ∨ maxIdx = 2)
    (angleTh : R) (fuel passes counter pos : Nat) :
    self.sampleLoop ext rand maxIdx angleTh fuel passes counter pos = Run.outOfFuel := by
  cases passes with
  | zero => rfl
  | succ passes =>
    have hm : maxIdx ≠ 0 := by omega
    rw [Odometry.sampleLoop]
    simp only [hm, if_false]
    have h1 : rand pos % maxIdx < maxIdx := Nat.mod_lt _ (Nat.pos_of_ne_zero hm)
    rcases drawIndex_done_or_outOfFuel rand maxIdx [rand pos % maxIdx] hm fuel (pos + 1) with
      ⟨r2, h2⟩ | h2
    · rw [h2, Run.bind_done]
      obtain ⟨hlt, hne⟩ := drawIndex_done fuel (pos + 1) r2 h2
      rw [List.mem_singleton] at hne
      rw [drawIndex_all_avoided rand maxIdx [rand pos % maxIdx, r2.1] hm
        (by
          intro i hi
          rw [List.mem_cons, List.mem_singleton]
          omega) fuel r2.2]
      rfl
    · rw [h2]
      rfl

theorem sampleLoop_no_points {R : Type} [LinearOrderedField R] (ext : External R)
    (self : Odometry R) (rand : Nat → Nat) (angleTh : R) (fuel passes counter pos : Nat) :
    self.sampleLoop ext rand 0 angleTh fuel (passes + 1) counter pos =
      Run.undefinedBehaviour := by
  rw [Odometry.sampleLoop]
  simp

theorem Ransac_few_points {R : Type} [LinearOrderedField R] (ext : External R)
    (rand : Nat → Nat) (fuel : Nat) (self : Odometry R) (pos : Nat)
    (hlen : self.observationVec.length = self.cloud.length)
    (hn : self.observationVec.length = 1 ∨ self.observationVec.length = 2) :
    Odometry.Ransac ext rand fuel self pos = Run.outOfFuel := by
  unfold Odometry.Ransac
  rw [if_neg (by simpa using hlen)]
  show Odometry.Ransac.loop ext rand fuel _ _ (299 + 1) _ = _
  rw [Odometry.Ransac.loop, Odometry.Ransac.iteration, Odometry.Ransac.hypothesis]
  simp only
  rw [sampleLoop_few_points ext _ rand self.observationVec.length hn]
  rfl

theorem Ransac_2_few_points {R : Type} [LinearOrderedField R] (ext : External R)
    (rand : Nat → Nat) (fuel : Nat) (self : Odometry R) (pos : Nat)
    (hlen : self.observationVec_2.length = self.cloud.length)
    (hn : self.observationVec_2.length = 1 ∨ self.observationVec_2.length = 2) :
    Odometry.Ransac_2 ext rand fuel self pos = Run.outOfFuel := by
  unfold Odometry.Ransac_2
  rw [if_neg (by simpa using hlen)]
  show Odometry.Ransac_2.loop ext rand fuel _ _ (499 + 1) _ = _
  rw [Odometry.Ransac_2.loop, Odometry.Ransac_2.iteration, Odometry.Ransac_2.hypothesis]
  simp only
  rw [sampleLoop_few_points ext _ rand self.observationVec_2.length hn]
  rfl

/-- C22. For a cloud of exactly 1 or 2 points the sampling loop shared by
`Ransac` and `Ransac_2` yields no sample and does not reach `exit(1)`, for every
sequence of values of `rand()` and every threshold: however much fuel the
retry loops are given the outcome is that the fuel ran out, because a retry
loop whose every index must be avoided never ends; so `Ransac` and `Ransac_2`
do not return on such a cloud. With 0 points the first index is a remainder
modulo zero. A sampling loop that yields a sample or reaches `exit(1)` has at
least 3 points. -/
theorem sampling_needs_three_points {R : Type} [LinearOrderedField R] (ext : External R)
    (self : Odometry R) (rand : Nat → Nat) (n : Nat) (hn : n = 1 ∨ n = 2) :
    (∀ (angleTh : R) (fuel passes counter pos : Nat),
        self.sampleLoop ext rand n angleTh fuel passes counter pos = Run.outOfFuel)
      ∧ (∀ (avoid : List Nat) (fuel pos : Nat), (∀ i : Nat, i < n → i ∈ avoid) →
          drawIndex rand n avoid fuel pos = Run.outOfFuel)
      ∧ (self.observationVec.length = self.cloud.length → self.observationVec.length = n →
          ∀ fuel pos : Nat, Odometry.Ransac ext rand fuel self pos = Run.outOfFuel)
      ∧ (self.observationVec_2.length = self.cloud.length → self.observationVec_2.length = n →
          ∀ fuel pos : Nat, Odometry.Ransac_2 ext rand fuel self pos = Run.outOfFuel)
      ∧ (∀ (angleTh : R) (fuel passes counter pos : Nat),
          self.sampleLoop ext rand 0 angleTh fuel (passes + 1) counter pos =
            Run.undefinedBehaviour)
      ∧ (∀ (m : Nat) (angleTh : R) (fuel passes counter pos : Nat),
          ((∃ s, self.sampleLoop ext rand m angleTh fuel passes counter pos = Run.done s) ∨
            self.sampleLoop ext rand m angleTh fuel passes counter pos = Run.exit1) →
          3 ≤ m) := by
  refine ⟨?_, ?_, ?_, ?_, ?_, ?_⟩
  · intro angleTh fuel passes counter pos
    exact sampleLoop_few_points ext self rand n hn angleTh fuel passes counter pos
  · intro avoid fuel pos hall
    exact drawIndex_all_avoided rand n avoid (by omega) hall fuel pos
  · intro hlen hlen2 fuel pos
    exact Ransac_few_points ext rand fuel self pos hlen (by rw [hlen2]; exact hn)
  · intro hlen hlen2 fuel pos
    exact Ransac_2_few_points ext rand fuel self pos hlen (by rw [hlen2]; exact hn)
  · intro angleTh fuel passes counter pos
    exact sampleLoop_no_points ext self rand angleTh fuel passes counter pos
  · intro m angleTh fuel passes counter pos h
    by_contra hlt
    have hm : m = 0 ∨ m = 1 ∨ m = 2 := by omega
    rcases hm with rfl | hm
    · cases passes with
      | zero =>
        rcases h with ⟨s, h⟩ | h <;> simp [Odometry.sampleLoop] at h
      | succ passes =>
        rw [sampleLoop_no_points] at h
        rcases h with ⟨s, h⟩ | h <;> cases h
    · rw [sampleLoop_few_points ext self rand m hm] at h
      rcases h with ⟨s, h⟩ | h <;> cases h

/-- C22, witness: two of the four points of `exampleOdometry` offered to the
sampling loop, with the values 0, 1, 2, 0, 1, 2, ... of `rand()`. -/
theorem sampling_needs_three_points_witness :
    (2 = 1 ∨ 2 = 2) ∧
      exampleOdometry.sampleLoop ratExternal cycleRand 2 (1 / 5) 1000 1 0 0 = Run.outOfFuel :=
  ⟨Or.inr rfl,
   (sampling_needs_three_points ratExternal exampleOdometry cycleRand 2 (Or.inr rfl)).1
      (1 / 5) 1000 1 0 0⟩

/-! ## C24: the error histogram of the residual analysis -/

theorem plotIncrement_errorPlot {R : Type} [Add R] [One R] (st : AnalysisState R)
    (row col r c : Int) :
    (plotIncrement st row col).errorPlot r c =
      if r = row ∧ c = col then st.errorPlot r c + 1 else st.errorPlot r c := rfl

theorem plotIncrement_outsidePlot {R : Type} [Add R] [One R] (st : AnalysisState R)
    (row col : Int) :
    (plotIncrement st row col).outsidePlot = true ↔
      st.outsidePlot = true ∨ ¬ insidePlot row col := by
  unfold plotIncrement insidePlot
  simp only [Bool.or_eq_true, decide_eq_true_eq]
  constructor
  · rintro (h | h)
    · exact Or.inl h
    · exact Or.inr (by omega)
  · rintro (h | h)
    · exact Or.inl h
    · exact Or.inr (by omega)

theorem residualAnalysis_corner_plot {R : Type} [LinearOrderedField R] [FloorRing R]
    (self : GenericCameraCalibration R) (ptIdx i : Nat) (p pModel : Vector2d R)
    (acc : AnalysisState R × Bool) :
    (residualAnalysis.corner self ptIdx i p pModel acc).1.errorPlot =
        (plotIncrement (plotIncrement (plotIncrement (plotIncrement acc.1
          ⌊(p.sub pModel).y * 100 + 200⌋ ⌊(p.sub pModel).x * 100 + 200⌋)
          ⌊(p.sub pModel).y * 100 + 200⌋ ⌈(p.sub pModel).x * 100 + 200⌉)
          ⌈(p.sub pModel).y * 100 + 200⌉ ⌊(p.sub pModel).x * 100 + 200⌋)
          ⌈(p.sub pModel).y * 100 + 200⌉ ⌈(p.sub pModel).x * 100 + 200⌉).errorPlot
      ∧ (residualAnalysis.corner self ptIdx i p pModel acc).1.outsidePlot =
        (plotIncrement (plotIncrement (plotIncrement (plotIncrement acc.1
          ⌊(p.sub pModel).y * 100 + 200⌋ ⌊(p.sub pModel).x * 100 + 200⌋)
          ⌊(p.sub pModel).y * 100 + 200⌋ ⌈(p.sub pModel).x * 100 + 200⌉)
          ⌈(p.sub pModel).y * 100 + 200⌉ ⌊(p.sub pModel).x * 100 + 200⌋)
          ⌈(p.sub pModel).y * 100 + 200⌉ ⌈(p.sub pModel).x * 100 + 200⌉).outsidePlot := by
  unfold residualAnalysis.corner
  simp only []
  constructor <;> split_ifs <;> rfl

theorem histogram_index_range {R : Type} [LinearOrderedField R] [FloorRing R] (d : R) :
    (0 ≤ ⌊d * 100 + 200⌋ ∧ ⌊d * 100 + 200⌋ < 400 ∧ 0 ≤ ⌈d * 100 + 200⌉ ∧
        ⌈d * 100 + 200⌉ < 400) ↔ (-2 ≤ d ∧ d ≤ 199 / 100) := by
  have hfc : ⌊d * 100 + 200⌋ ≤ ⌈d * 100 + 200⌉ := Int.floor_le_ceil _
  constructor
  · rintro ⟨h1, -, -, h4⟩
    have h1a : (0 : R) ≤ d * 100 + 200 := by
      have := Int.floor_nonneg.mp h1
      exact this
    have h4a : d * 100 + 200 ≤ ((399 : Int) : R) := Int.ceil_le.mp (by omega)
    push_cast at h4a
    constructor <;> linarith
  · rintro ⟨h1, h2⟩
    have h1a : 0 ≤ ⌊d * 100 + 200⌋ := Int.floor_nonneg.mpr (by linarith)
    have h4a : ⌈d * 100 + 200⌉ ≤ 399 := Int.ceil_le.mpr (by push_cast; linarith)
    omega

theorem sum_cell_indicator {R : Type} [Semiring R] (a b : Int) (ha : 0 ≤ a ∧ a < 400)
    (hb : 0 ≤ b ∧ b < 400) :
    (∑ r in Finset.range 400, ∑ c in Finset.range 400,
      (if ((r : Int) = a ∧ (c : Int) = b) then (1 : R) else 0)) = 1 := by
  have hane : ∀ r : Nat, ((r : Int) = a) ↔ r = a.toNat := by intro r; omega
  have hbne : ∀ c : Nat, ((c : Int) = b) ↔ c = b.toNat := by intro c; omega
  simp only [hane, hbne, ite_and]
  rw [Finset.sum_eq_single a.toNat]
  · simp only [eq_self_iff_true, if_true]
    rw [Finset.sum_eq_single b.toNat]
    · simp only [eq_self_iff_true, if_true]
    · intro c _ hc
      rw [if_neg hc]
    · intro hc
      exact absurd (Finset.mem_range.mpr (by omega)) hc
  · intro r _ hr
    simp [hr]
  · intro hr
    exact absurd (Finset.mem_range.mpr (by omega)) hr

theorem or_not_four (a i1 i2 i3 i4 : Prop) :
    ((((a ∨ ¬ i1) ∨ ¬ i2) ∨ ¬ i3) ∨ ¬ i4) ↔ a ∨ ¬ (i1 ∧ i2 ∧ i3 ∧ i4) := by
  tauto

theorem plotTotal_increment {R : Type} [Semiring R] (st : AnalysisState R) (row col : Int)
    (h : insidePlot row col) :
    plotTotal (plotIncrement st row col).errorPlot = plotTotal st.errorPlot + 1 := by
  have hfun : ∀ r c : Int, (plotIncrement st row col).errorPlot r c =
      st.errorPlot r c + (if (r = row ∧ c = col) then (1 : R) else 0) := by
    intro r c
    rw [plotIncrement_errorPlot]
    split_ifs <;> simp
  unfold plotTotal
  simp only [hfun, Finset.sum_add_distrib]
  rw [sum_cell_indicator row col h.1 h.2]

theorem residualAnalysis_corner_histogram {R : Type} [LinearOrderedField R] [FloorRing R]
    (self : GenericCameraCalibration R) (ptIdx i : Nat) (p pModel : Vector2d R)
    (acc : AnalysisState R × Bool) :
    (∀ r c : Int, (residualAnalysis.corner self ptIdx i p pModel acc).1.errorPlot r c =
        acc.1.errorPlot r c
          + ((if r = ⌊(p.sub pModel).y * 100 + 200⌋ ∧ c = ⌊(p.sub pModel).x * 100 + 200⌋
                then 1 else 0)
            + (if r = ⌊(p.sub pModel).y * 100 + 200⌋ ∧ c = ⌈(p.sub pModel).x * 100 + 200⌉
                then 1 else 0)
            + (if r = ⌈(p.sub pModel).y * 100 + 200⌉ ∧ c = ⌊(p.sub pModel).x * 100 + 200⌋
                then 1 else 0)
            + (if r = ⌈(p.sub pModel).y * 100 + 200⌉ ∧ c = ⌈(p.sub pModel).x * 100 + 200⌉
                then 1 else 0)))
      ∧ ((insidePlot ⌊(p.sub pModel).y * 100 + 200⌋ ⌊(p.sub pModel).x * 100 + 200⌋
            ∧ insidePlot ⌊(p.sub pModel).y * 100 + 200⌋ ⌈(p.sub pModel).x * 100 + 200⌉
            ∧ insidePlot ⌈(p.sub pModel).y * 100 + 200⌉ ⌊(p.sub pModel).x * 100 + 200⌋
            ∧ insidePlot ⌈(p.sub pModel).y * 100 + 200⌉ ⌈(p.sub pModel).x * 100 + 200⌉)
          ↔ withinHistogramRange (p.sub pModel))
      ∧ ((residualAnalysis.corner self ptIdx i p pModel acc).1.outsidePlot = true ↔
          acc.1.outsidePlot = true ∨ ¬ withinHistogramRange (p.sub pModel))
      ∧ (withinHistogramRange (p.sub pModel) →
          plotTotal (residualAnalysis.corner self ptIdx i p pModel acc).1.errorPlot =
            plotTotal acc.1.errorPlot + 4) := by
  obtain ⟨hplot, hout⟩ := residualAnalysis_corner_plot self ptIdx i p pModel acc
  have hx := histogram_index_range (p.sub pModel).x
  have hy := histogram_index_range (p.sub pModel).y
  have hcells : (insidePlot ⌊(p.sub pModel).y * 100 + 200⌋ ⌊(p.sub pModel).x * 100 + 200⌋
        ∧ insidePlot ⌊(p.sub pModel).y * 100 + 200⌋ ⌈(p.sub pModel).x * 100 + 200⌉
        ∧ insidePlot ⌈(p.sub pModel).y * 100 + 200⌉ ⌊(p.sub pModel).x * 100 + 200⌋
        ∧ insidePlot ⌈(p.sub pModel).y * 100 + 200⌉ ⌈(p.sub pModel).x * 100 + 200⌉)
      ↔ withinHistogramRange (p.sub pModel) := by
    unfold insidePlot withinHistogramRange
    rw [← hx, ← hy]
    tauto
  refine ⟨?_, hcells, ?_, ?_⟩
  · intro r c
    rw [hplot]
    simp only [plotIncrement_errorPlot]
    split_ifs <;> ring
  · rw [hout]
    simp only [plotIncrement_outsidePlot]
    rw [← hcells]
    exact or_not_four _ _ _ _ _
  · intro hin
    obtain ⟨c1, c2, c3, c4⟩ := hcells.mpr hin
    have e1 := plotTotal_increment acc.1 ⌊(p.sub pModel).y * 100 + 200⌋
      ⌊(p.sub pModel).x * 100 + 200⌋ c1
    have e2 := plotTotal_increment (plotIncrement acc.1 ⌊(p.sub pModel).y * 100 + 200⌋
      ⌊(p.sub pModel).x * 100 + 200⌋) ⌊(p.sub pModel).y * 100 + 200⌋
      ⌈(p.sub pModel).x * 100 + 200⌉ c2
    have e3 := plotTotal_increment (plotIncrement (plotIncrement acc.1
      ⌊(p.sub pModel).y * 100 + 200⌋ ⌊(p.sub pModel).x * 100 + 200⌋)
      ⌊(p.sub pModel).y * 100 + 200⌋ ⌈(p.sub pModel).x * 100 + 200⌉)
      ⌈(p.sub pModel).y * 100 + 200⌉ ⌊(p.sub pModel).x * 100 + 200⌋ c3
    have e4 := plotTotal_increment (plotIncrement (plotIncrement (plotIncrement acc.1
      ⌊(p.sub pModel).y * 100 + 200⌋ ⌊(p.sub pModel).x * 100 + 200⌋)
      ⌊(p.sub pModel).y * 100 + 200⌋ ⌈(p.sub pModel).x * 100 + 200⌉)
      ⌈(p.sub pModel).y * 100 + 200⌉ ⌊(p.sub pModel).x * 100 + 200⌋)
      ⌈(p.sub pModel).y * 100 + 200⌉ ⌈(p.sub pModel).x * 100 + 200⌉ c4
    refine (congrArg plotTotal hplot).trans (e4.trans ?_)
    rw [e3, e2, e1]
    ring

theorem residualAnalysis_corners_histogram {R : Type} [LinearOrderedField R] [FloorRing R]
    (self : GenericCameraCalibration R) (ptIdx : Nat) (proj model : List (Vector2d R))
    (a0 : AnalysisState R × Bool) (n : Nat) (hp : n ≤ proj.length) (hm : n ≤ model.length) :
    ∃ a, (List.range n).foldl
          (fun (acc : Run (AnalysisState R × Bool)) (i : Nat) =>
            acc.bind fun a =>
              match proj[i]?, model[i]? with
              | some p, some pModel => Run.done (residualAnalysis.corner self ptIdx i p pModel a)
              | _, _ => Run.undefinedBehaviour)
          (Run.done a0) = Run.done a
      ∧ (a.1.outsidePlot = true ↔ a0.1.outsidePlot = true ∨ ∃ i : Nat, i < n ∧
          ¬ withinHistogramRange ((proj.getD i default).sub (model.getD i default)))
      ∧ ((∀ i : Nat, i < n →
            withinHistogramRange ((proj.getD i default).sub (model.getD i default))) →
          plotTotal a.1.errorPlot = plotTotal a0.1.errorPlot + 4 * (n : R)) := by
  induction n with
  | zero => exact ⟨a0, rfl, by simp, by simp⟩
  | succ n ih =>
    obtain ⟨a, hrun, hout, htot⟩ := ih (by omega) (by omega)
    have hpn : n < proj.length := by omega
    have hmn : n < model.length := by omega
    rw [List.range_succ, List.foldl_append, hrun]
    simp only [List.foldl_cons, List.foldl_nil, Run.bind_done,
      List.getElem?_eq_getElem hpn, List.getElem?_eq_getElem hmn]
    obtain ⟨-, -, hc3, hc4⟩ :=
      residualAnalysis_corner_histogram self ptIdx n proj[n] model[n] a
    have hgp : proj.getD n default = proj[n] := List.getD_eq_getElem _ _ hpn
    have hgm : model.getD n default = model[n] := List.getD_eq_getElem _ _ hmn
    refine ⟨_, rfl, ?_, ?_⟩
    · rw [hc3, hout]
      constructor
      · rintro ((h | ⟨i, hi, hbad⟩) | hbad)
        · exact Or.inl h
        · exact Or.inr ⟨i, by omega, hbad⟩
        · exact Or.inr ⟨n, by omega, by rw [hgp, hgm]; exact hbad⟩
      · rintro (h | ⟨i, hi, hbad⟩)
        · exact Or.inl (Or.inl h)
        · rcases Nat.lt_succ_iff_lt_or_eq.mp hi with hlt | heq
          · exact Or.inl (Or.inr ⟨i, hlt, hbad⟩)
          · subst heq
            rw [hgp, hgm] at hbad
            exact Or.inr hbad
    · intro hall
      have hn := hall n (by omega)
      rw [hgp, hgm] at hn
      rw [hc4 hn, htot (fun i hi => hall i (by omega))]
      push_cast
      ring

theorem residualAnalysis_view_histogram {R : Type} [LinearOrderedField R] [FloorRing R]
    (ext : External R) (geo : AnalysisExternal R) (self : GenericCameraCalibration R)
    (camera : CameraID) (TrefCam : Transformation R) (st : AnalysisState R) (ptIdx : Nat)
    (data : CalibrationData R) (hext : data.extrinsic ≠ none)
    (hp : toUInt32 (toInt32 (self.Nx * self.Ny)) ≤ data.projection.length)
    (hm : toUInt32 (toInt32 (self.Nx * self.Ny)) ≤ self.grid.length) :
    ∃ st1, residualAnalysis.view ext geo self camera TrefCam st ptIdx data = Run.done st1
      ∧ (st1.outsidePlot = true ↔ st.outsidePlot = true ∨
          ∃ i : Nat, i < toUInt32 (toInt32 (self.Nx * self.Ny)) ∧
            ¬ withinHistogramRange (residualAnalysis.delta ext geo self camera TrefCam data i))
      ∧ ((∀ i : Nat, i < toUInt32 (toInt32 (self.Nx * self.Ny)) →
            withinHistogramRange (residualAnalysis.delta ext geo self camera TrefCam data i)) →
          plotTotal st1.errorPlot = plotTotal st.errorPlot +
            4 * ((toUInt32 (toInt32 (self.Nx * self.Ny)) : Nat) : R)) := by
  obtain ⟨e, he⟩ := Option.ne_none_iff_exists'.mp hext
  have hlen : (residualAnalysis.projModelVec ext geo self camera TrefCam e).length
      = self.grid.length := by
    simp [residualAnalysis.projModelVec, External.projectPointCloud]
  obtain ⟨a, hrun, hout, htot⟩ := residualAnalysis_corners_histogram self ptIdx data.projection
    (residualAnalysis.projModelVec ext geo self camera TrefCam e) (st, false)
    (toUInt32 (toInt32 (self.Nx * self.Ny))) hp (by rw [hlen]; exact hm)
  have hd : ∀ i, residualAnalysis.delta ext geo self camera TrefCam data i
      = (data.projection.getD i default).sub
        ((residualAnalysis.projModelVec ext geo self camera TrefCam e).getD i default) := by
    intro i
    simp [residualAnalysis.delta, he]
  simp only [hd]
  unfold residualAnalysis.view
  rw [he]
  simp only []
  erw [hrun, Run.bind_done]
  refine ⟨_, rfl, ?_, ?_⟩
  · rw [← hout]
    split_ifs <;> rfl
  · intro hall
    rw [← htot hall]
    split_ifs <;> rfl

theorem residualAnalysis_views_histogram {R : Type} [LinearOrderedField R] [FloorRing R]
    (ext : External R) (geo : AnalysisExternal R) (self : GenericCameraCalibration R)
    (camera : CameraID) (calibDataVec : List (CalibrationData R)) (TrefCam : Transformation R)
    (st0 : AnalysisState R)
    (hviews : ∀ data ∈ calibDataVec, data.extrinsic ≠ none ∧
      toUInt32 (toInt32 (self.Nx * self.Ny)) ≤ data.projection.length)
    (hgrid : toUInt32 (toInt32 (self.Nx * self.Ny)) ≤ self.grid.length)
    (m : Nat) (hm : m ≤ calibDataVec.length) :
    ∃ st, (List.range m).foldl
          (fun (acc : Run (AnalysisState R)) (ptIdx : Nat) =>
            acc.bind fun st =>
              match calibDataVec[ptIdx]? with
              | some data => residualAnalysis.view ext geo self camera TrefCam st ptIdx data
              | none => Run.undefinedBehaviour)
          (Run.done st0) = Run.done st
      ∧ (st.outsidePlot = true ↔ st0.outsidePlot = true ∨
          ∃ k : Nat, k < m ∧ ∃ data, calibDataVec[k]? = some data ∧
            ∃ i : Nat, i < toUInt32 (toInt32 (self.Nx * self.Ny)) ∧
              ¬ withinHistogramRange
                (residualAnalysis.delta ext geo self camera TrefCam data i))
      ∧ ((∀ k : Nat, k < m → ∀ data, calibDataVec[k]? = some data →
            ∀ i : Nat, i < toUInt32 (toInt32 (self.Nx * self.Ny)) →
              withinHistogramRange
                (residualAnalysis.delta ext geo self camera TrefCam data i)) →
          plotTotal st.errorPlot = plotTotal st0.errorPlot +
            4 * ((m : R) * ((toUInt32 (toInt32 (self.Nx * self.Ny)) : Nat) : R))) := by
  induction m with
  | zero => exact ⟨st0, rfl, by simp, by simp⟩
  | succ m ih =>
    obtain ⟨st, hrun, hout, htot⟩ := ih (by omega)
    have hlt : m < calibDataVec.length := by omega
    have hget : calibDataVec[m]? = some calibDataVec[m] := List.getElem?_eq_getElem hlt
    have hmem : calibDataVec[m] ∈ calibDataVec := List.getElem_mem hlt
    obtain ⟨st1, hview, hout1, htot1⟩ := residualAnalysis_view_histogram ext geo self camera
      TrefCam st m calibDataVec[m] (hviews _ hmem).1 (hviews _ hmem).2 hgrid
    rw [List.range_succ, List.foldl_append, hrun]
    simp only [List.foldl_cons, List.foldl_nil, Run.bind_done, hget]
    refine ⟨st1, hview, ?_, ?_⟩
    · rw [hout1, hout]
      constructor
      · rintro ((h | ⟨k, hk, h⟩) | h)
        · exact Or.inl h
        · exact Or.inr ⟨k, by omega, h⟩
        · exact Or.inr ⟨m, by omega, _, hget, h⟩
      · rintro (h | ⟨k, hk, data, hdata, h⟩)
        · exact Or.inl (Or.inl h)
        · rcases Nat.lt_succ_iff_lt_or_eq.mp hk with hk1 | rfl
          · exact Or.inl (Or.inr ⟨k, hk1, data, hdata, h⟩)
          · rw [hget] at hdata
            cases hdata
            exact Or.inr h
    · intro hall
      rw [htot1 (hall m (by omega) _ hget),
        htot (fun k hk data hdata => hall k (by omega) data hdata)]
      push_cast
      ring

/-- C24. Every corner adds one unit at each of the four cells
(floor or ceil of `100*dy + 200`, floor or ceil of `100*dx + 200`) of the error
plot, cells that coincide receiving several units; the four cells lie inside
the 400 by 400 plot iff both components of `delta` are between -2 and 1.99,
and then the sum of the plot over its cells grows by exactly 4; a corner with
a component outside that range makes an access outside the plot. For a whole
run over views that have their extrinsic and `Nx * Ny` corners: an access
outside the plot happens iff some corner of some view has a component outside
the range, and otherwise the plot total grows by 4 for each of the
`calibDataVec.size() * Nx * Ny` corners. -/
theorem residualAnalysis_histogram {R : Type} [LinearOrderedField R] [FloorRing R]
    (ext : External R) (geo : AnalysisExternal R) (self : GenericCameraCalibration R)
    (camera : CameraID) (calibDataVec : List (CalibrationData R)) (TrefCam : Transformation R)
    (hNx : 0 < self.Nx) (hNy : 0 < self.Ny) (hrep : self.Nx * self.Ny < 2 ^ 31)
    (hgrid : self.grid.length = (self.Nx * self.Ny).toNat)
    (hviews : ∀ data ∈ calibDataVec, data.extrinsic ≠ none ∧
      data.projection.length = (self.Nx * self.Ny).toNat) :
    (∀ (ptIdx i : Nat) (p pModel : Vector2d R) (acc : AnalysisState R × Bool),
      (∀ r c : Int, (residualAnalysis.corner self ptIdx i p pModel acc).1.errorPlot r c =
          acc.1.errorPlot r c
            + ((if r = ⌊(p.sub pModel).y * 100 + 200⌋ ∧ c = ⌊(p.sub pModel).x * 100 + 200⌋
                  then 1 else 0)
              + (if r = ⌊(p.sub pModel).y * 100 + 200⌋ ∧ c = ⌈(p.sub pModel).x * 100 + 200⌉
                  then 1 else 0)
              + (if r = ⌈(p.sub pModel).y * 100 + 200⌉ ∧ c = ⌊(p.sub pModel).x * 100 + 200⌋
                  then 1 else 0)
              + (if r = ⌈(p.sub pModel).y * 100 + 200⌉ ∧ c = ⌈(p.sub pModel).x * 100 + 200⌉
                  then 1 else 0)))
        ∧ ((insidePlot ⌊(p.sub pModel).y * 100 + 200⌋ ⌊(p.sub pModel).x * 100 + 200⌋
              ∧ insidePlot ⌊(p.sub pModel).y * 100 + 200⌋ ⌈(p.sub pModel).x * 100 + 200⌉
              ∧ insidePlot ⌈(p.sub pModel).y * 100 + 200⌉ ⌊(p.sub pModel).x * 100 + 200⌋
              ∧ insidePlot ⌈(p.sub pModel).y * 100 + 200⌉ ⌈(p.sub pModel).x * 100 + 200⌉)
            ↔ withinHistogramRange (p.sub pModel))
        ∧ ((residualAnalysis.corner self ptIdx i p pModel acc).1.outsidePlot = true ↔
            acc.1.outsidePlot = true ∨ ¬ withinHistogramRange (p.sub pModel))
        ∧ (withinHistogramRange (p.sub pModel) →
            plotTotal (residualAnalysis.corner self ptIdx i p pModel acc).1.errorPlot =
              plotTotal acc.1.errorPlot + 4))
      ∧ ∃ r, residualAnalysis ext geo self camera calibDataVec TrefCam = Run.done r
        ∧ (r.outsidePlot = true ↔
            ∃ k : Nat, k < calibDataVec.length ∧ ∃ data, calibDataVec[k]? = some data ∧
              ∃ i : Nat, i < (self.Nx * self.Ny).toNat ∧
                ¬ withinHistogramRange
                  (residualAnalysis.delta ext geo self camera TrefCam data i))
        ∧ ((∀ k : Nat, k < calibDataVec.length → ∀ data, calibDataVec[k]? = some data →
              ∀ i : Nat, i < (self.Nx * self.Ny).toNat →
                withinHistogramRange
                  (residualAnalysis.delta ext geo self camera TrefCam data i)) →
            plotTotal r.errorPlot = plotTotal geo.circles +
              4 * ((calibDataVec.length : R) * (((self.Nx * self.Ny).toNat : Nat) : R))) := by
  refine ⟨fun ptIdx i p pModel acc =>
    residualAnalysis_corner_histogram self ptIdx i p pModel acc, ?_⟩
  have hpos : 0 < self.Nx * self.Ny := Int.mul_pos hNx hNy
  have hn : toUInt32 (toInt32 (self.Nx * self.Ny)) = (self.Nx * self.Ny).toNat := by
    rw [toInt32_of_range _ (by omega) hrep]
    unfold toUInt32
    rw [Int.emod_eq_of_lt (le_of_lt hpos) (by omega)]
  obtain ⟨st, hrun, hout, htot⟩ := residualAnalysis_views_histogram ext geo self camera
    calibDataVec TrefCam
    { Ex := 0, Ey := 0, Emax := 0, errorPlot := geo.circles, outsidePlot := false,
      printed := [], shown := [] }
    (fun data hdata => ⟨(hviews data hdata).1, by rw [hn, (hviews data hdata).2]⟩)
    (by rw [hn, hgrid]) calibDataVec.length (le_refl _)
  rw [hn] at hout htot
  simp only [Bool.false_eq_true, false_or] at hout
  have hres : ∃ r, residualAnalysis ext geo self camera calibDataVec TrefCam = Run.done r
      ∧ r.outsidePlot = st.outsidePlot ∧ r.errorPlot = st.errorPlot := by
    unfold residualAnalysis
    simp only []
    erw [hrun, Run.bind_done]
    exact ⟨_, rfl, rfl, rfl⟩
  obtain ⟨r, hr, hro, hrp⟩ := hres
  rw [← hro] at hout
  rw [← hrp] at htot
  exact ⟨r, hr, hout, htot⟩

/-- C24, witness: two views of a board of 2 by 1 corners; the errors are (0, 0)
three times and (3/2, 0) once. -/
theorem residualAnalysis_histogram_witness :
    (0 < exampleBoard.Nx ∧ 0 < exampleBoard.Ny ∧ exampleBoard.Nx * exampleBoard.Ny < 2 ^ 31
      ∧ exampleBoard.grid.length = (exampleBoard.Nx * exampleBoard.Ny).toNat
      ∧ ∀ data ∈ exampleViews, data.extrinsic ≠ none ∧
          data.projection.length = (exampleBoard.Nx * exampleBoard.Ny).toNat)
      ∧ ∃ r, residualAnalysis ratExternal exampleGeometry exampleBoard CameraID.LEFT exampleViews
            ⟨⟨0, 0, 0⟩, ⟨0, 0, 0⟩⟩ = Run.done r
          ∧ (r.outsidePlot = true ↔
              ∃ k : Nat, k < exampleViews.length ∧ ∃ data, exampleViews[k]? = some data ∧
                ∃ i : Nat, i < (exampleBoard.Nx * exampleBoard.Ny).toNat ∧
                  ¬ withinHistogramRange
                    (residualAnalysis.delta ratExternal exampleGeometry exampleBoard
                      CameraID.LEFT ⟨⟨0, 0, 0⟩, ⟨0, 0, 0⟩⟩ data i)) :=
  ⟨⟨by decide, by decide, by decide, by decide, by simp [exampleViews, exampleBoard]⟩,
   (residualAnalysis_histogram ratExternal exampleGeometry exampleBoard CameraID.LEFT
      exampleViews ⟨⟨0, 0, 0⟩, ⟨0, 0, 0⟩⟩ (by decide) (by decide) (by decide) (by decide)
      (by simp [exampleViews, exampleBoard])).2.imp fun _ h => ⟨h.1, h.2.1⟩⟩

/-! ## C23: the sizes of the vectors of the `Odometry` object -/

/-- A property that every pass of a loop preserves holds when the loop ends. -/
theorem foldl_bind_invariant {α β : Type} (P : α → Prop) (g : β → α → Run α)
    (hg : ∀ i a b, P a → g i a = Run.done b → P b) (l : List β) (r : Run α)
    (hr : ∀ a, r = Run.done a → P a) (b : α)
    (h : l.foldl (fun (acc : Run α) (i : β) => acc.bind (g i)) r = Run.done b) : P b := by
  induction l generalizing r with
  | nil => exact hr b h
  | cons i l ih =>
    rw [List.foldl_cons] at h
    refine ih (r.bind (g i)) ?_ h
    intro a ha
    rw [Run.bind_eq_done] at ha
    obtain ⟨a0, ha0, hga⟩ := ha
    exact hg i a0 a (hr a0 ha0) hga

/-- What the loops that fill `observationVec` and `cloud` preserve: the two
vectors have one length, and the inlier mask is still empty. -/
theorem pushMatched_invariant {R : Type} (pool : List (LandMark R))
    (featureVec : List (Feature R)) (matchVec : List Int) (indexVec : List Nat) (lo hi : Nat)
    (odometry odo : Odometry R)
    (hinv : odometry.observationVec.length = odometry.cloud.length ∧ odometry.inlierMask = [])
    (h : pushMatched pool featureVec matchVec indexVec lo hi odometry = Run.done odo) :
    odo.observationVec.length = odo.cloud.length ∧ odo.inlierMask = [] := by
  unfold pushMatched at h
  refine foldl_bind_invariant
    (fun o : Odometry R => o.observationVec.length = o.cloud.length ∧ o.inlierMask = [])
    _ ?_ _ _ ?_ odo h
  · intro i a b hP hrun
    cases hm : matchVec[i]? with
    | none => simp [hm] at hrun
    | some m =>
      simp only [hm] at hrun
      by_cases hne : m ≠ -1
      · rw [if_pos hne] at hrun
        cases hf : featureVec[toSizeT m]? with
        | none => simp [hf] at hrun
        | some f =>
          cases hl : (indexVec[i]?).bind (fun k => pool[k]?) with
          | none => simp [hf, hl] at hrun
          | some lm =>
            simp only [hf, hl, Run.done.injEq] at hrun
            subst hrun
            simp only [List.length_append, List.length_singleton]
            exact ⟨by rw [hP.1], hP.2⟩
      · rw [if_neg hne, Run.done.injEq] at hrun
        subst hrun
        exact hP
  · intro a ha
    rw [Run.done.injEq] at ha
    subst ha
    exact hinv

/-- What the loops that fill `observationVec_2` and `cloud` preserve: the two
vectors have one length, no pool is empty, and the inlier mask is still empty. -/
theorem pushPools_invariant {R : Type} (pool : List (LandMark R))
    (featureVec : List (Feature R)) (matchVec : List (List Int)) (indexVec : List Nat)
    (lo hi : Nat) (odometry odo : Odometry R)
    (hinv : odometry.observationVec_2.length = odometry.cloud.length ∧
      (∀ p ∈ odometry.observationVec_2, p ≠ []) ∧ odometry.inlierMask_2 = [])
    (h : pushPools pool featureVec matchVec indexVec lo hi odometry = Run.done odo) :
    odo.observationVec_2.length = odo.cloud.length ∧
      (∀ p ∈ odo.observationVec_2, p ≠ []) ∧ odo.inlierMask_2 = [] := by
  unfold pushPools at h
  refine foldl_bind_invariant
    (fun o : Odometry R => o.observationVec_2.length = o.cloud.length ∧
      (∀ p ∈ o.observationVec_2, p ≠ []) ∧ o.inlierMask_2 = [])
    _ ?_ _ _ ?_ odo h
  · intro i a b hP hrun
    cases hm : matchVec[i]? with
    | none => simp [hm] at hrun
    | some row =>
      simp only [hm] at hrun
      rw [Run.bind_eq_done] at hrun
      obtain ⟨vec, -, hrun⟩ := hrun
      by_cases hpos : vec.length > 0
      · rw [if_pos hpos] at hrun
        cases hl : (indexVec[i]?).bind (fun k => pool[k]?) with
        | none => simp [hl] at hrun
        | some lm =>
          simp only [hl, Run.done.injEq] at hrun
          subst hrun
          simp only [List.length_append, List.length_singleton, List.mem_append,
            List.mem_singleton]
          refine ⟨by rw [hP.1], ?_, hP.2.2⟩
          rintro p (hp | rfl)
          · exact hP.2.1 p hp
          · exact List.ne_nil_of_length_pos hpos
      · rw [if_neg hpos, Run.done.injEq] at hrun
        subst hrun
        exact hP
  · intro a ha
    rw [Run.done.injEq] at ha
    subst ha
    exact hinv

theorem estimateOdometry_build_invariant {R : Type} [LinearOrderedField R] (ext : External R)
    (matcher : Matcher R) (self : StereoCartography R) (featureVec : List (Feature R))
    (odo : Odometry R)
    (h : estimateOdometry.build ext matcher self featureVec = Run.done odo ∨
      estimateOdometry_2.build ext matcher self featureVec = Run.done odo) :
    odo.observationVec.length = odo.cloud.length ∧ odo.inlierMask = [] := by
  rcases h with h | h
  · unfold estimateOdometry.build at h
    simp only [] at h
    rw [Run.bind_eq_done] at h
    obtain ⟨odo1, h1, h2⟩ := h
    exact pushMatched_invariant _ _ _ _ _ _ _ _
      (pushMatched_invariant _ _ _ _ _ _ _ _ ⟨rfl, rfl⟩ h1) h2
  · unfold estimateOdometry_2.build at h
    simp only [] at h
    rw [Run.bind_eq_done] at h
    obtain ⟨odo1, h1, h2⟩ := h
    exact pushMatched_invariant _ _ _ _ _ _ _ _
      (pushMatched_invariant _ _ _ _ _ _ _ _ ⟨rfl, rfl⟩ h1) h2

theorem estimateOdometry_3_build_invariant {R : Type} [LinearOrderedField R]
    (ext : External R) (matcher : Matcher R) (self : StereoCartography R)
    (featureVec : List (Feature R)) (odo : Odometry R)
    (h : estimateOdometry_3.build ext matcher self featureVec = Run.done odo) :
    odo.observationVec_2.length = odo.cloud.length ∧
      (∀ p ∈ odo.observationVec_2, p ≠ []) ∧ odo.inlierMask_2 = [] := by
  unfold estimateOdometry_3.build at h
  simp only [] at h
  rw [Run.bind_eq_done] at h
  obtain ⟨odo1, h1, h2⟩ := h
  have inv1 := pushPools_invariant _ _ _ _ _ _ _ _
    (⟨rfl, fun p hp => absurd hp (List.not_mem_nil p), rfl⟩ :
      (Odometry.new (self.trajectory.getLastD default) self.stereo.TbaseCam1
          CameraID.LEFT).observationVec_2.length =
        (Odometry.new (self.trajectory.getLastD default) self.stereo.TbaseCam1
          CameraID.LEFT).cloud.length ∧
      (∀ p ∈ (Odometry.new (self.trajectory.getLastD default) self.stereo.TbaseCam1
          CameraID.LEFT).observationVec_2, p ≠ []) ∧
      (Odometry.new (self.trajectory.getLastD default) self.stereo.TbaseCam1
          CameraID.LEFT).inlierMask_2 = []) h1
  by_cases h50 : self.WM.length < 50
  · rw [if_pos h50] at h2
    exact pushPools_invariant _ _ _ _ _ _ _ _ inv1 h2
  · rw [if_neg h50, Run.done.injEq] at h2
    subst h2
    exact inv1

/-! ### What the loops of `Ransac` and `Ransac_2` keep -/

theorem Ransac_loop_shape {R : Type} [LinearOrderedField R] (ext : External R)
    (rand : Nat → Nat) (fuel : Nat) (initialPose : Transformation R) (numPoints : Nat) (n : Nat)
    (st st1 : RansacState R)
    (h : Odometry.Ransac.loop ext rand fuel initialPose numPoints n st = Run.done st1) :
    st1.self.observationVec = st.self.observationVec ∧ st1.self.cloud = st.self.cloud ∧
      (st.self.inlierMask.length = numPoints → st1.self.inlierMask.length = numPoints) := by
  induction n generalizing st with
  | zero =>
    simp only [Odometry.Ransac.loop, Run.done.injEq] at h
    subst h
    exact ⟨rfl, rfl, id⟩
  | succ n ih =>
    rw [Odometry.Ransac.loop, Run.bind_eq_done] at h
    obtain ⟨st2, h2, h3⟩ := h
    obtain ⟨hyp, hh, rfl⟩ := Ransac_iteration_eq ext rand fuel initialPose numPoints st st2 h2
    have hlen := (Ransac_hypothesis_spec ext rand fuel initialPose numPoints st hyp hh).1
    obtain ⟨i1, i2, i3⟩ := ih _ h3
    have hk : (Odometry.Ransac.keepBest st hyp).self.observationVec = st.self.observationVec ∧
        (Odometry.Ransac.keepBest st hyp).self.cloud = st.self.cloud ∧
        (st.self.inlierMask.length = numPoints →
          (Odometry.Ransac.keepBest st hyp).self.inlierMask.length = numPoints) := by
      unfold Odometry.Ransac.keepBest
      split_ifs
      · exact ⟨rfl, rfl, fun _ => hlen⟩
      · exact ⟨rfl, rfl, id⟩
    exact ⟨i1.trans hk.1, i2.trans hk.2.1, fun h0 => i3 (hk.2.2 h0)⟩

theorem Ransac_done_shape {R : Type} [LinearOrderedField R] (ext : External R)
    (rand : Nat → Nat) (fuel : Nat) (self : Odometry R) (pos : Nat) (st : RansacState R)
    (h : Odometry.Ransac ext rand fuel self pos = Run.done st) :
    st.self.observationVec = self.observationVec ∧ st.self.cloud = self.cloud ∧
      self.observationVec.length = self.cloud.length ∧
      st.self.inlierMask.length = self.observationVec.length := by
  unfold Odometry.Ransac at h
  by_cases hlen : self.observationVec.length ≠ self.cloud.length
  · rw [if_pos hlen] at h
    cases h
  · rw [if_neg hlen] at h
    simp only [] at h
    obtain ⟨i1, i2, i3⟩ := Ransac_loop_shape ext rand fuel _ _ _ _ _ h
    exact ⟨i1, i2, not_not.mp hlen, i3 (resize_length _ _ _)⟩

theorem Ransac_2_iteration_eq {R : Type} [LinearOrderedField R] (ext : External R)
    (rand : Nat → Nat) (fuel : Nat) (initialPose : Transformation R) (numPoints : Nat)
    (st st1 : RansacState R)
    (hit : Odometry.Ransac_2.iteration ext rand fuel initialPose numPoints st = Run.done st1) :
    ∃ h, Odometry.Ransac_2.hypothesis ext rand fuel initialPose numPoints st = Run.done h ∧
      st1 = Odometry.Ransac_2.keepBest st h := by
  rw [Odometry.Ransac_2.iteration, Run.bind_eq_done] at hit
  obtain ⟨h, hh, hk⟩ := hit
  simp only [Run.done.injEq] at hk
  exact ⟨h, hh, hk.symm⟩

theorem Ransac_2_hypothesis_shape {R : Type} [LinearOrderedField R] (ext : External R)
    (rand : Nat → Nat) (fuel : Nat) (initialPose : Transformation R) (numPoints : Nat)
    (st : RansacState R) (h : Hypothesis R)
    (hh : Odometry.Ransac_2.hypothesis ext rand fuel initialPose numPoints st = Run.done h) :
    h.currentInlierMask_2.length = numPoints ∧
      ∀ i : Nat, (h.currentInlierMask_2.getD i []).length ≤
        (st.self.observationVec_2.getD i []).length := by
  unfold Odometry.Ransac_2.hypothesis at hh
  simp only [] at hh
  rw [Run.bind_eq_done] at hh
  obtain ⟨s, -, hh⟩ := hh
  rw [Run.bind_eq_done] at hh
  obtain ⟨p1, -, hh⟩ := hh
  rw [Run.bind_eq_done] at hh
  obtain ⟨p2, -, hh⟩ := hh
  rw [Run.bind_eq_done] at hh
  obtain ⟨p3, -, hh⟩ := hh
  simp only [Run.done.injEq] at hh
  subst hh
  simp only []
  obtain ⟨hlen, hrows, -⟩ := Ransac_2_rows_spec ext st.self.observationVec_2
    (ext.projectPointCloud st.self.camera
      (st.self.cloud.map (ext.inverseTransform
        (ext.compose
          (ext.solveOdometry st.self.TbaseCam st.self.camera
            (([s.idx1m, s.idx2m, s.idx3m].zip [p1.1, p2.1, p3.1]).map fun ij =>
              (st.self.cloud.getD ij.1 default,
                (st.self.observationVec_2.getD ij.1 []).getD ij.2 default))
            (some 10) initialPose)
          st.self.TbaseCam)))) numPoints
  refine ⟨hlen, ?_⟩
  intro i
  by_cases hi : i < numPoints
  · exact le_of_eq (hrows i hi).1
  · rw [List.getD_eq_default _ _ (by rw [hlen]; omega)]
    exact Nat.zero_le _

theorem Ransac_2_loop_shape {R : Type} [LinearOrderedField R] (ext : External R)
    (rand : Nat → Nat) (fuel : Nat) (initialPose : Transformation R) (numPoints : Nat) (n : Nat)
    (st st1 : RansacState R)
    (h : Odometry.Ransac_2.loop ext rand fuel initialPose numPoints n st = Run.done st1) :
    st1.self.observationVec_2 = st.self.observationVec_2 ∧ st1.self.cloud = st.self.cloud ∧
      (st.self.inlierMask_2.length = numPoints → st1.self.inlierMask_2.length = numPoints) ∧
      ((∀ i : Nat, (st.self.inlierMask_2.getD i []).length ≤
          (st.self.observationVec_2.getD i []).length) →
        ∀ i : Nat, (st1.self.inlierMask_2.getD i []).length ≤
          (st.self.observationVec_2.getD i []).length) := by
  induction n generalizing st with
  | zero =>
    simp only [Odometry.Ransac_2.loop, Run.done.injEq] at h
    subst h
    exact ⟨rfl, rfl, id, id⟩
  | succ n ih =>
    rw [Odometry.Ransac_2.loop, Run.bind_eq_done] at h
    obtain ⟨st2, h2, h3⟩ := h
    obtain ⟨hyp, hh, rfl⟩ := Ransac_2_iteration_eq ext rand fuel initialPose numPoints st st2 h2
    obtain ⟨hlen, hrows⟩ := Ransac_2_hypothesis_shape ext rand fuel initialPose numPoints st hyp hh
    obtain ⟨i1, i2, i3, i4⟩ := ih _ h3
    have hk : (Odometry.Ransac_2.keepBest st hyp).self.observationVec_2 =
          st.self.observationVec_2 ∧
        (Odometry.Ransac_2.keepBest st hyp).self.cloud = st.self.cloud ∧
        (st.self.inlierMask_2.length = numPoints →
          (Odometry.Ransac_2.keepBest st hyp).self.inlierMask_2.length = numPoints) ∧
        ((∀ i : Nat, (st.self.inlierMask_2.getD i []).length ≤
            (st.self.observationVec_2.getD i []).length) →
          ∀ i : Nat, ((Odometry.Ransac_2.keepBest st hyp).self.inlierMask_2.getD i []).length ≤
            (st.self.observationVec_2.getD i []).length) := by
      unfold Odometry.Ransac_2.keepBest
      split_ifs
      · exact ⟨rfl, rfl, fun _ => hlen, fun _ => hrows⟩
      · exact ⟨rfl, rfl, id, id⟩
    refine ⟨i1.trans hk.1, i2.trans hk.2.1, fun h0 => i3 (hk.2.2.1 h0), ?_⟩
    intro h0 i
    have := i4 (by rw [hk.1]; exact hk.2.2.2 h0) i
    rw [hk.1] at this
    exact this

theorem Ransac_2_done_shape {R : Type} [LinearOrderedField R] (ext : External R)
    (rand : Nat → Nat) (fuel : Nat) (self : Odometry R) (pos : Nat) (st : RansacState R)
    (h : Odometry.Ransac_2 ext rand fuel self pos = Run.done st) :
    st.self.observationVec_2 = self.observationVec_2 ∧ st.self.cloud = self.cloud ∧
      self.observationVec_2.length = self.cloud.length ∧
      st.self.inlierMask_2.length = self.observationVec_2.length ∧
      ((∀ i : Nat, ((resize self.inlierMask_2 self.observationVec_2.length []).getD i
          []).length ≤ (self.observationVec_2.getD i []).length) →
        ∀ i : Nat, (st.self.inlierMask_2.getD i []).length ≤
          (self.observationVec_2.getD i []).length) := by
  unfold Odometry.Ransac_2 at h
  by_cases hlen : self.observationVec_2.length ≠ self.cloud.length
  · rw [if_pos hlen] at h
    cases h
  · rw [if_neg hlen] at h
    simp only [] at h
    obtain ⟨i1, i2, i3, i4⟩ := Ransac_2_loop_shape ext rand fuel _ _ _ _ _ h
    exact ⟨i1, i2, not_not.mp hlen, i3 (resize_length _ _ _), i4⟩

/-- After the assertions, `computeTransformation` returns. -/
theorem computeTransformation_done {R : Type} [Zero R] (ext : External R) (self : Odometry R)
    (h1 : self.observationVec.length = self.cloud.length)
    (h2 : self.observationVec.length = self.inlierMask.length) :
    ∃ odo, self.computeTransformation ext = Run.done odo := by
  unfold Odometry.computeTransformation
  rw [if_neg (not_not.mpr h1), if_neg (not_not.mpr h2)]
  exact ⟨_, rfl⟩

theorem computeTransformation_2_residuals_some {R : Type} [Zero R] (self : Odometry R)
    (hrows : ∀ i : Nat, (self.inlierMask_2.getD i []).length ≤
      (self.observationVec_2.getD i []).length) :
    ∃ l, Odometry.computeTransformation_2.residuals self = some l := by
  unfold Odometry.computeTransformation_2.residuals
  have inner : ∀ (i m : Nat) (l0 : List (Vector3d R × Vector2d R)),
      m ≤ (self.inlierMask_2.getD i []).length →
      ∃ l, (List.range m).foldl
        (fun (acc : Option (List (Vector3d R × Vector2d R))) (j : Nat) =>
          acc.bind fun l =>
            if (self.inlierMask_2.getD i []).getD j false then
              ((self.observationVec_2.getD i [])[j]?).map fun o =>
                l ++ [(self.cloud.getD i default, o)]
            else some l)
        (some l0) = some l := by
    intro i m l0 hm
    induction m with
    | zero => exact ⟨l0, rfl⟩
    | succ m ih =>
      obtain ⟨l, hl⟩ := ih (by omega)
      rw [List.range_succ, List.foldl_append, hl]
      simp only [List.foldl_cons, List.foldl_nil, Option.some_bind]
      have hj : m < (self.observationVec_2.getD i []).length := by
        have := hrows i
        omega
      split_ifs
      · rw [List.getElem?_eq_getElem hj]
        exact ⟨_, rfl⟩
      · exact ⟨_, rfl⟩
  have outer : ∀ n : Nat, ∃ l, (List.range n).foldl
      (fun (acc : Option (List (Vector3d R × Vector2d R))) (i : Nat) =>
        (List.range (self.inlierMask_2.getD i []).length).foldl
          (fun (acc : Option (List (Vector3d R × Vector2d R))) (j : Nat) =>
            acc.bind fun l =>
              if (self.inlierMask_2.getD i []).getD j false then
                ((self.observationVec_2.getD i [])[j]?).map fun o =>
                  l ++ [(self.cloud.getD i default, o)]
              else some l)
          acc)
      (some []) = some l := by
    intro n
    induction n with
    | zero => exact ⟨[], rfl⟩
    | succ n ih =>
      obtain ⟨l, hl⟩ := ih
      rw [List.range_succ, List.foldl_append, hl]
      simp only [List.foldl_cons, List.foldl_nil]
      exact inner n _ l (le_refl _)
  exact outer _

/-- After the assertions, and with no mask row longer than its pool,
`computeTransformation_2` returns. -/
theorem computeTransformation_2_done {R : Type} [Zero R] (ext : External R)
    (self : Odometry R) (h1 : self.observationVec_2.length = self.cloud.length)
    (h2 : self.observationVec_2.length = self.inlierMask_2.length)
    (hrows : ∀ i : Nat, (self.inlierMask_2.getD i []).length ≤
      (self.observationVec_2.getD i []).length) :
    ∃ odo, self.computeTransformation_2 ext = Run.done odo := by
  obtain ⟨l, hl⟩ := computeTransformation_2_residuals_some self hrows
  unfold Odometry.computeTransformation_2
  rw [if_neg (not_not.mpr h1), if_neg (not_not.mpr h2), hl]
  exact ⟨_, rfl⟩

/-! ### No assertion fails, no pool is indexed modulo zero -/

theorem Run.bind_ne_assertFail {α β : Type} (r : Run α) (f : α → Run β)
    (hr : r ≠ Run.assertFail) (hf : ∀ a, r = Run.done a → f a ≠ Run.assertFail) :
    r.bind f ≠ Run.assertFail := by
  cases r with
  | done a => exact hf a rfl
  | exit1 => simp [Run.bind]
  | assertFail => exact absurd rfl hr
  | undefinedBehaviour => simp [Run.bind]
  | outOfFuel => simp [Run.bind]

theorem Run.bind_ne_undefinedBehaviour {α β : Type} (r : Run α) (f : α → Run β)
    (hr : r ≠ Run.undefinedBehaviour)
    (hf : ∀ a, r = Run.done a → f a ≠ Run.undefinedBehaviour) :
    r.bind f ≠ Run.undefinedBehaviour := by
  cases r with
  | done a => exact hf a rfl
  | exit1 => simp [Run.bind]
  | assertFail => simp [Run.bind]
  | undefinedBehaviour => exact absurd rfl hr
  | outOfFuel => simp [Run.bind]

theorem drawIndex_ne_assertFail (rand : Nat → Nat) (maxIdx : Nat) (avoid : List Nat)
    (fuel pos : Nat) :
    drawIndex rand maxIdx avoid fuel pos ≠ Run.assertFail ∧
      (maxIdx ≠ 0 → drawIndex rand maxIdx avoid fuel pos ≠ Run.undefinedBehaviour) := by
  induction fuel generalizing pos with
  | zero => simp [drawIndex]
  | succ fuel ih =>
    rw [drawIndex]
    by_cases hm : maxIdx = 0
    · simp [hm]
    · simp only [hm, if_false]
      by_cases hin : rand pos % maxIdx ∈ avoid
      · simp only [hin, if_true]
        exact ih _
      · simp [hin]

theorem checkSpan_three_done {R : Type} [LinearOrderedField R] (ext : External R)
    (self : Odometry R) (a b c : Vector3d R) (angleTh : R) :
    ∃ ok, self.checkSpan ext [a, b, c] angleTh = Run.done ok := by
  unfold Odometry.checkSpan
  simp

theorem sampleLoop_ne_assertFail {R : Type} [LinearOrderedField R] (ext : External R)
    (self : Odometry R) (rand : Nat → Nat) (maxIdx : Nat) (angleTh : R)
    (fuel passes counter pos : Nat) :
    self.sampleLoop ext rand maxIdx angleTh fuel passes counter pos ≠ Run.assertFail ∧
      (maxIdx ≠ 0 →
        self.sampleLoop ext rand maxIdx angleTh fuel passes counter pos ≠
          Run.undefinedBehaviour) := by
  induction passes generalizing counter pos with
  | zero => simp [Odometry.sampleLoop]
  | succ passes ih =>
    rw [Odometry.sampleLoop]
    by_cases hm : maxIdx = 0
    · simp [hm]
    · simp only [hm, if_false, ne_eq, not_false_eq_true, true_implies]
      have tail : ∀ (r2 r3 : Nat × Nat),
          (if counter + 1 = 10000 then (Run.exit1 : Run Sample)
            else
              (self.checkSpan ext [self.cloud.getD (rand pos % maxIdx) default,
                self.cloud.getD r2.1 default, self.cloud.getD r3.1 default] angleTh).bind
                fun ok =>
                  if ok = false then
                    Odometry.sampleLoop ext self rand maxIdx angleTh fuel passes (counter + 1)
                      r3.2
                  else Run.done ⟨rand pos % maxIdx, r2.1, r3.1, r3.2⟩) ≠ Run.assertFail ∧
          (if counter + 1 = 10000 then (Run.exit1 : Run Sample)
            else
              (self.checkSpan ext [self.cloud.getD (rand pos % maxIdx) default,
                self.cloud.getD r2.1 default, self.cloud.getD r3.1 default] angleTh).bind
                fun ok =>
                  if ok = false then
                    Odometry.sampleLoop ext self rand maxIdx angleTh fuel passes (counter + 1)
                      r3.2
                  else Run.done ⟨rand pos % maxIdx, r2.1, r3.1, r3.2⟩) ≠
            Run.undefinedBehaviour := by
        intro r2 r3
        by_cases hc : counter + 1 = 10000
        · simp [hc]
        · simp only [hc, if_false]
          obtain ⟨ok, hok⟩ := checkSpan_three_done ext self
            (self.cloud.getD (rand pos % maxIdx) default) (self.cloud.getD r2.1 default)
            (self.cloud.getD r3.1 default) angleTh
          rw [hok, Run.bind_done]
          cases ok with
          | false =>
            simp only [if_true]
            exact ⟨(ih _ _).1, (ih _ _).2 hm⟩
          | true => simp
      constructor
      · refine Run.bind_ne_assertFail _ _ (drawIndex_ne_assertFail _ _ _ _ _).1 ?_
        intro r2 _
        refine Run.bind_ne_assertFail _ _ (drawIndex_ne_assertFail _ _ _ _ _).1 ?_
        intro r3 _
        exact (tail r2 r3).1
      · refine Run.bind_ne_undefinedBehaviour _ _ ((drawIndex_ne_assertFail _ _ _ _ _).2 hm) ?_
        intro r2 _
        refine Run.bind_ne_undefinedBehaviour _ _
          ((drawIndex_ne_assertFail _ _ _ _ _).2 hm) ?_
        intro r3 _
        exact (tail r2 r3).2

theorem Ransac_loop_ne_assertFail {R : Type} [LinearOrderedField R] (ext : External R)
    (rand : Nat → Nat) (fuel : Nat) (initialPose : Transformation R) (numPoints : Nat) (n : Nat)
    (st : RansacState R) :
    Odometry.Ransac.loop ext rand fuel initialPose numPoints n st ≠ Run.assertFail := by
  induction n generalizing st with
  | zero => simp [Odometry.Ransac.loop]
  | succ n ih =>
    rw [Odometry.Ransac.loop]
    refine Run.bind_ne_assertFail _ _ ?_ (fun st1 _ => ih st1)
    rw [Odometry.Ransac.iteration]
    refine Run.bind_ne_assertFail _ _ ?_ (fun h _ => by simp)
    rw [Odometry.Ransac.hypothesis]
    exact Run.bind_ne_assertFail _ _ (sampleLoop_ne_assertFail _ _ _ _ _ _ _ _ _).1
      (fun s _ => by simp)

theorem Ransac_ne_assertFail {R : Type} [LinearOrderedField R] (ext : External R)
    (rand : Nat → Nat) (fuel : Nat) (self : Odometry R) (pos : Nat)
    (hlen : self.observationVec.length = self.cloud.length) :
    Odometry.Ransac ext rand fuel self pos ≠ Run.assertFail := by
  unfold Odometry.Ransac
  rw [if_neg (not_not.mpr hlen)]
  exact Ransac_loop_ne_assertFail ext rand fuel _ _ _ _

/-- With no empty pool, the draw `rand() % observationVec_2[idx].size()` is
defined for every landmark index. -/
theorem drawFeature_done {R : Type} (self : Odometry R) (rand : Nat → Nat) (idx pos : Nat)
    (hpools : ∀ p ∈ self.observationVec_2, p ≠ []) (hidx : idx < self.observationVec_2.length) :
    Odometry.Ransac_2.drawFeature self rand idx pos =
      Run.done (rand pos % (self.observationVec_2.getD idx []).length, pos + 1) := by
  unfold Odometry.Ransac_2.drawFeature
  have hget : self.observationVec_2.getD idx [] = self.observationVec_2[idx] :=
    List.getD_eq_getElem _ _ hidx
  have hne : self.observationVec_2[idx] ≠ [] := hpools _ (List.getElem_mem hidx)
  rw [if_neg]
  rw [hget]
  exact fun h => hne (List.length_eq_zero.mp h)

theorem Ransac_2_hypothesis_safe {R : Type} [LinearOrderedField R] (ext : External R)
    (rand : Nat → Nat) (fuel : Nat) (initialPose : Transformation R) (numPoints : Nat)
    (st : RansacState R) :
    Odometry.Ransac_2.hypothesis ext rand fuel initialPose numPoints st ≠ Run.assertFail ∧
      ((∀ p ∈ st.self.observationVec_2, p ≠ []) → st.self.observationVec_2.length ≠ 0 →
        Odometry.Ransac_2.hypothesis ext rand fuel initialPose numPoints st ≠
          Run.undefinedBehaviour) := by
  have hdf : ∀ idx pos, Odometry.Ransac_2.drawFeature st.self rand idx pos ≠ Run.assertFail := by
    intro idx pos
    unfold Odometry.Ransac_2.drawFeature
    split_ifs <;> simp
  constructor
  · rw [Odometry.Ransac_2.hypothesis]
    refine Run.bind_ne_assertFail _ _ (sampleLoop_ne_assertFail _ _ _ _ _ _ _ _ _).1 ?_
    intro s _
    refine Run.bind_ne_assertFail _ _ (hdf _ _) ?_
    intro p1 _
    refine Run.bind_ne_assertFail _ _ (hdf _ _) ?_
    intro p2 _
    refine Run.bind_ne_assertFail _ _ (hdf _ _) ?_
    intro p3 _
    simp
  · intro hpools hn
    rw [Odometry.Ransac_2.hypothesis]
    refine Run.bind_ne_undefinedBehaviour _ _
      ((sampleLoop_ne_assertFail _ _ _ _ _ _ _ _ _).2 hn) ?_
    intro s hs
    obtain ⟨⟨h1, h2, h3⟩, -⟩ := sampleLoop_done_indices ext _ rand _ _ fuel _ _ _ s hs
    rw [drawFeature_done st.self rand s.idx1m s.pos hpools h1, Run.bind_done,
      drawFeature_done st.self rand s.idx2m _ hpools h2, Run.bind_done,
      drawFeature_done st.self rand s.idx3m _ hpools h3, Run.bind_done]
    simp

theorem Ransac_2_loop_safe {R : Type} [LinearOrderedField R] (ext : External R)
    (rand : Nat → Nat) (fuel : Nat) (initialPose : Transformation R) (numPoints : Nat) (n : Nat)
    (st : RansacState R) :
    Odometry.Ransac_2.loop ext rand fuel initialPose numPoints n st ≠ Run.assertFail ∧
      ((∀ p ∈ st.self.observationVec_2, p ≠ []) → st.self.observationVec_2.length ≠ 0 →
        Odometry.Ransac_2.loop ext rand fuel initialPose numPoints n st ≠
          Run.undefinedBehaviour) := by
  induction n generalizing st with
  | zero => simp [Odometry.Ransac_2.loop]
  | succ n ih =>
    rw [Odometry.Ransac_2.loop]
    constructor
    · refine Run.bind_ne_assertFail _ _ ?_ (fun st1 _ => (ih st1).1)
      rw [Odometry.Ransac_2.iteration]
      exact Run.bind_ne_assertFail _ _ (Ransac_2_hypothesis_safe _ _ _ _ _ _).1
        (fun h _ => by simp)
    · intro hpools hn
      refine Run.bind_ne_undefinedBehaviour _ _ ?_ ?_
      · rw [Odometry.Ransac_2.iteration]
        exact Run.bind_ne_undefinedBehaviour _ _
          ((Ransac_2_hypothesis_safe _ _ _ _ _ _).2 hpools hn) (fun h _ => by simp)
      · intro st1 hst1
        obtain ⟨hyp, -, rfl⟩ :=
          Ransac_2_iteration_eq ext rand fuel initialPose numPoints st st1 hst1
        have hk : (Odometry.Ransac_2.keepBest st hyp).self.observationVec_2 =
            st.self.observationVec_2 := by
          unfold Odometry.Ransac_2.keepBest
          split_ifs <;> rfl
        exact (ih _).2 (by rw [hk]; exact hpools) (by rw [hk]; exact hn)

theorem Ransac_2_safe {R : Type} [LinearOrderedField R] (ext : External R)
    (rand : Nat → Nat) (fuel : Nat) (self : Odometry R) (pos : Nat)
    (hlen : self.observationVec_2.length = self.cloud.length)
    (hpools : ∀ p ∈ self.observationVec_2, p ≠ []) :
    Odometry.Ransac_2 ext rand fuel self pos ≠ Run.assertFail ∧
      (self.cloud ≠ [] → Odometry.Ransac_2 ext rand fuel self pos ≠ Run.undefinedBehaviour) := by
  unfold Odometry.Ransac_2
  rw [if_neg (not_not.mpr hlen)]
  refine ⟨(Ransac_2_loop_safe ext rand fuel _ _ _ _).1, ?_⟩
  intro hne
  refine (Ransac_2_loop_safe ext rand fuel _ _ _ _).2 hpools ?_
  intro h0
  apply hne
  apply List.length_eq_zero.mp
  rw [← hlen]
  exact h0

theorem foldl_bind_ne_assertFail {α β : Type} (g : β → α → Run α)
    (hg : ∀ i a, g i a ≠ Run.assertFail) (l : List β) (r : Run α) (hr : r ≠ Run.assertFail) :
    l.foldl (fun (acc : Run α) (i : β) => acc.bind (g i)) r ≠ Run.assertFail := by
  induction l generalizing r with
  | nil => exact hr
  | cons i l ih =>
    rw [List.foldl_cons]
    exact ih _ (Run.bind_ne_assertFail r (g i) hr (fun a _ => hg i a))

theorem pushMatched_ne_assertFail {R : Type} (pool : List (LandMark R))
    (featureVec : List (Feature R)) (matchVec : List Int) (indexVec : List Nat) (lo hi : Nat)
    (odometry : Odometry R) :
    pushMatched pool featureVec matchVec indexVec lo hi odometry ≠ Run.assertFail := by
  unfold pushMatched
  refine foldl_bind_ne_assertFail _ ?_ _ _ (by simp)
  intro i a
  cases matchVec[i]? with
  | none => simp
  | some m =>
    simp only []
    split_ifs
    · cases featureVec[toSizeT m]? with
      | none => simp
      | some f =>
        cases (indexVec[i]?).bind (fun k => pool[k]?) with
        | none => simp
        | some lm => simp
    · simp

theorem collectPool_ne_assertFail {R : Type} (featureVec : List (Feature R)) (row : List Int) :
    (collectPool featureVec row : Run (List (Vector2d R))) ≠ Run.assertFail := by
  unfold collectPool
  refine foldl_bind_ne_assertFail _ ?_ _ _ (by simp)
  intro m vec
  split_ifs
  · cases featureVec[toSizeT m]? with
    | none => simp
    | some f => simp
  · simp

theorem pushPools_ne_assertFail {R : Type} (pool : List (LandMark R))
    (featureVec : List (Feature R)) (matchVec : List (List Int)) (indexVec : List Nat)
    (lo hi : Nat) (odometry : Odometry R) :
    pushPools pool featureVec matchVec indexVec lo hi odometry ≠ Run.assertFail := by
  unfold pushPools
  refine foldl_bind_ne_assertFail _ ?_ _ _ (by simp)
  intro i a
  cases matchVec[i]? with
  | none => simp
  | some row =>
    simp only []
    refine Run.bind_ne_assertFail _ _ (collectPool_ne_assertFail featureVec row) ?_
    intro vec _
    split_ifs
    · cases (indexVec[i]?).bind (fun k => pool[k]?) with
      | none => simp
      | some lm => simp
    · simp

theorem build_ne_assertFail {R : Type} [LinearOrderedField R] (ext : External R)
    (matcher : Matcher R) (self : StereoCartography R) (featureVec : List (Feature R)) :
    estimateOdometry.build ext matcher self featureVec ≠ Run.assertFail ∧
      estimateOdometry_2.build ext matcher self featureVec ≠ Run.assertFail ∧
      estimateOdometry_3.build ext matcher self featureVec ≠ Run.assertFail := by
  refine ⟨?_, ?_, ?_⟩
  · unfold estimateOdometry.build
    exact Run.bind_ne_assertFail _ _ (pushMatched_ne_assertFail _ _ _ _ _ _ _)
      (fun _ _ => pushMatched_ne_assertFail _ _ _ _ _ _ _)
  · unfold estimateOdometry_2.build
    exact Run.bind_ne_assertFail _ _ (pushMatched_ne_assertFail _ _ _ _ _ _ _)
      (fun _ _ => pushMatched_ne_assertFail _ _ _ _ _ _ _)
  · unfold estimateOdometry_3.build
    refine Run.bind_ne_assertFail _ _ (pushPools_ne_assertFail _ _ _ _ _ _ _) ?_
    intro odo _
    split_ifs
    · exact pushPools_ne_assertFail _ _ _ _ _ _ _
    · simp

/-- After a completed `Ransac` on an object whose two vectors have one length,
`computeTransformation` passes its assertions and returns. -/
theorem Ransac_then_computeTransformation {R : Type} [LinearOrderedField R] (ext : External R)
    (rand : Nat → Nat) (fuel : Nat) (odo : Odometry R) (pos : Nat) (st : RansacState R)
    (h : Odometry.Ransac ext rand fuel odo pos = Run.done st) :
    st.self.observationVec.length = st.self.cloud.length ∧
      st.self.inlierMask.length = st.self.cloud.length ∧
      ∃ odo1, st.self.computeTransformation ext = Run.done odo1 := by
  obtain ⟨h1, h2, h3, h4⟩ := Ransac_done_shape ext rand fuel odo pos st h
  have e1 : st.self.observationVec.length = st.self.cloud.length := by rw [h1, h2, h3]
  have e2 : st.self.inlierMask.length = st.self.cloud.length := by rw [h4, h2, h3]
  exact ⟨e1, e2, computeTransformation_done ext st.self e1 (by rw [e1, e2])⟩

/-- After a completed `Ransac_2` on an object with an empty mask,
`computeTransformation_2` passes its assertions and returns. -/
theorem Ransac_2_then_computeTransformation_2 {R : Type} [LinearOrderedField R]
    (ext : External R) (rand : Nat → Nat) (fuel : Nat) (odo : Odometry R) (pos : Nat)
    (st : RansacState R) (hmask : odo.inlierMask_2 = [])
    (h : Odometry.Ransac_2 ext rand fuel odo pos = Run.done st) :
    st.self.observationVec_2.length = st.self.cloud.length ∧
      st.self.inlierMask_2.length = st.self.cloud.length ∧
      ∃ odo1, st.self.computeTransformation_2 ext = Run.done odo1 := by
  obtain ⟨h1, h2, h3, h4, h5⟩ := Ransac_2_done_shape ext rand fuel odo pos st h
  have e1 : st.self.observationVec_2.length = st.self.cloud.length := by rw [h1, h2, h3]
  have e2 : st.self.inlierMask_2.length = st.self.cloud.length := by rw [h4, h2, h3]
  have hrows : ∀ i : Nat, (st.self.inlierMask_2.getD i []).length ≤
      (st.self.observationVec_2.getD i []).length := by
    rw [h1]
    apply h5
    intro i
    rw [hmask]
    have : (resize ([] : List (List Bool)) odo.observationVec_2.length []).getD i [] = [] := by
      unfold resize
      simp only [List.take_nil, List.nil_append, List.length_nil, Nat.sub_zero]
      by_cases hi : i < odo.observationVec_2.length
      · rw [List.getD_eq_getElem _ _ (by simpa using hi)]
        simp
      · rw [List.getD_eq_default _ _ (by simpa using hi)]
    rw [this]
    exact Nat.zero_le _
  exact ⟨e1, e2, computeTransformation_2_done ext st.self e1 (by rw [e1, e2]) hrows⟩

/-- C23. Whatever the matcher returns, an `Odometry` object that
`estimateOdometry` or `estimateOdometry_2` has built has `observationVec` and
`cloud` of one length, so the assertion of `Ransac` holds, and when `Ransac`
returns `inlierMask` has that length too, so `computeTransformation` passes its
two assertions and returns. An object that `estimateOdometry_3` has built has
`observationVec_2` and `cloud` of one length and no empty pool, so every draw
`rand() % observationVec_2[idx].size()` has a non-zero modulus, the assertion
of `Ransac_2` holds, `Ransac_2` has no undefined step when there is a point,
and when it returns `computeTransformation_2` passes its assertions and
returns. None of the three functions ends in a failed assertion. -/
theorem odometry_vector_sizes {R : Type} [LinearOrderedField R] (ext : External R)
    (matcher : Matcher R) (rand : Nat → Nat) (self : StereoCartography R)
    (featureVec : List (Feature R)) :
    (∀ odo : Odometry R,
        (estimateOdometry.build ext matcher self featureVec = Run.done odo ∨
          estimateOdometry_2.build ext matcher self featureVec = Run.done odo) →
        odo.observationVec.length = odo.cloud.length
          ∧ ∀ fuel pos : Nat,
              Odometry.Ransac ext rand fuel odo pos ≠ Run.assertFail
                ∧ ∀ st, Odometry.Ransac ext rand fuel odo pos = Run.done st →
                    st.self.observationVec.length = st.self.cloud.length
                      ∧ st.self.inlierMask.length = st.self.cloud.length
                      ∧ ∃ odo1, st.self.computeTransformation ext = Run.done odo1)
      ∧ (∀ odo : Odometry R,
          estimateOdometry_3.build ext matcher self featureVec = Run.done odo →
          odo.observationVec_2.length = odo.cloud.length
            ∧ (∀ p ∈ odo.observationVec_2, p ≠ [])
            ∧ (∀ idx pos : Nat, idx < odo.observationVec_2.length →
                (odo.observationVec_2.getD idx []).length ≠ 0
                  ∧ Odometry.Ransac_2.drawFeature odo rand idx pos =
                    Run.done (rand pos % (odo.observationVec_2.getD idx []).length, pos + 1))
            ∧ ∀ fuel pos : Nat,
                Odometry.Ransac_2 ext rand fuel odo pos ≠ Run.assertFail
                  ∧ (odo.cloud ≠ [] →
                      Odometry.Ransac_2 ext rand fuel odo pos ≠ Run.undefinedBehaviour)
                  ∧ ∀ st, Odometry.Ransac_2 ext rand fuel odo pos = Run.done st →
                      st.self.observationVec_2.length = st.self.cloud.length
                        ∧ st.self.inlierMask_2.length = st.self.cloud.length
                        ∧ ∃ odo1, st.self.computeTransformation_2 ext = Run.done odo1)
      ∧ ∀ fuel pos : Nat,
          estimateOdometry ext matcher rand fuel self featureVec pos ≠ Run.assertFail
            ∧ estimateOdometry_2 ext matcher rand fuel self featureVec pos ≠ Run.assertFail
            ∧ estimateOdometry_3 ext matcher rand fuel self featureVec pos ≠ Run.assertFail := by
  have hS12 : ∀ odo : Odometry R,
      (estimateOdometry.build ext matcher self featureVec = Run.done odo ∨
        estimateOdometry_2.build ext matcher self featureVec = Run.done odo) →
      odo.observationVec.length = odo.cloud.length
        ∧ ∀ fuel pos : Nat,
            Odometry.Ransac ext rand fuel odo pos ≠ Run.assertFail
              ∧ ∀ st, Odometry.Ransac ext rand fuel odo pos = Run.done st →
                  st.self.observationVec.length = st.self.cloud.length
                    ∧ st.self.inlierMask.length = st.self.cloud.length
                    ∧ ∃ odo1, st.self.computeTransformation ext = Run.done odo1 := by
    intro odo hb
    obtain ⟨hlen, -⟩ := estimateOdometry_build_invariant ext matcher self featureVec odo hb
    refine ⟨hlen, fun fuel pos => ⟨Ransac_ne_assertFail ext rand fuel odo pos hlen, ?_⟩⟩
    intro st hst
    exact Ransac_then_computeTransformation ext rand fuel odo pos st hst
  have hS3 : ∀ odo : Odometry R,
      estimateOdometry_3.build ext matcher self featureVec = Run.done odo →
      odo.observationVec_2.length = odo.cloud.length
        ∧ (∀ p ∈ odo.observationVec_2, p ≠ [])
        ∧ (∀ idx pos : Nat, idx < odo.observationVec_2.length →
            (odo.observationVec_2.getD idx []).length ≠ 0
              ∧ Odometry.Ransac_2.drawFeature odo rand idx pos =
                Run.done (rand pos % (odo.observationVec_2.getD idx []).length, pos + 1))
        ∧ ∀ fuel pos : Nat,
            Odometry.Ransac_2 ext rand fuel odo pos ≠ Run.assertFail
              ∧ (odo.cloud ≠ [] →
                  Odometry.Ransac_2 ext rand fuel odo pos ≠ Run.undefinedBehaviour)
              ∧ ∀ st, Odometry.Ransac_2 ext rand fuel odo pos = Run.done st →
                  st.self.observationVec_2.length = st.self.cloud.length
                    ∧ st.self.inlierMask_2.length = st.self.cloud.length
                    ∧ ∃ odo1, st.self.computeTransformation_2 ext = Run.done odo1 := by
    intro odo hb
    obtain ⟨hlen, hpools, hmask⟩ :=
      estimateOdometry_3_build_invariant ext matcher self featureVec odo hb
    refine ⟨hlen, hpools, ?_, ?_⟩
    · intro idx pos hidx
      refine ⟨?_, drawFeature_done odo rand idx pos hpools hidx⟩
      rw [List.getD_eq_getElem _ _ hidx]
      exact fun h0 => hpools _ (List.getElem_mem hidx) (List.length_eq_zero.mp h0)
    · intro fuel pos
      obtain ⟨s1, s2⟩ := Ransac_2_safe ext rand fuel odo pos hlen hpools
      exact ⟨s1, s2, fun st hst =>
        Ransac_2_then_computeTransformation_2 ext rand fuel odo pos st hmask hst⟩
  obtain ⟨b1, b2, b3⟩ := build_ne_assertFail ext matcher self featureVec
  refine ⟨hS12, hS3, fun fuel pos => ⟨?_, ?_, ?_⟩⟩
  · unfold estimateOdometry
    refine Run.bind_ne_assertFail _ _ b1 ?_
    intro odo hodo
    obtain ⟨-, hr⟩ := hS12 odo (Or.inl hodo)
    refine Run.bind_ne_assertFail _ _ (hr fuel pos).1 ?_
    intro st hst
    obtain ⟨-, -, odo1, h1⟩ := (hr fuel pos).2 st hst
    rw [h1]
    simp [Run.bind]
  · unfold estimateOdometry_2
    refine Run.bind_ne_assertFail _ _ b2 ?_
    intro odo hodo
    obtain ⟨-, hr⟩ := hS12 odo (Or.inr hodo)
    refine Run.bind_ne_assertFail _ _ (hr fuel pos).1 ?_
    intro st hst
    obtain ⟨-, -, odo1, h1⟩ := (hr fuel pos).2 st hst
    rw [h1]
    simp [Run.bind]
  · unfold estimateOdometry_3
    refine Run.bind_ne_assertFail _ _ b3 ?_
    intro odo hodo
    obtain ⟨-, -, -, hr⟩ := hS3 odo hodo
    refine Run.bind_ne_assertFail _ _ (hr fuel pos).1 ?_
    intro st hst
    obtain ⟨-, -, odo1, h1⟩ := (hr fuel pos).2.2 st hst
    rw [h1]
    simp [Run.bind]

/-- The object built from `nearLandmarkMap`, whose landmark the third strategy
accepts, and one feature matched to it. -/
theorem exampleBuilt_eq :
    estimateOdometry_3.build ratExternal exampleMatcher nearLandmarkMap exampleFeatures =
      Run.done exampleBuilt := by
  simp [estimateOdometry_3.build, estimateOdometry_3.candidates, scanPool,
    estimateOdometry_3.accept, nearLandmarkMap, exampleMatcher, exampleFeatures, pushPools,
    collectPool, exampleBuilt, leftCameraPoint, ratExternal, translationExternal,
    seenAtLastPose, Odometry.new, Vector3d.sub, toSizeT, Run.bind, List.range', List.range,
    List.range.loop]

/-- C23, witness: the object that `estimateOdometry_3` builds from
`nearLandmarkMap` has one pool for its one point, the pool is not empty, and
`Ransac_2` does not fail its assertion on it. -/
theorem odometry_vector_sizes_witness :
    estimateOdometry_3.build ratExternal exampleMatcher nearLandmarkMap exampleFeatures =
        Run.done exampleBuilt
      ∧ exampleBuilt.observationVec_2.length = exampleBuilt.cloud.length
      ∧ (∀ p ∈ exampleBuilt.observationVec_2, p ≠ [])
      ∧ Odometry.Ransac_2 ratExternal cycleRand 5 exampleBuilt 0 ≠ Run.assertFail :=
  ⟨exampleBuilt_eq,
   ((odometry_vector_sizes ratExternal exampleMatcher cycleRand nearLandmarkMap
      exampleFeatures).2.1 exampleBuilt exampleBuilt_eq).1,
   ((odometry_vector_sizes ratExternal exampleMatcher cycleRand nearLandmarkMap
      exampleFeatures).2.1 exampleBuilt exampleBuilt_eq).2.1,
   (((odometry_vector_sizes ratExternal exampleMatcher cycleRand nearLandmarkMap
      exampleFeatures).2.1 exampleBuilt exampleBuilt_eq).2.2.2 5 0).1⟩

end SpcSlam
